import Mathlib

/-!
# Command-mode physical encoder: `sde_encoder_phys_cmd.c`

A shallow embedding of the command-mode display encoder of the SDE display
driver (`msm/sde/sde_encoder_phys_cmd.c`) and theorems about it.

Conventions of the embedding.

* `struct sde_encoder_phys` and the `struct sde_encoder_phys_cmd` that contains
  it are one record, `sde_encoder_phys`.
* A hardware block pointer (`hw_ctl`, `hw_pp`, `hw_intf`) is an `Option`; the
  record under it says which of its `ops` function pointers are non-NULL.
* Calls that leave the encoder (parent callbacks, hardware `ops`, helpers of
  other files that program hardware or raise events) are appended to the
  `trace` field in program order.  Event-log and debug-print statements
  (`SDE_EVT32*`, `SDE_DEBUG*`, `SDE_ERROR*`, `pr_err`) and wait-queue wake-ups
  are not recorded; where the arguments of an event-log statement read through
  a block pointer that no earlier check of the function covers, the read is
  part of the model and faults on a NULL pointer like any other dereference.
* The lock operations, atomic counter operations and plain stores to shared
  fields that an interrupt callback makes are listed, path by path, by a
  second function per callback (`..._steps`).
* Values read from hardware or from other files are arguments of the function
  that reads them.
* `atomic_t` and `int` are `Int` with two's complement wrap-around made
  explicit (`wrap_s32`); `u32` values are kept in `[0, 2^32)` by `wrap_u32`.
* A dereference of a NULL block pointer, a call through a NULL callback
  pointer or a division by zero makes the function return `none`.
* The interrupts that arrive during a blocking wait are a list run by
  `run_irqs`; a wait that returns has seen no callback fault, so an entry whose
  callback would fault is passed over there.
* A polling loop takes the successive hardware readings as a list and returns
  `none` when the list runs out before the loop ends.
* The increment of the pending-kickoff counter at a trigger, the success
  condition of the wait helper and the order of the steps of a commit belong
  to `sde_encoder.c`; where a bound on the counter needs them they are
  modelled from the spec and marked so.
* `rc |= x` on `int` values is `int_or`, the bitwise OR of two's complement
  integers.
* Code under the vendor build options (`CONFIG_PXLW_IRIS`, `PXLW_IRIS_DUAL`,
  `OPLUS_FEATURE_*`) is left out.
-/

namespace SdeCmd

/-! ## Machine integers and kernel helpers -/

/-- Largest value of a C `int`. -/
def INT_MAX : Int := 2147483647

/-- Conversion of an integer value to `u32`. -/
def wrap_u32 (x : Int) : Int := x % 4294967296

/-- Conversion of an integer value to `int` (two's complement). -/
def wrap_s32 (x : Int) : Int := (x + 2147483648) % 4294967296 - 2147483648

/-- Conversion of an integer value to `s64` (`ktime_t`). -/
def wrap_s64 (x : Int) : Int :=
  (x + 9223372036854775808) % 18446744073709551616 - 9223372036854775808

/-- Kernel `atomic_add_unless(v, a, u)`: adds `a` to `v` unless `v` equals `u`;
returns the new counter value and whether the addition was done. -/
def atomic_add_unless (v a u : Int) : Int × Bool :=
  if v = u then (v, false) else (wrap_s32 (v + a), true)

/-- Kernel `mult_frac(x, numer, denom)`:
`quot = x / denom; rem = x % denom; quot * numer + (rem * numer) / denom`,
with C division (truncation towards zero); `none` when `denom` is zero. -/
def mult_frac (x numer denom : Int) : Option Int :=
  if denom = 0 then none
  else some (Int.tdiv x denom * numer + Int.tdiv (Int.tmod x denom * numer) denom)

/-- Kernel `round_down(x, y)` for a power of two `y`: `x & ~(y - 1)`. -/
def round_down (x y : Int) : Int := x - x % y

/-! ## Constants -/

/-- Baseline tear-check start threshold, in lines. -/
def DEFAULT_TEARCHECK_SYNC_THRESH_START : Int := 4
/-- Baseline tear-check continue threshold, in lines. -/
def DEFAULT_TEARCHECK_SYNC_THRESH_CONTINUE : Int := 4

/-- Kernel errno `EINVAL`. -/
def EINVAL : Int := 22
/-- Kernel errno `ETIMEDOUT`. -/
def ETIMEDOUT : Int := 110

/-- Modelled from the spec: the frame event flags are declared in
`sde_encoder.h`, which is not among the sources; each is a distinct single bit
of the `u32` event mask handed to `handle_frame_done`. -/
def SDE_ENCODER_FRAME_EVENT_DONE : Nat := 1
/-- Modelled from the spec: error flag of the frame event mask (see
`SDE_ENCODER_FRAME_EVENT_DONE`). -/
def SDE_ENCODER_FRAME_EVENT_ERROR : Nat := 2
/-- Modelled from the spec: release-fence flag of the frame event mask (see
`SDE_ENCODER_FRAME_EVENT_DONE`). -/
def SDE_ENCODER_FRAME_EVENT_SIGNAL_RELEASE_FENCE : Nat := 8
/-- Modelled from the spec: retire-fence flag of the frame event mask (see
`SDE_ENCODER_FRAME_EVENT_DONE`). -/
def SDE_ENCODER_FRAME_EVENT_SIGNAL_RETIRE_FENCE : Nat := 16

/-! ## Data model -/

/-- Modelled from the spec: `enum sde_enc_split_role` (`sde_encoder_phys.h`,
not among the sources): the role of an encoder in a synchronized group. -/
inductive sde_enc_split_role
  | ENC_ROLE_SOLO
  | ENC_ROLE_MASTER
  | ENC_ROLE_SLAVE
  | ENC_ROLE_SKIP
deriving DecidableEq, Repr

/-- Modelled from the spec: `enum sde_enc_enable_state` (`sde_encoder_phys.h`,
not among the sources), restricted to the states this file assigns or tests. -/
inductive sde_enc_enable_state
  | SDE_ENC_DISABLED
  | SDE_ENC_ENABLED
  | SDE_ENC_ERR_NEEDS_HW_RESET
deriving DecidableEq, Repr

/-- Modelled from the spec: `enum frame_trigger_mode_type` (`sde_encoder.h`,
not among the sources): default, serialized and posted-start triggering. -/
inductive frame_trigger_mode_type
  | FRAME_DONE_WAIT_DEFAULT
  | FRAME_DONE_WAIT_SERIALIZE
  | FRAME_DONE_WAIT_POSTED_START
deriving DecidableEq, Repr

/-- Modelled from the spec: `enum sde_rm_qsync_modes` (`sde_rm.h`, not among
the sources): variable refresh off, continuous, one-shot. -/
inductive sde_rm_qsync_modes
  | SDE_RM_QSYNC_DISABLED
  | SDE_RM_QSYNC_CONTINUOUS_MODE
  | SDE_RM_QSYNC_ONE_SHOT_MODE
deriving DecidableEq, Repr

/-- Logical interrupt slots used by this file (`enum sde_intr_idx`). -/
inductive sde_intr_idx
  | INTR_IDX_CTL_START
  | INTR_IDX_CTL_DONE
  | INTR_IDX_PINGPONG
  | INTR_IDX_RDPTR
  | INTR_IDX_AUTOREFRESH_DONE
  | INTR_IDX_WRPTR
deriving DecidableEq, Repr

/-- Recovery notifications sent with `DRM_EVENT_SDE_HW_RECOVERY`. -/
inductive sde_recovery_event
  | SDE_RECOVERY_SUCCESS
  | SDE_RECOVERY_CAPTURE
deriving DecidableEq, Repr

/-- The autorefresh programming, `struct sde_hw_autorefresh`. -/
structure sde_hw_autorefresh where
  enable : Bool
  frame_count : Nat
deriving DecidableEq, Repr

/-- Which `ops` of the controller block `hw_ctl` are non-NULL. -/
structure sde_hw_ctl where
  get_scheduler_status : Bool := true
  trigger_output_fence_override : Bool := true
  setup_intf_cfg : Bool := true
  update_bitmask : Bool := true
  /-- The feature bit `SDE_CTL_ACTIVE_CFG` of `ctl->caps->features`. -/
  active_cfg : Bool := true
  get_start_state : Bool := true
deriving DecidableEq, Repr

/-- Which `ops` of the pingpong block `hw_pp` are non-NULL. -/
structure sde_hw_pingpong where
  update_tearcheck : Bool := true
  setup_autorefresh : Bool := true
  get_autorefresh : Bool := true
  connect_external_te : Bool := true
  get_vsync_info : Bool := true
  setup_tearcheck : Bool := true
  enable_tearcheck : Bool := true
  /-- The pointer `hw_pp->merge_3d` is non-NULL. -/
  merge_3d : Bool := false
  poll_timeout_wr_ptr : Bool := true
deriving DecidableEq, Repr

/-- Which `ops` of the timing interface block `hw_intf` are non-NULL. -/
structure sde_hw_intf where
  update_tearcheck : Bool := true
  override_tear_rd_ptr_val : Bool := true
  get_autorefresh_status : Bool := true
  setup_autorefresh : Bool := true
  get_autorefresh : Bool := true
  connect_external_te : Bool := true
  get_vsync_info : Bool := true
  check_and_reset_tearcheck : Bool := true
  setup_tearcheck : Bool := true
  enable_tearcheck : Bool := true
  reset_counter : Bool := true
  enable_compressed_input : Bool := true
  enable_wide_bus : Bool := true
  poll_timeout_wr_ptr : Bool := true
deriving DecidableEq, Repr

/-- Which `ops` of the top-level block `hw_mdptop` are non-NULL; the block
itself is attached at creation. -/
structure sde_hw_mdp where
  get_autorefresh_status : Bool := true
deriving DecidableEq, Repr

/-- The tear-check config `struct sde_hw_tear_check` (its declaration is not
among the sources; the fields are the ones this file assigns, as `u32`). -/
structure sde_hw_tear_check where
  vsync_count : Int
  hw_vsync_mode : Int
  sync_cfg_height : Int
  vsync_init_val : Int
  sync_threshold_start : Int
  sync_threshold_continue : Int
  start_pos : Int
  rd_ptr_irq : Int
  wr_ptr_irq : Int
deriving DecidableEq, Repr

/-- A call that leaves the encoder, as recorded in `trace`. -/
inductive hw_effect
  /-- Parent callback `parent_ops.handle_frame_done(parent, phys_enc, event)`. -/
  | handle_frame_done (event : Nat)
  /-- Parent callback `parent_ops.handle_vblank_virt(parent, phys_enc)`. -/
  | handle_vblank_virt
  /-- Hardware write `ctl->ops.trigger_output_fence_override(ctl)`. -/
  | trigger_output_fence_override
  /-- Hardware write `hw_intf->ops.override_tear_rd_ptr_val(hw_intf, line)`. -/
  | override_tear_rd_ptr_val (line : Int)
  /-- Hardware write `update_tearcheck` on the interface (`true`) or pingpong
  block, with the `sync_threshold_start` of the otherwise zeroed config. -/
  | update_tearcheck (on_intf : Bool) (sync_threshold_start : Int)
  /-- Helper call `sde_encoder_helper_unregister_irq(phys_enc, idx)`. -/
  | unregister_irq (idx : sde_intr_idx)
  /-- Helper call `sde_encoder_helper_register_irq(phys_enc, idx)`. -/
  | register_irq (idx : sde_intr_idx)
  /-- Diagnostic dump `SDE_DBG_DUMP(SDE_DBG_BUILT_IN_ALL[, "secure"])`. -/
  | dbg_dump_all (secure : Bool)
  /-- Fail-stop dump `SDE_DBG_DUMP(0x0, "panic")`. -/
  | dbg_dump_panic
  /-- Connector event `sde_connector_event_notify(conn, DRM_EVENT_SDE_HW_RECOVERY, ..)`. -/
  | event_notify (kind : sde_recovery_event)
  /-- Hardware write `setup_autorefresh` on the interface (`true`) or pingpong
  block, with the config written. -/
  | setup_autorefresh (on_intf : Bool) (cfg : sde_hw_autorefresh)
  /-- Helper call `sde_encoder_helper_trigger_start(phys_enc)`, the ordinary
  transmission trigger. -/
  | trigger_start
  /-- Hardware write `connect_external_te` on the interface (`true`) or pingpong
  block, with the requested connection. -/
  | connect_external_te (on_intf : Bool) (enable : Bool)
  /-- Hardware call `hw_intf->ops.check_and_reset_tearcheck(hw_intf, &tear_status)`. -/
  | check_and_reset_tearcheck
  /-- Fail-stop dump `SDE_DBG_DUMP(SDE_DBG_BUILT_IN_ALL, "panic")`. -/
  | dbg_dump_all_panic
  /-- Helper call `sde_encoder_helper_split_config(phys_enc, phys_enc->intf_idx)`. -/
  | split_config
  /-- Hardware write `ctl->ops.setup_intf_cfg(ctl, &intf_cfg)`. -/
  | setup_intf_cfg
  /-- Helper call `sde_encoder_helper_update_intf_cfg(phys_enc)`. -/
  | helper_update_intf_cfg
  /-- Hardware write `setup_tearcheck` on the interface (`true`) or pingpong block. -/
  | setup_tearcheck (on_intf : Bool) (cfg : sde_hw_tear_check)
  /-- Hardware write `enable_tearcheck` on the interface (`true`) or pingpong block. -/
  | enable_tearcheck (on_intf : Bool) (enable : Bool)
  /-- Hardware write `hw_intf->ops.enable_compressed_input(hw_intf, compressed, false)`. -/
  | enable_compressed_input (compressed : Bool)
  /-- Hardware write `hw_intf->ops.enable_wide_bus(hw_intf, enable)`. -/
  | enable_wide_bus (enable : Bool)
  /-- Hardware write `ctl->ops.update_bitmask(ctl, SDE_HW_FLUSH_INTF, intf_idx, 1)`. -/
  | update_bitmask_intf
  /-- Hardware write `ctl->ops.update_bitmask(ctl, SDE_HW_FLUSH_MERGE_3D, idx, 1)`. -/
  | update_bitmask_merge_3d
  /-- Helper call `sde_encoder_helper_phys_disable(phys_enc, NULL)`. -/
  | helper_phys_disable
  /-- Hardware write `hw_intf->ops.reset_counter(hw_intf)`. -/
  | reset_counter
  /-- Helper call `sde_encoder_helper_switch_vsync(phys_enc->parent, watchdog_te)`. -/
  | switch_vsync (watchdog_te : Bool)
  /-- Helper call `sde_encoder_helper_hw_fence_sw_override(phys_enc, ctl)`. -/
  | hw_fence_sw_override
  /-- Helper call `sde_encoder_helper_report_irq_timeout(phys_enc, idx)`. -/
  | report_irq_timeout (idx : sde_intr_idx)
  /-- Helper call `sde_encoder_needs_hw_reset(phys_enc->parent)`. -/
  | needs_hw_reset
deriving DecidableEq, Repr

/-- The encoder instance: `struct sde_encoder_phys_cmd` with its embedded
`struct sde_encoder_phys`, and the trace of calls made so far.  The field
defaults describe an enabled master encoder with every block attached and
nothing pending; they only shorten the concrete states written below. -/
structure sde_encoder_phys where
  hw_ctl : Option sde_hw_ctl := some {}
  hw_pp : Option sde_hw_pingpong := some {}
  hw_intf : Option sde_hw_intf := some {}
  hw_mdptop : sde_hw_mdp := {}
  /-- The pointer `phys_enc->connector` is non-NULL. -/
  connector : Bool := true
  /-- The pointer `phys_enc->connector->state` is non-NULL. -/
  conn_state : Bool := true
  has_intf_te : Bool := true
  /-- The callback `parent_ops.handle_frame_done` is non-NULL. -/
  handle_frame_done : Bool := true
  /-- The callback `parent_ops.handle_vblank_virt` is non-NULL. -/
  handle_vblank_virt : Bool := true
  /-- The callback `parent_ops.get_qsync_fps` is non-NULL. -/
  get_qsync_fps : Bool := true
  split_role : sde_enc_split_role := .ENC_ROLE_MASTER
  enable_state : sde_enc_enable_state := .SDE_ENC_ENABLED
  frame_trigger_mode : frame_trigger_mode_type := .FRAME_DONE_WAIT_DEFAULT
  cont_splash_enabled : Bool := false
  kickoff_timeout_ms : Nat := 84
  /-- Field `cached_mode.vdisplay`. -/
  vdisplay : Nat := 0
  /-- Field `cached_mode.vtotal`. -/
  vtotal : Nat := 0
  pending_kickoff_cnt : Int := 0
  pending_retire_fence_cnt : Int := 0
  recovered : Bool := false
  autorefresh_disable_trans : Bool := false
  /-- Field `autorefresh.cfg` of the command encoder. -/
  autorefresh_cfg : sde_hw_autorefresh := ⟨false, 0⟩
  /-- Field `autorefresh.kickoff_cnt` of the command encoder. -/
  autorefresh_kickoff_cnt : Int := 0
  pending_vblank_cnt : Int := 0
  vblank_refcount : Int := 0
  /-- The timeout-report counter; its declaration (`sde_encoder_phys.h`) is not
  among the sources, it is kept as a natural number. -/
  frame_tx_timeout_report_cnt : Nat := 0
  wr_ptr_wait_success : Bool := false
  qsync_threshold_lines : Int := 0
  /-- The TE timestamp ring, oldest entry first. -/
  te_timestamp_list : List Int := []
  trace : List hw_effect := []
deriving DecidableEq, Repr

/-- Source: `sde_encoder_phys_cmd_is_master`. -/
def sde_encoder_phys_cmd_is_master (phys_enc : sde_encoder_phys) : Bool :=
  phys_enc.split_role != .ENC_ROLE_SLAVE

/-! ## Interrupt handlers -/

/-- Source: `sde_encoder_override_tearcheck_rd_ptr`. -/
def sde_encoder_override_tearcheck_rd_ptr (phys_enc : sde_encoder_phys) :
    sde_encoder_phys :=
  match phys_enc.hw_intf with
  | none => phys_enc
  | some hw_intf =>
    let adjusted_tear_rd_ptr_line_cnt :=
      wrap_u32 (phys_enc.vdisplay + phys_enc.qsync_threshold_lines + 1)
    if hw_intf.override_tear_rd_ptr_val then
      { phys_enc with trace := phys_enc.trace ++
          [hw_effect.override_tear_rd_ptr_val adjusted_tear_rd_ptr_line_cnt] }
    else phys_enc

/-- Source: `_sde_encoder_phys_signal_frame_done`; `none` when the event-log
entry written after the notification reads `phys_enc->hw_pp->idx` through a
NULL `hw_pp`. -/
def _sde_encoder_phys_signal_frame_done (phys_enc : sde_encoder_phys) :
    Option sde_encoder_phys :=
  match phys_enc.hw_ctl with
  | none => some phys_enc
  | some ctl =>
    /- notify all synchronous clients first, then asynchronous clients -/
    let dec := atomic_add_unless phys_enc.pending_kickoff_cnt (-1) 0
    let s1 :=
      if phys_enc.handle_frame_done && dec.2 then
        let event := SDE_ENCODER_FRAME_EVENT_DONE |||
          SDE_ENCODER_FRAME_EVENT_SIGNAL_RELEASE_FENCE
        { phys_enc with
            pending_kickoff_cnt := dec.1
            trace := phys_enc.trace ++ [hw_effect.handle_frame_done event]
            recovered :=
              if phys_enc.frame_tx_timeout_report_cnt ≠ 0 then true
              else phys_enc.recovered }
      else phys_enc
    /- `SDE_EVT32_IRQ(.., ctl->idx - CTL_0, phys_enc->hw_pp->idx - PINGPONG_0, ..)` -/
    if s1.hw_pp.isNone then none
    /- output-fence override during the autorefresh disable transition -/
    else if s1.autorefresh_disable_trans then
      let s2 :=
        if ctl.trigger_output_fence_override then
          { s1 with trace := s1.trace ++ [hw_effect.trigger_output_fence_override] }
        else s1
      some { s2 with autorefresh_disable_trans := false }
    else some s1

/-- Source: `sde_encoder_phys_cmd_ctl_done_irq`. -/
def sde_encoder_phys_cmd_ctl_done_irq (phys_enc : sde_encoder_phys) :
    Option sde_encoder_phys :=
  _sde_encoder_phys_signal_frame_done phys_enc

/-- Source: `sde_encoder_phys_cmd_pp_tx_done_irq`. -/
def sde_encoder_phys_cmd_pp_tx_done_irq (phys_enc : sde_encoder_phys) :
    Option sde_encoder_phys :=
  if phys_enc.hw_pp.isNone then some phys_enc
  else _sde_encoder_phys_signal_frame_done phys_enc

/-- Source: `sde_encoder_phys_cmd_autorefresh_done_irq`; `none` when its
event-log entry reads `hw_pp->idx` or `hw_intf->idx` through a NULL pointer. -/
def sde_encoder_phys_cmd_autorefresh_done_irq (phys_enc : sde_encoder_phys) :
    Option sde_encoder_phys :=
  let new_cnt := atomic_add_unless phys_enc.autorefresh_kickoff_cnt (-1) 0
  let s1 := { phys_enc with autorefresh_kickoff_cnt := new_cnt.1 }
  /- `SDE_EVT32_IRQ(.., phys_enc->hw_pp->idx - PINGPONG_0,
     phys_enc->hw_intf->idx - INTF_0, new_cnt)` -/
  if s1.hw_pp.isNone || s1.hw_intf.isNone then none
  else if new_cnt.2 then _sde_encoder_phys_signal_frame_done s1 else some s1

/-- Source: `sde_encoder_phys_cmd_te_rd_ptr_irq`; `now` is the value of
`ktime_get()`. -/
def sde_encoder_phys_cmd_te_rd_ptr_irq (phys_enc : sde_encoder_phys) (now : Int) :
    sde_encoder_phys :=
  if phys_enc.hw_pp.isNone || phys_enc.hw_intf.isNone || phys_enc.hw_ctl.isNone then
    phys_enc
  else
    /- the first entry of the list is unlinked, stamped and added at the tail -/
    let s1 :=
      match phys_enc.te_timestamp_list with
      | [] => phys_enc
      | _ :: rest => { phys_enc with te_timestamp_list := rest ++ [now] }
    let s2 :=
      if s1.handle_vblank_virt then
        { s1 with trace := s1.trace ++ [hw_effect.handle_vblank_virt] }
      else s1
    { s2 with pending_vblank_cnt := (atomic_add_unless s2.pending_vblank_cnt (-1) 0).1 }

/-- Source: `sde_encoder_phys_cmd_wr_ptr_irq`; `qsync_mode` is the value of
`sde_connector_get_qsync_mode(phys_enc->connector)`. -/
def sde_encoder_phys_cmd_wr_ptr_irq (phys_enc : sde_encoder_phys) (qsync_mode : Nat) :
    sde_encoder_phys :=
  if phys_enc.hw_ctl.isNone then phys_enc
  else
    let dec := atomic_add_unless phys_enc.pending_retire_fence_cnt (-1) 0
    let s1 :=
      if dec.2 then
        let s0 := { phys_enc with pending_retire_fence_cnt := dec.1 }
        if s0.handle_frame_done then
          { s0 with trace := s0.trace ++
              [hw_effect.handle_frame_done SDE_ENCODER_FRAME_EVENT_SIGNAL_RETIRE_FENCE] }
        else s0
      else phys_enc
    if qsync_mode ≠ 0 then sde_encoder_override_tearcheck_rd_ptr s1 else s1

/-- An interrupt of one of the classes this file registers a callback for,
with the values its handler reads. -/
inductive irq_event
  | ctl_done
  | pp_tx_done
  | autorefresh_done
  | te_rd_ptr (now : Int)
  | wr_ptr (qsync_mode : Nat)
deriving DecidableEq, Repr

/-- The callback registered for an interrupt (`sde_encoder_phys_cmd_init`);
`none` when the callback faults. -/
def irq_event.run (phys_enc : sde_encoder_phys) : irq_event → Option sde_encoder_phys
  | .ctl_done => sde_encoder_phys_cmd_ctl_done_irq phys_enc
  | .pp_tx_done => sde_encoder_phys_cmd_pp_tx_done_irq phys_enc
  | .autorefresh_done => sde_encoder_phys_cmd_autorefresh_done_irq phys_enc
  | .te_rd_ptr now => some (sde_encoder_phys_cmd_te_rd_ptr_irq phys_enc now)
  | .wr_ptr qsync_mode => some (sde_encoder_phys_cmd_wr_ptr_irq phys_enc qsync_mode)

/-- The encoder after an interrupt that a wait which returns has seen.  A
callback that faults takes the system down, so that no wait returns after it:
such an interrupt is not among those a returning wait has seen, and an entry
whose callback would fault on the encoder as it is then is passed over. -/
def irq_event.handled (phys_enc : sde_encoder_phys) (e : irq_event) : sde_encoder_phys :=
  (e.run phys_enc).getD phys_enc

/-- The interrupts handled while a thread is blocked, in arrival order. -/
def run_irqs (phys_enc : sde_encoder_phys) (irqs : List irq_event) : sde_encoder_phys :=
  irqs.foldl irq_event.handled phys_enc

/-- The callbacks of the interrupts of a list run in arrival order; `none` when
one of them faults. -/
def run_irqs_checked (phys_enc : sde_encoder_phys) : List irq_event → Option sde_encoder_phys
  | [] => some phys_enc
  | e :: es => (e.run phys_enc).bind fun s => run_irqs_checked s es

/-! ## Frame-done timeout -/

/-- What `_sde_encoder_phys_cmd_handle_framedone_timeout` reads from other files. -/
structure framedone_timeout_env where
  /-- Value of `sde_encoder_recovery_events_enabled(phys_enc->parent)`. -/
  recovery_events : Bool
  /-- Value of `sde_connector_esd_status(phys_enc->connector)`; nonzero when the
  panel does not answer. -/
  esd_status : Int
  /-- Value of `sde_kms_is_secure_session_inprogress(phys_enc->sde_kms)`. -/
  secure_session : Bool
deriving DecidableEq, Repr

/-- Source: `_sde_encoder_phys_cmd_handle_framedone_timeout`; the result is the
returned `int` and the encoder afterwards. -/
def _sde_encoder_phys_cmd_handle_framedone_timeout (phys_enc : sde_encoder_phys)
    (env : framedone_timeout_env) : Int × sde_encoder_phys :=
  let frame_event := SDE_ENCODER_FRAME_EVENT_ERROR |||
    SDE_ENCODER_FRAME_EVENT_SIGNAL_RELEASE_FENCE
  if phys_enc.hw_pp.isNone || phys_enc.hw_ctl.isNone then (-EINVAL, phys_enc)
  else
    /- decrement the kickoff_cnt before checking for ESD status -/
    let dec := atomic_add_unless phys_enc.pending_kickoff_cnt (-1) 0
    if !dec.2 then (0, phys_enc)
    else
      let s1 := { phys_enc with
        pending_kickoff_cnt := dec.1
        frame_tx_timeout_report_cnt := phys_enc.frame_tx_timeout_report_cnt + 1 }
      let s2 :=
        /- check if panel is still sending TE signal or not -/
        if env.esd_status ≠ 0 then s1
        else
          /- to avoid flooding, only log first time, and "dead" time -/
          let s3 :=
            if s1.frame_tx_timeout_report_cnt = 1 then
              { s1 with trace := s1.trace ++
                  [hw_effect.unregister_irq .INTR_IDX_RDPTR,
                   hw_effect.dbg_dump_all env.secure_session,
                   hw_effect.register_irq .INTR_IDX_RDPTR] }
            else s1
          let s4 :=
            if env.recovery_events then
              { s3 with trace := s3.trace ++
                  [hw_effect.event_notify .SDE_RECOVERY_CAPTURE] }
            else if s3.frame_tx_timeout_report_cnt ≠ 0 then
              { s3 with trace := s3.trace ++ [hw_effect.dbg_dump_panic] }
            else s3
          /- request a ctl reset before the next kickoff -/
          { s4 with enable_state := .SDE_ENC_ERR_NEEDS_HW_RESET }
      let s5 :=
        if s2.handle_frame_done then
          { s2 with trace := s2.trace ++ [hw_effect.handle_frame_done frame_event] }
        else s2
      (-ETIMEDOUT, s5)

/-! ## Waiting for idle -/

/-- Source: `_sde_encoder_phys_cmd_is_scheduler_idle`; `scheduler_status` is the
value of `ctl->ops.get_scheduler_status(ctl)`.  The function reads
`ctl->ops` without a NULL check once the first two conditions hold, and the
event-log entry of the reclaim reads `hw_pp->idx` and `hw_intf->idx`. -/
def _sde_encoder_phys_cmd_is_scheduler_idle (phys_enc : sde_encoder_phys)
    (scheduler_status : Nat) : Option (Bool × sde_encoder_phys) :=
  let wr_ptr_wait_success :=
    if sde_encoder_phys_cmd_is_master phys_enc then phys_enc.wr_ptr_wait_success
    else true
  /- Handle cases where a pp-done interrupt is missed due to irq latency
     with POSTED start -/
  if wr_ptr_wait_success &&
      phys_enc.frame_trigger_mode == .FRAME_DONE_WAIT_POSTED_START then
    match phys_enc.hw_ctl with
    | none => none
    | some ctl =>
      if ctl.get_scheduler_status && phys_enc.handle_frame_done &&
          decide (phys_enc.pending_kickoff_cnt > 0) &&
          (scheduler_status &&& 1 != 0) then
        let dec := atomic_add_unless phys_enc.pending_kickoff_cnt (-1) 0
        if dec.2 then
          /- `SDE_EVT32(.., phys_enc->hw_pp->idx - PINGPONG_0,
             phys_enc->hw_intf->idx - INTF_0, ..)` -/
          if phys_enc.hw_pp.isNone || phys_enc.hw_intf.isNone then none
          else
            some (true, { phys_enc with
              pending_kickoff_cnt := dec.1
              trace := phys_enc.trace ++
                [hw_effect.handle_frame_done (SDE_ENCODER_FRAME_EVENT_DONE |||
                  SDE_ENCODER_FRAME_EVENT_SIGNAL_RELEASE_FENCE)] })
        else some (false, phys_enc)
      else some (false, phys_enc)
  else some (false, phys_enc)

/-- Outcome of a blocking call into another file
(`sde_encoder_helper_wait_for_irq`, `sde_encoder_wait_for_event`): the
interrupts whose callbacks ran on this encoder meanwhile, and the returned
`int`. -/
structure irq_wait where
  irqs : List irq_event
  ret : Int
deriving DecidableEq, Repr

/-- What `_sde_encoder_phys_cmd_wait_for_idle` reads from other files. -/
structure wait_for_idle_env where
  /-- Value of `sde_encoder_check_ctl_done_support(phys_enc->parent)`. -/
  ctl_done_support : Bool
  /-- Value of `_sde_encoder_phys_is_ppsplit(phys_enc)` (`sde_encoder_phys.h`). -/
  is_ppsplit : Bool
  /-- Scheduler status read by the first idle check. -/
  scheduler_status_first : Nat
  /-- Outcome of `sde_encoder_helper_wait_for_irq`. -/
  wait : irq_wait
  /-- Scheduler status read by the idle check after a timeout. -/
  scheduler_status_second : Nat
  timeout : framedone_timeout_env
deriving DecidableEq, Repr

/-- Source: `_sde_encoder_phys_is_ppsplit_slave`. -/
def _sde_encoder_phys_is_ppsplit_slave (phys_enc : sde_encoder_phys)
    (is_ppsplit : Bool) : Bool :=
  is_ppsplit && phys_enc.split_role == .ENC_ROLE_SLAVE

/-- Source: `_sde_encoder_phys_cmd_wait_for_idle`. -/
def _sde_encoder_phys_cmd_wait_for_idle (phys_enc : sde_encoder_phys)
    (env : wait_for_idle_env) : Option (Int × sde_encoder_phys) :=
  if env.ctl_done_support && !sde_encoder_phys_cmd_is_master phys_enc then
    some (0, phys_enc)
  /- slave encoder doesn't enable for ppsplit -/
  else if _sde_encoder_phys_is_ppsplit_slave phys_enc env.is_ppsplit then
    some (0, phys_enc)
  else
    match _sde_encoder_phys_cmd_is_scheduler_idle phys_enc env.scheduler_status_first with
    | none => none
    | some (true, s1) => some (0, s1)
    | some (false, s1) =>
      let s2 := run_irqs s1 env.wait.irqs
      let ret := env.wait.ret
      if ret = -ETIMEDOUT then
        match _sde_encoder_phys_cmd_is_scheduler_idle s2 env.scheduler_status_second with
        | none => none
        | some (true, s3) => some (0, s3)
        | some (false, s3) =>
          some (ret, (_sde_encoder_phys_cmd_handle_framedone_timeout s3 env.timeout).2)
      else some (ret, s2)

/-! ## Tear-check threshold -/

/-- What `_get_tearcheck_threshold` reads from other files. -/
structure tearcheck_env where
  /-- Value of `sde_connector_get_qsync_mode(conn)`. -/
  qsync_mode : sde_rm_qsync_modes
  /-- Value that `parent_ops.get_qsync_fps` stores in `qsync_min_fps`. -/
  qsync_min_fps : Nat
  /-- Value of `drm_mode_vrefresh(mode)`, the nominal refresh rate. -/
  default_fps : Nat
  /-- Lower bound stored by `sde_encoder_helper_get_jitter_bounds_ns`. -/
  l_bound : Int
  /-- Upper bound stored by `sde_encoder_helper_get_jitter_bounds_ns`. -/
  u_bound : Int
deriving DecidableEq, Repr

/-- Result of `_get_tearcheck_threshold`: the returned `int`, and the number of
division and remainder operations executed on the path taken (each `mult_frac`
expands to two divisions and one remainder). -/
structure tearcheck_result where
  threshold : Int
  divisions : Nat
deriving DecidableEq, Repr

/-- Source: `_get_tearcheck_threshold`. -/
def _get_tearcheck_threshold (phys_enc : sde_encoder_phys) (env : tearcheck_env) :
    Option tearcheck_result :=
  if !phys_enc.connector || !phys_enc.conn_state then some ⟨0, 0⟩
  else if env.qsync_mode ≠ .SDE_RM_QSYNC_CONTINUOUS_MODE then
    some ⟨wrap_s32 DEFAULT_TEARCHECK_SYNC_THRESH_START, 0⟩
  else
    let qsync_min_fps : Int := if phys_enc.get_qsync_fps then env.qsync_min_fps else 0
    let default_fps : Int := env.default_fps
    let yres : Int := phys_enc.vtotal
    if qsync_min_fps = 0 ∨ default_fps = 0 ∨ yres = 0 then
      some ⟨wrap_s32 DEFAULT_TEARCHECK_SYNC_THRESH_START, 0⟩
    else if qsync_min_fps ≥ default_fps then
      some ⟨wrap_s32 DEFAULT_TEARCHECK_SYNC_THRESH_START, 0⟩
    else do
      let qsync_time_ns ← mult_frac 1000000000 1 qsync_min_fps
      let default_time_ns ← mult_frac 1000000000 1 default_fps
      let qsync_l_bound_ns :=
        if env.l_bound = 0 ∨ env.u_bound = 0 then qsync_time_ns else env.l_bound
      let extra_time_ns := wrap_s64 (qsync_l_bound_ns - default_time_ns)
      let default_line_time_ns ← mult_frac 1 default_time_ns yres
      let threshold_lines ← mult_frac 1 extra_time_ns default_line_time_ns
      let threshold_lines := wrap_u32 threshold_lines
      /- some DDICs express the timeout value in lines/4, round down to compensate -/
      let adjusted_threshold_lines := round_down threshold_lines 4
      /- remove 2 lines to cover for latency -/
      let adjusted_threshold_lines :=
        if wrap_u32 (adjusted_threshold_lines - 2) > DEFAULT_TEARCHECK_SYNC_THRESH_START then
          wrap_u32 (adjusted_threshold_lines - 2)
        else adjusted_threshold_lines
      some ⟨wrap_s32 adjusted_threshold_lines, 12⟩

/-! ## Prepare for kickoff -/

/-- Source: `_sde_encoder_phys_wait_for_vsync_on_autorefresh_busy`;
`autorefresh_status` is the value of `hw_intf->ops.get_autorefresh_status`,
`wait` the outcome of `sde_encoder_wait_for_event(parent, MSM_ENC_VBLANK)`. -/
def _sde_encoder_phys_wait_for_vsync_on_autorefresh_busy (phys_enc : sde_encoder_phys)
    (autorefresh_status : Nat) (wait : irq_wait) : sde_encoder_phys :=
  match phys_enc.hw_intf with
  | none => phys_enc
  | some hw_intf =>
    if !hw_intf.get_autorefresh_status then phys_enc
    else if autorefresh_status ≠ 0 then run_irqs phys_enc wait.irqs
    else phys_enc

/-- The kickoff parameters read by this file, `struct sde_encoder_kickoff_params`. -/
structure sde_encoder_kickoff_params where
  frame_trigger_mode : frame_trigger_mode_type
deriving DecidableEq, Repr

/-- What `sde_encoder_phys_cmd_prepare_for_kickoff` reads from other files. -/
structure prepare_for_kickoff_env where
  idle : wait_for_idle_env
  /-- Value of `hw_intf->ops.get_autorefresh_status(hw_intf)`. -/
  autorefresh_status : Nat
  /-- Outcome of `sde_encoder_wait_for_event(parent, MSM_ENC_VBLANK)`. -/
  vblank_wait : irq_wait
  /-- Value of `sde_encoder_recovery_events_enabled(phys_enc->parent)`. -/
  recovery_events : Bool
  /-- Value of `sde_connector_is_qsync_updated(phys_enc->connector)`. -/
  qsync_updated : Bool
  tearcheck : tearcheck_env
deriving DecidableEq, Repr

/-- Source: `sde_encoder_phys_cmd_prepare_for_kickoff`. -/
def sde_encoder_phys_cmd_prepare_for_kickoff (phys_enc : sde_encoder_phys)
    (params : sde_encoder_kickoff_params) (env : prepare_for_kickoff_env) :
    Option (Int × sde_encoder_phys) :=
  match phys_enc.hw_pp with
  | none => some (-EINVAL, phys_enc)
  | some hw_pp =>
    let s0 := { phys_enc with frame_trigger_mode := params.frame_trigger_mode }
    let idle : Option (Int × sde_encoder_phys) :=
      if s0.frame_trigger_mode = .FRAME_DONE_WAIT_DEFAULT then
        /- if there is an outstanding frame, wait for the previous frame to complete -/
        match _sde_encoder_phys_cmd_wait_for_idle s0 env.idle with
        | none => none
        | some (ret, s) =>
          if ret ≠ 0 then some (ret, { s with pending_kickoff_cnt := 0 })
          else some (ret, s)
      else some (0, s0)
    match idle with
    | none => none
    | some (ret, s1) =>
      let s2 :=
        if s1.cont_splash_enabled then
          _sde_encoder_phys_wait_for_vsync_on_autorefresh_busy s1 env.autorefresh_status
            env.vblank_wait
        else s1
      let s3 :=
        if s2.recovered then
          let s :=
            if s2.frame_tx_timeout_report_cnt ≠ 0 ∧ env.recovery_events then
              { s2 with trace := s2.trace ++ [hw_effect.event_notify .SDE_RECOVERY_SUCCESS] }
            else s2
          { s with frame_tx_timeout_report_cnt := 0, recovered := false }
        else s2
      if env.qsync_updated then
        match _get_tearcheck_threshold s3 env.tearcheck with
        | none => none
        | some tc =>
          let sync_threshold_start := wrap_u32 tc.threshold
          let s4 := { s3 with qsync_threshold_lines := sync_threshold_start }
          if s4.has_intf_te then
            match s4.hw_intf with
            | none => none
            | some hw_intf =>
              if hw_intf.update_tearcheck then
                some (ret, { s4 with trace := s4.trace ++
                  [hw_effect.update_tearcheck true sync_threshold_start] })
              else if hw_pp.update_tearcheck then
                some (ret, { s4 with trace := s4.trace ++
                  [hw_effect.update_tearcheck false sync_threshold_start] })
              else some (ret, s4)
          else if hw_pp.update_tearcheck then
            some (ret, { s4 with trace := s4.trace ++
              [hw_effect.update_tearcheck false sync_threshold_start] })
          else some (ret, s4)
      else some (ret, s3)

/-! ## Autorefresh programming and trigger -/

/-- Source: `_sde_encoder_phys_cmd_get_autorefresh_property`; `property` is the
value of `sde_connector_get_property(conn->state, CONNECTOR_PROP_AUTOREFRESH)`. -/
def _sde_encoder_phys_cmd_get_autorefresh_property (phys_enc : sde_encoder_phys)
    (property : Nat) : Nat :=
  if !phys_enc.connector || !phys_enc.conn_state then 0 else property

/-- Source: `_sde_encoder_phys_cmd_config_autorefresh`. -/
def _sde_encoder_phys_cmd_config_autorefresh (phys_enc : sde_encoder_phys)
    (new_frame_count : Nat) : sde_encoder_phys :=
  match phys_enc.hw_pp, phys_enc.hw_intf with
  | some hw_pp, some hw_intf =>
    if !phys_enc.connector || !phys_enc.conn_state then phys_enc
    else
      /- autorefresh property value should be validated already -/
      let cfg_nxt : sde_hw_autorefresh :=
        { enable := decide (new_frame_count ≠ 0), frame_count := new_frame_count }
      /- only proceed on state changes -/
      if cfg_nxt.enable = phys_enc.autorefresh_cfg.enable then phys_enc
      else
        let s1 := { phys_enc with autorefresh_cfg := cfg_nxt }
        if s1.has_intf_te && hw_intf.setup_autorefresh then
          { s1 with trace := s1.trace ++ [hw_effect.setup_autorefresh true s1.autorefresh_cfg] }
        else if hw_pp.setup_autorefresh then
          { s1 with trace := s1.trace ++ [hw_effect.setup_autorefresh false s1.autorefresh_cfg] }
        else s1
  | _, _ => phys_enc

/-- Source: `sde_encoder_phys_cmd_trigger_start`; `property` is the value of the
connector's autorefresh property, narrowed to the `u32` local `frame_cnt`. -/
def sde_encoder_phys_cmd_trigger_start (phys_enc : sde_encoder_phys) (property : Nat) :
    sde_encoder_phys :=
  /- we don't issue CTL_START when using autorefresh -/
  let frame_cnt := (_sde_encoder_phys_cmd_get_autorefresh_property phys_enc property) %
    4294967296
  let s1 :=
    if frame_cnt ≠ 0 then
      let s := _sde_encoder_phys_cmd_config_autorefresh phys_enc frame_cnt
      { s with autorefresh_kickoff_cnt := wrap_s32 (s.autorefresh_kickoff_cnt + 1) }
    else { phys_enc with trace := phys_enc.trace ++ [hw_effect.trigger_start] }
  /- wr_ptr_wait_success is set true when wr_ptr arrives -/
  { s1 with wr_ptr_wait_success := false }

/-! ## Disabling autorefresh -/

/-- What `get_autorefresh` reports: its return code and the config it stores. -/
structure autorefresh_read where
  ret : Int
  cfg : sde_hw_autorefresh
deriving DecidableEq, Repr

/-- Source: `sde_encoder_phys_cmd_is_autorefresh_enabled`; `rd` is what the
`get_autorefresh` op of the block in charge reports. -/
def sde_encoder_phys_cmd_is_autorefresh_enabled (phys_enc : sde_encoder_phys)
    (rd : autorefresh_read) : Bool :=
  match phys_enc.hw_pp, phys_enc.hw_intf with
  | some hw_pp, some hw_intf =>
    if !sde_encoder_phys_cmd_is_master phys_enc then false
    else if phys_enc.has_intf_te then
      if !hw_intf.get_autorefresh then false
      else if rd.ret ≠ 0 then false else rd.cfg.enable
    else
      if !hw_pp.get_autorefresh then false
      else if rd.ret ≠ 0 then false else rd.cfg.enable
  | _, _ => false

/-- Source: `sde_encoder_phys_cmd_connect_te`. -/
def sde_encoder_phys_cmd_connect_te (phys_enc : sde_encoder_phys) (enable : Bool) :
    sde_encoder_phys :=
  match phys_enc.hw_pp, phys_enc.hw_intf with
  | some hw_pp, some hw_intf =>
    if phys_enc.has_intf_te && hw_intf.connect_external_te then
      { phys_enc with trace := phys_enc.trace ++ [hw_effect.connect_external_te true enable] }
    else if hw_pp.connect_external_te then
      { phys_enc with trace := phys_enc.trace ++ [hw_effect.connect_external_te false enable] }
    else phys_enc
  | _, _ => phys_enc

/-- Source: `_sde_encoder_phys_cmd_is_ongoing_pptx`; `wr_ptr_line_count` is the
write-pointer line count that `get_vsync_info` reports.  The function is given
for its one call path, from `_sde_encoder_phys_disable_autorefresh`, on which
`sde_encoder_phys_cmd_is_autorefresh_enabled` has found both blocks attached:
the event-log entry between the reading and the test reads `hw_pp->idx` and
`hw_intf->idx`, whichever block the reading came from. -/
def _sde_encoder_phys_cmd_is_ongoing_pptx (phys_enc : sde_encoder_phys)
    (wr_ptr_line_count : Nat) : Bool :=
  let ongoing := decide (wr_ptr_line_count > 0 ∧ wr_ptr_line_count < phys_enc.vdisplay)
  if phys_enc.has_intf_te then
    match phys_enc.hw_intf with
    | none => false
    | some hw_intf => if !hw_intf.get_vsync_info then false else ongoing
  else
    match phys_enc.hw_pp with
    | none => false
    | some hw_pp => if !hw_pp.get_vsync_info then false else ongoing

/-- Poll interval of sequence 1, in microseconds. -/
def AUTOREFRESH_SEQ1_POLL_TIME : Int := 2000
/-- Poll interval of sequence 2, in microseconds. -/
def AUTOREFRESH_SEQ2_POLL_TIME : Int := 25000
/-- Overall timeout of sequence 2, in microseconds. -/
def AUTOREFRESH_SEQ2_POLL_TIMEOUT : Int := 1000000

/-- The `do ... while` loop of `_sde_encoder_autorefresh_disable_seq1` from
the value `trial` on.  Each evaluation of the loop condition takes the next
write-pointer reading from `readings`; the result is the encoder and the
readings left over, or `none` when the readings supplied run out. -/
def autorefresh_disable_seq1_loop (phys_enc : sde_encoder_phys) :
    Int → List Nat → Option (sde_encoder_phys × List Nat)
  | trial, readings =>
    if wrap_s32 (trial * AUTOREFRESH_SEQ1_POLL_TIME) >
        (phys_enc.kickoff_timeout_ms : Int) * 1000 then
      some ({ phys_enc with enable_state := .SDE_ENC_ERR_NEEDS_HW_RESET }, readings)
    else
      match readings with
      | [] => none
      | wr_ptr_line_count :: rest =>
        if _sde_encoder_phys_cmd_is_ongoing_pptx phys_enc wr_ptr_line_count then
          autorefresh_disable_seq1_loop phys_enc (wrap_s32 (trial + 1)) rest
        else some (phys_enc, rest)

/-- Source: `_sde_encoder_autorefresh_disable_seq1`. -/
def _sde_encoder_autorefresh_disable_seq1 (phys_enc : sde_encoder_phys)
    (readings : List Nat) : Option (sde_encoder_phys × List Nat) :=
  autorefresh_disable_seq1_loop phys_enc 0 readings

/-- The `while` loop of `_sde_encoder_autorefresh_disable_seq2` from the values
`trial` and `autorefresh_status` on.  Each iteration that goes on takes the
next status reading from `readings`; `none` when the readings run out. -/
def autorefresh_disable_seq2_loop :
    sde_encoder_phys → Int → Nat → List Nat → Option (sde_encoder_phys × List Nat)
  | phys_enc, trial, autorefresh_status, readings =>
    if autorefresh_status &&& 128 = 0 then some (phys_enc, readings)
    else
      let s1 :=
        if trial = 0 then _sde_encoder_phys_cmd_config_autorefresh phys_enc 0 else phys_enc
      if wrap_s32 (trial * AUTOREFRESH_SEQ2_POLL_TIME) > AUTOREFRESH_SEQ2_POLL_TIMEOUT then
        some ({ s1 with trace := s1.trace ++ [hw_effect.dbg_dump_all_panic] }, readings)
      else
        match readings with
        | [] => none
        | status :: rest =>
          autorefresh_disable_seq2_loop
            { s1 with trace := s1.trace ++ [hw_effect.check_and_reset_tearcheck] }
            (wrap_s32 (trial + 1)) status rest

/-- Source: `_sde_encoder_autorefresh_disable_seq2`; `readings` are the
successive values of `hw_mdp->ops.get_autorefresh_status`. -/
def _sde_encoder_autorefresh_disable_seq2 (phys_enc : sde_encoder_phys)
    (readings : List Nat) : Option (sde_encoder_phys × List Nat) :=
  if !phys_enc.hw_mdptop.get_autorefresh_status then some (phys_enc, readings)
  else
    match phys_enc.hw_intf with
    | none => none
    | some hw_intf =>
      if !hw_intf.check_and_reset_tearcheck then some (phys_enc, readings)
      else
        match readings with
        | [] => none
        | first :: rest =>
          if first &&& 128 = 0 then
            match rest with
            | [] => none
            | second :: rest' => autorefresh_disable_seq2_loop phys_enc 0 second rest'
          else autorefresh_disable_seq2_loop phys_enc 0 first rest

/-- What `_sde_encoder_phys_disable_autorefresh` reads from hardware and from
the catalog. -/
structure disable_autorefresh_env where
  /-- What `get_autorefresh` reports. -/
  autorefresh : autorefresh_read
  /-- The catalog selects `AUTOREFRESH_DISABLE_SEQ1`. -/
  disable_seq1 : Bool
  /-- Successive write-pointer line counts. -/
  wr_ptr_line_counts : List Nat
  /-- Successive values of the autorefresh status register. -/
  autorefresh_statuses : List Nat
deriving DecidableEq, Repr

/-- Source: `_sde_encoder_phys_disable_autorefresh`. -/
def _sde_encoder_phys_disable_autorefresh (phys_enc : sde_encoder_phys)
    (env : disable_autorefresh_env) : Option sde_encoder_phys :=
  if !sde_encoder_phys_cmd_is_master phys_enc then some phys_enc
  else if !sde_encoder_phys_cmd_is_autorefresh_enabled phys_enc env.autorefresh then
    some phys_enc
  else
    let s1 := sde_encoder_phys_cmd_connect_te phys_enc false
    let s2 := _sde_encoder_phys_cmd_config_autorefresh s1 0
    let s3 := { s2 with autorefresh_disable_trans := true }
    let s5 : Option sde_encoder_phys :=
      if env.disable_seq1 then
        match _sde_encoder_autorefresh_disable_seq1 s3 env.wr_ptr_line_counts with
        | none => none
        | some (s4, _) =>
          (_sde_encoder_autorefresh_disable_seq2 s4 env.autorefresh_statuses).map Prod.fst
      else some s3
    s5.map fun s => sde_encoder_phys_cmd_connect_te s true

/-! ## Enable, disable and continuous splash -/

/-- Source: `_sde_encoder_phys_cmd_update_flush_mask`. -/
def _sde_encoder_phys_cmd_update_flush_mask (phys_enc : sde_encoder_phys) :
    sde_encoder_phys :=
  match phys_enc.hw_intf, phys_enc.hw_pp with
  | some _, some hw_pp =>
    match phys_enc.hw_ctl with
    | none => phys_enc
    | some ctl =>
      if !ctl.update_bitmask then phys_enc
      else
        let s1 := { phys_enc with trace := phys_enc.trace ++ [hw_effect.update_bitmask_intf] }
        if hw_pp.merge_3d then
          { s1 with trace := s1.trace ++ [hw_effect.update_bitmask_merge_3d] }
        else s1
  | _, _ => phys_enc

/-- Source: `_sde_encoder_phys_cmd_update_intf_cfg`. -/
def _sde_encoder_phys_cmd_update_intf_cfg (phys_enc : sde_encoder_phys) :
    sde_encoder_phys :=
  match phys_enc.hw_ctl with
  | none => phys_enc
  | some ctl =>
    if ctl.setup_intf_cfg then
      { phys_enc with trace := phys_enc.trace ++ [hw_effect.setup_intf_cfg] }
    else if ctl.active_cfg then
      { phys_enc with trace := phys_enc.trace ++ [hw_effect.helper_update_intf_cfg] }
    else phys_enc

/-- What `sde_encoder_phys_cmd_enable` and its helpers read from other files. -/
structure enable_env where
  /-- Value of `_sde_encoder_phys_is_ppsplit(phys_enc)` (`sde_encoder_phys.h`). -/
  is_ppsplit : Bool
  /-- The pointers `sde_kms`, `sde_kms->dev` and `dev->dev_private` are non-NULL. -/
  kms_valid : Bool
  /-- Value of `sde_power_clk_get_rate(&priv->phandle, "vsync_clk")`. -/
  vsync_clk_rate : Nat
  /-- The connector readings of `_get_tearcheck_threshold`; `default_fps` is also
  the `drm_mode_vrefresh(mode)` of the tear-check config and `qsync_mode` the
  qsync mode read by the enable helper. -/
  tearcheck : tearcheck_env
  /-- The comparison `phys_enc->comp_type != MSM_DISPLAY_COMPRESSION_NONE`. -/
  compressed : Bool
  /-- Value of `sde_encoder_is_widebus_enabled(phys_enc->parent)`. -/
  widebus : Bool
  /-- Field `idle_pc_restore` of the virtual encoder. -/
  idle_pc_restore : Bool
deriving DecidableEq, Repr

/-- Source: `sde_encoder_phys_cmd_tearcheck_config`; `none` when the unsigned
division for `vsync_count` has a zero divisor or the threshold computation
divides by zero. -/
def sde_encoder_phys_cmd_tearcheck_config (phys_enc : sde_encoder_phys)
    (env : enable_env) : Option sde_encoder_phys :=
  match phys_enc.hw_pp, phys_enc.hw_intf with
  | some hw_pp, some hw_intf =>
    let supported :=
      if phys_enc.has_intf_te then hw_intf.setup_tearcheck && hw_intf.enable_tearcheck
      else hw_pp.setup_tearcheck && hw_pp.enable_tearcheck
    if !supported then some phys_enc
    else if !env.kms_valid then some phys_enc
    else
      let vrefresh := wrap_s32 env.tearcheck.default_fps
      let vsync_hz := wrap_u32 env.vsync_clk_rate
      if vsync_hz = 0 ∨ phys_enc.vtotal = 0 ∨ vrefresh = 0 then some phys_enc
      else
        let divisor := wrap_u32 (wrap_s32 (phys_enc.vtotal * vrefresh))
        if divisor = 0 then none
        else
          match _get_tearcheck_threshold phys_enc env.tearcheck with
          | none => none
          | some tc =>
            let tc_cfg : sde_hw_tear_check :=
              { vsync_count := vsync_hz / divisor
                /- enable external TE after kickoff to avoid premature autorefresh -/
                hw_vsync_mode := 0
                sync_cfg_height := 65520
                vsync_init_val := phys_enc.vdisplay
                sync_threshold_start := wrap_u32 tc.threshold
                sync_threshold_continue := DEFAULT_TEARCHECK_SYNC_THRESH_CONTINUE
                start_pos := phys_enc.vdisplay
                rd_ptr_irq := phys_enc.vdisplay + 1
                wr_ptr_irq := 1 }
            let s1 := { phys_enc with qsync_threshold_lines := tc_cfg.sync_threshold_start }
            some { s1 with trace := s1.trace ++
              [hw_effect.setup_tearcheck s1.has_intf_te tc_cfg,
               hw_effect.enable_tearcheck s1.has_intf_te true] }
  | _, _ => some phys_enc

/-- Source: `_sde_encoder_phys_cmd_pingpong_config`. -/
def _sde_encoder_phys_cmd_pingpong_config (phys_enc : sde_encoder_phys)
    (env : enable_env) : Option sde_encoder_phys :=
  if phys_enc.hw_ctl.isNone || phys_enc.hw_pp.isNone then some phys_enc
  else
    let s1 :=
      if !_sde_encoder_phys_is_ppsplit_slave phys_enc env.is_ppsplit then
        _sde_encoder_phys_cmd_update_intf_cfg phys_enc
      else phys_enc
    sde_encoder_phys_cmd_tearcheck_config s1 env

/-- Source: `sde_encoder_phys_cmd_enable_helper`. -/
def sde_encoder_phys_cmd_enable_helper (phys_enc : sde_encoder_phys) (env : enable_env) :
    Option sde_encoder_phys :=
  match phys_enc.hw_ctl, phys_enc.hw_pp, phys_enc.hw_intf with
  | some _, some _, some hw_intf =>
    let s1 := { phys_enc with trace := phys_enc.trace ++ [hw_effect.split_config] }
    match _sde_encoder_phys_cmd_pingpong_config s1 env with
    | none => none
    | some s2 =>
      let s3 :=
        if hw_intf.enable_compressed_input then
          { s2 with trace := s2.trace ++ [hw_effect.enable_compressed_input env.compressed] }
        else s2
      let s4 :=
        if hw_intf.enable_wide_bus then
          { s3 with trace := s3.trace ++ [hw_effect.enable_wide_bus env.widebus] }
        else s3
      /- override internal rd_ptr value when coming out of IPC -/
      let s5 :=
        if env.idle_pc_restore then
          if env.tearcheck.qsync_mode ≠ .SDE_RM_QSYNC_DISABLED then
            sde_encoder_override_tearcheck_rd_ptr s4
          else s4
        else s4
      /- for pp-split, skip setting the flush bit for the slave intf -/
      if env.is_ppsplit && !sde_encoder_phys_cmd_is_master s5 then some s5
      else some (_sde_encoder_phys_cmd_update_flush_mask s5)
  | _, _, _ => some phys_enc

/-- Source: `sde_encoder_phys_cmd_enable`. -/
def sde_encoder_phys_cmd_enable (phys_enc : sde_encoder_phys) (env : enable_env) :
    Option sde_encoder_phys :=
  if phys_enc.hw_pp.isNone then some phys_enc
  else if phys_enc.enable_state = .SDE_ENC_ENABLED then some phys_enc
  else
    (sde_encoder_phys_cmd_enable_helper phys_enc env).map fun s =>
      { s with enable_state := .SDE_ENC_ENABLED }

/-- Source: `sde_encoder_phys_cmd_disable`; `in_trusted_vm` is the value of
`sde_in_trusted_vm(phys_enc->sde_kms)`. -/
def sde_encoder_phys_cmd_disable (phys_enc : sde_encoder_phys) (in_trusted_vm : Bool) :
    sde_encoder_phys :=
  match phys_enc.hw_pp, phys_enc.hw_intf with
  | some hw_pp, some hw_intf =>
    if phys_enc.enable_state = .SDE_ENC_DISABLED then phys_enc
    else
      let s3 :=
        if !in_trusted_vm then
          let s1 :=
            if phys_enc.has_intf_te && hw_intf.enable_tearcheck then
              { phys_enc with trace := phys_enc.trace ++
                  [hw_effect.enable_tearcheck true false] }
            else if hw_pp.enable_tearcheck then
              { phys_enc with trace := phys_enc.trace ++
                  [hw_effect.enable_tearcheck false false] }
            else phys_enc
          let s2 :=
            if sde_encoder_phys_cmd_is_master s1 then
              { s1 with trace := s1.trace ++ [hw_effect.helper_phys_disable] }
            else s1
          if hw_intf.reset_counter then
            { s2 with trace := s2.trace ++ [hw_effect.reset_counter] }
          else s2
        else phys_enc
      { s3 with autorefresh_cfg := ⟨false, 0⟩, enable_state := .SDE_ENC_DISABLED }
  | _, _ => phys_enc

/-- The fields of `struct drm_display_mode` that the model keeps. -/
structure drm_display_mode where
  vdisplay : Nat
  vtotal : Nat
deriving DecidableEq, Repr

/-- Source: `sde_encoder_phys_cmd_cont_splash_mode_set`; `adj_mode` is `none`
for a NULL pointer and `cfg` is the config that `get_autorefresh` stores.  The
closing `_sde_encoder_phys_cmd_setup_irq_hw_idx` only fills the interrupt
table, which the encoder record does not keep. -/
def sde_encoder_phys_cmd_cont_splash_mode_set (phys_enc : sde_encoder_phys)
    (adj_mode : Option drm_display_mode) (cfg : sde_hw_autorefresh) : sde_encoder_phys :=
  match adj_mode with
  | none => phys_enc
  | some mode =>
    let s1 := { phys_enc with
      vdisplay := mode.vdisplay
      vtotal := mode.vtotal
      enable_state := .SDE_ENC_ENABLED }
    if s1.hw_ctl.isNone || s1.hw_pp.isNone then s1
    else if sde_encoder_phys_cmd_is_master s1 then
      let s2 :=
        if s1.has_intf_te && (s1.hw_intf.any fun hw_intf => hw_intf.get_autorefresh) then
          { s1 with autorefresh_cfg := cfg }
        else if s1.hw_pp.any fun hw_pp => hw_pp.get_autorefresh then
          { s1 with autorefresh_cfg := cfg }
        else s1
      if s2.hw_intf.any fun hw_intf => hw_intf.reset_counter then
        { s2 with trace := s2.trace ++ [hw_effect.reset_counter] }
      else s2
    else s1

/-! ## The TE timestamp ring and the jitter scan -/

/-- Modelled from the spec: the capacity of the TE timestamp ring
(`sde_encoder_phys.h`, not among the sources), "fixed-capacity circular buffer
of recent panel-pulse timestamps". -/
def MAX_TE_PROFILE_COUNT : Nat := 5

/-- Modelled from the spec: the default kickoff timeout in milliseconds
(`sde_encoder_phys.h`, not among the sources), "kickoff timeout (ms, default
fixed constant)". -/
def DEFAULT_KICKOFF_TIMEOUT_MS : Nat := 84

/-- The fields of `struct sde_enc_phys_init_params` and of the catalog that
`sde_encoder_phys_cmd_init` copies. -/
structure sde_enc_phys_init_params where
  split_role : sde_enc_split_role
  /-- Value of `sde_encoder_phys_cmd_intf_te_supported(catalog, intf_idx)`. -/
  has_intf_te : Bool
  /-- The top-level block that `sde_rm_get_mdp` returns. -/
  hw_mdptop : sde_hw_mdp
  handle_frame_done : Bool
  handle_vblank_virt : Bool
  get_qsync_fps : Bool
deriving DecidableEq, Repr

/-- Source: `sde_encoder_phys_cmd_init`, on the path where the allocation and
the lookup of the top-level block succeed: a zeroed encoder with the fields
the function assigns. -/
def sde_encoder_phys_cmd_init (p : sde_enc_phys_init_params) : sde_encoder_phys :=
  { hw_ctl := none
    hw_pp := none
    hw_intf := none
    hw_mdptop := p.hw_mdptop
    connector := false
    conn_state := false
    has_intf_te := p.has_intf_te
    handle_frame_done := p.handle_frame_done
    handle_vblank_virt := p.handle_vblank_virt
    get_qsync_fps := p.get_qsync_fps
    split_role := p.split_role
    enable_state := .SDE_ENC_DISABLED
    kickoff_timeout_ms := DEFAULT_KICKOFF_TIMEOUT_MS
    pending_kickoff_cnt := 0
    pending_retire_fence_cnt := 0
    pending_vblank_cnt := 0
    autorefresh_kickoff_cnt := 0
    te_timestamp_list := List.replicate MAX_TE_PROFILE_COUNT 0 }

/-- The encoder after pointer-read interrupts stamped `stamps`, in arrival order. -/
def run_te_rd_ptr_irqs (phys_enc : sde_encoder_phys) (stamps : List Int) : sde_encoder_phys :=
  stamps.foldl sde_encoder_phys_cmd_te_rd_ptr_irq phys_enc

/-- Kernel `ktime_after(cmp1, cmp2)`. -/
def ktime_after (cmp1 cmp2 : Int) : Bool := decide (cmp1 > cmp2)

/-- Kernel `ktime_sub(lhs, rhs)`, an `s64` subtraction. -/
def ktime_sub (lhs rhs : Int) : Int := wrap_s64 (lhs - rhs)

/-- The `list_for_each_entry_reverse` loop of
`_sde_encoder_phys_cmd_needs_vsync_change`: `prev` is the entry visited before
(`none` for NULL), the list holds the entries still to visit, newest first. -/
def te_jitter_scan (profile_timestamp l_bound u_bound : Int) :
    Option Int → List Int → Bool
  | _, [] => false
  | prev, cur :: rest =>
    match prev with
    | some prev_timestamp =>
      if ktime_after cur profile_timestamp &&
          (decide (ktime_sub prev_timestamp cur < l_bound) ||
            decide (ktime_sub prev_timestamp cur > u_bound)) then true
      else te_jitter_scan profile_timestamp l_bound u_bound (some cur) rest
    | none => te_jitter_scan profile_timestamp l_bound u_bound (some cur) rest

/-- Source: `_sde_encoder_phys_cmd_needs_vsync_change`; `l_bound` and `u_bound`
are the bounds stored by `sde_encoder_helper_get_jitter_bounds_ns`. -/
def _sde_encoder_phys_cmd_needs_vsync_change (phys_enc : sde_encoder_phys)
    (profile_timestamp l_bound u_bound : Int) : Bool :=
  if l_bound = 0 ∨ u_bound = 0 then false
  else te_jitter_scan profile_timestamp l_bound u_bound none phys_enc.te_timestamp_list.reverse

/-! ## Issuing a frame -/

/-- Modelled from the spec: the increment of the pending-kickoff counter, which
the virtual encoder (`sde_encoder.c`, not among the sources) does when it
issues a frame, "incremented when a frame transmission is issued". -/
def issue_frame (phys_enc : sde_encoder_phys) : sde_encoder_phys :=
  { phys_enc with pending_kickoff_cnt := wrap_s32 (phys_enc.pending_kickoff_cnt + 1) }

/-- Modelled from the spec: what a successful wait of
`sde_encoder_helper_wait_for_irq` (`sde_encoder.c`, not among the sources) has
seen, "block until the pending-kickoff counter is ≤ 0 (wait-for-idle) or
timeout": when the wait `w` started on `phys_enc` reports success, the
interrupts that ran meanwhile have brought the counter down to `count_check`. -/
def wait_reaches_count (phys_enc : sde_encoder_phys) (count_check : Int) (w : irq_wait) :
    Prop :=
  w.ret = 0 → (run_irqs phys_enc w.irqs).pending_kickoff_cnt ≤ count_check

instance (phys_enc : sde_encoder_phys) (count_check : Int) (w : irq_wait) :
    Decidable (wait_reaches_count phys_enc count_check w) := by
  unfold wait_reaches_count; infer_instance

/-! ## Waiting for the write pointer and for commit done -/

/-- What `_sde_encoder_phys_cmd_wait_for_wr_ptr` reads from other files.  The
low-power mode of the connector only doubles the timeout handed to the wait. -/
structure wait_for_wr_ptr_env where
  /-- Value of `_sde_encoder_phys_is_ppsplit(phys_enc)` (`sde_encoder_phys.h`). -/
  is_ppsplit : Bool
  /-- Outcome of `sde_encoder_helper_wait_for_irq(phys_enc, INTR_IDX_WRPTR, ..)`. -/
  wait : irq_wait
  /-- The catalog field `hw_fence_rev` is nonzero. -/
  hw_fence_rev : Bool
  /-- Outcome of `sde_encoder_helper_hw_fence_extended_wait`. -/
  extended_wait : irq_wait
  /-- Value of `ctl->ops.get_start_state(ctl)`. -/
  start_state : Bool
  /-- Value of `sde_connector_esd_status(phys_enc->connector)`. -/
  esd_status : Int
deriving DecidableEq, Repr

/-- The forced retire-fence signal that `_sde_encoder_phys_cmd_wait_for_wr_ptr`
and `_sde_encoder_phys_cmd_handle_wr_ptr_timeout` share:
`if (is_master && atomic_add_unless(&pending_retire_fence_cnt, -1, 0))
handle_frame_done(.., SDE_ENCODER_FRAME_EVENT_SIGNAL_RETIRE_FENCE)`.  The
callback pointer is called without a NULL check: `none` when it is NULL. -/
def force_signal_retire_fence (phys_enc : sde_encoder_phys) : Option sde_encoder_phys :=
  if sde_encoder_phys_cmd_is_master phys_enc then
    let dec := atomic_add_unless phys_enc.pending_retire_fence_cnt (-1) 0
    if dec.2 then
      if !phys_enc.handle_frame_done then none
      else
        some { phys_enc with
          pending_retire_fence_cnt := dec.1
          trace := phys_enc.trace ++
            [hw_effect.handle_frame_done SDE_ENCODER_FRAME_EVENT_SIGNAL_RETIRE_FENCE] }
    else some phys_enc
  else some phys_enc

/-- Source: `_sde_encoder_phys_cmd_wait_for_wr_ptr`. -/
def _sde_encoder_phys_cmd_wait_for_wr_ptr (phys_enc : sde_encoder_phys)
    (env : wait_for_wr_ptr_env) : Option (Int × sde_encoder_phys) :=
  if phys_enc.hw_ctl.isNone || !phys_enc.connector then some (-EINVAL, phys_enc)
  /- slave encoder doesn't enable for ppsplit -/
  else if _sde_encoder_phys_is_ppsplit_slave phys_enc env.is_ppsplit then some (0, phys_enc)
  else
    let s1 := run_irqs phys_enc env.wait.irqs
    let ret1 := env.wait.ret
    /- with hw fencing, wait again for up to the extended timeout -/
    let extended := decide (ret1 = -ETIMEDOUT) && env.hw_fence_rev
    let s2 := if extended then run_irqs s1 env.extended_wait.irqs else s1
    let ret2 := if extended then env.extended_wait.ret else ret1
    if ret2 = -ETIMEDOUT then
      let frame_pending :=
        match s2.hw_ctl with
        | some ctl => if ctl.get_start_state then env.start_state else true
        | none => true
      let ret3 := if frame_pending || decide (env.esd_status ≠ 0) then ret2 else 0
      /- signal the retire fence when CTL_START is cleared but no wr_ptr irq came -/
      let s3 := if ret3 = 0 then force_signal_retire_fence s2 else some s2
      match s3 with
      | none => none
      | some s3 =>
        let s4 :=
          if ret3 ≠ 0 ∧ env.hw_fence_rev then
            { s3 with trace := s3.trace ++ [hw_effect.hw_fence_sw_override] }
          else s3
        some (ret3, { s4 with wr_ptr_wait_success := decide (ret3 = 0) })
    else some (ret2, { s2 with wr_ptr_wait_success := decide (ret2 = 0) })

/-- What `_sde_encoder_phys_cmd_handle_wr_ptr_timeout` reads from other files. -/
structure wr_ptr_timeout_env where
  /-- The argument `profile_timestamp`. -/
  profile_timestamp : Int
  /-- Lower bound stored by `sde_encoder_helper_get_jitter_bounds_ns`. -/
  l_bound : Int
  /-- Upper bound stored by `sde_encoder_helper_get_jitter_bounds_ns`. -/
  u_bound : Int
  /-- Value of `sde_connector_panel_dead(phys_enc->connector)`. -/
  panel_dead : Bool
  /-- What the second wait for the write pointer reads. -/
  retry : wait_for_wr_ptr_env
deriving DecidableEq, Repr

/-- The first part of `_sde_encoder_phys_cmd_handle_wr_ptr_timeout`, up to the
comment "Signaling the retire fence at wr_ptr timeout": the value of `ret` and
the encoder at that point. -/
def wr_ptr_timeout_retry (phys_enc : sde_encoder_phys) (env : wr_ptr_timeout_env) :
    Option (Int × sde_encoder_phys) :=
  let switch_te := _sde_encoder_phys_cmd_needs_vsync_change phys_enc env.profile_timestamp
    env.l_bound env.u_bound
  if env.panel_dead then _sde_encoder_phys_cmd_wait_for_wr_ptr phys_enc env.retry
  else if switch_te then
    /- switch to watchdog TE and wait again -/
    let s1 := { phys_enc with trace := phys_enc.trace ++ [hw_effect.switch_vsync true] }
    match _sde_encoder_phys_cmd_wait_for_wr_ptr s1 env.retry with
    | none => none
    | some (ret, s2) =>
      /- switch back to default TE -/
      some (ret, { s2 with trace := s2.trace ++ [hw_effect.switch_vsync false] })
  else some (-ETIMEDOUT, phys_enc)

/-- Source: `_sde_encoder_phys_cmd_handle_wr_ptr_timeout`. -/
def _sde_encoder_phys_cmd_handle_wr_ptr_timeout (phys_enc : sde_encoder_phys)
    (env : wr_ptr_timeout_env) : Option (Int × sde_encoder_phys) :=
  match wr_ptr_timeout_retry phys_enc env with
  | none => none
  | some (ret, s1) =>
    /- signaling the retire fence at wr_ptr timeout to allow the next commit -/
    let s2 := if ret = -ETIMEDOUT then force_signal_retire_fence s1 else some s1
    match s2 with
    | none => none
    | some s2 => some (ret, { s2 with wr_ptr_wait_success := decide (ret = 0) })

/-- What `_sde_encoder_phys_cmd_poll_write_pointer_started` reads from hardware. -/
structure poll_write_pointer_env where
  /-- Return value of `get_vsync_info`. -/
  vsync_info_ret : Int
  /-- Return value of `poll_timeout_wr_ptr`. -/
  poll_ret : Int
deriving DecidableEq, Repr

/-- Source: `_sde_encoder_phys_cmd_poll_write_pointer_started`. -/
def _sde_encoder_phys_cmd_poll_write_pointer_started (phys_enc : sde_encoder_phys)
    (env : poll_write_pointer_env) : Int × sde_encoder_phys :=
  match phys_enc.hw_pp, phys_enc.hw_intf with
  | some hw_pp, some hw_intf =>
    let supported :=
      if phys_enc.has_intf_te then hw_intf.get_vsync_info && hw_intf.poll_timeout_wr_ptr
      else hw_pp.get_vsync_info && hw_pp.poll_timeout_wr_ptr
    if !supported then (0, phys_enc)
    else if env.vsync_info_ret ≠ 0 then (env.vsync_info_ret, phys_enc)
    else if env.poll_ret ≠ 0 then
      (env.poll_ret,
        { phys_enc with trace := phys_enc.trace ++ [hw_effect.dbg_dump_all_panic] })
    else (env.poll_ret, phys_enc)
  | _, _ => (0, phys_enc)

/-- What `_sde_encoder_phys_cmd_wait_for_autorefresh_done` reads from other files. -/
structure wait_for_autorefresh_done_env where
  /-- Outcome of `sde_encoder_helper_wait_for_irq(.., INTR_IDX_AUTOREFRESH_DONE, ..)`. -/
  wait : irq_wait
  poll : poll_write_pointer_env
deriving DecidableEq, Repr

/-- Source: `_sde_encoder_phys_cmd_wait_for_autorefresh_done`. -/
def _sde_encoder_phys_cmd_wait_for_autorefresh_done (phys_enc : sde_encoder_phys)
    (env : wait_for_autorefresh_done_env) : Int × sde_encoder_phys :=
  /- only master deals with autorefresh -/
  if !sde_encoder_phys_cmd_is_master phys_enc then (0, phys_enc)
  else
    let s1 := run_irqs phys_enc env.wait.irqs
    /- double check that kickoff has started by reading write ptr reg -/
    if env.wait.ret = 0 then _sde_encoder_phys_cmd_poll_write_pointer_started s1 env.poll
    else
      (env.wait.ret, { s1 with trace := s1.trace ++
        [hw_effect.report_irq_timeout .INTR_IDX_AUTOREFRESH_DONE] })

/-- Bitwise OR of two `int` values (two's complement), as in `rc |= ...`; the
OR of two values of the `int` range is in that range. -/
def int_or (a b : Int) : Int := Int.lor a b

/-- The loop under the label `wait_for_idle` of
`sde_encoder_phys_cmd_wait_for_commit_done`, with `remaining` iterations left:
each takes the outcome of one `sde_encoder_wait_for_event(.., MSM_ENC_TX_COMPLETE)`
from `waits`; `none` when the outcomes supplied run out. -/
def wait_for_tx_complete_loop :
    Nat → Int → sde_encoder_phys → List irq_wait → Option (Int × sde_encoder_phys)
  | 0, rc, phys_enc, _ => some (rc, phys_enc)
  | _ + 1, _, _, [] => none
  | remaining + 1, rc, phys_enc, w :: waits =>
    wait_for_tx_complete_loop remaining (int_or rc w.ret) (run_irqs phys_enc w.irqs) waits

/-- What `sde_encoder_phys_cmd_wait_for_commit_done` reads from other files. -/
structure wait_for_commit_done_env where
  /-- Value of `sde_encoder_check_ctl_done_support(phys_enc->parent)`. -/
  ctl_done_support : Bool
  wr_ptr : wait_for_wr_ptr_env
  /-- Readings of the timeout handling; its `profile_timestamp` is the
  `ktime_get()` taken on entry. -/
  timeout : wr_ptr_timeout_env
  autorefresh : wait_for_autorefresh_done_env
  /-- Value of `ctl->ops.get_scheduler_status(ctl)`. -/
  scheduler_status : Nat
  /-- The constant `INVALID_CTL_STATUS` (`sde_hw_ctl.h`, not among the sources). -/
  invalid_ctl_status : Nat
  /-- Outcomes of the successive `sde_encoder_wait_for_event(.., MSM_ENC_TX_COMPLETE)`. -/
  tx_complete : List irq_wait
deriving DecidableEq, Repr

/-- The part of `sde_encoder_phys_cmd_wait_for_commit_done` under the label
`wait_for_idle`, entered with the value `rc`; `none` also when the event-log
entry of a nonzero `rc` reads `phys_enc->hw_pp->idx` through a NULL `hw_pp`. -/
def wait_for_commit_done_idle (phys_enc : sde_encoder_phys) (rc : Int)
    (env : wait_for_commit_done_env) : Option (Int × sde_encoder_phys) :=
  let pending_cnt := phys_enc.pending_kickoff_cnt
  match wait_for_tx_complete_loop pending_cnt.toNat rc phys_enc env.tx_complete with
  | none => none
  | some (rc1, s1) =>
    if rc1 ≠ 0 then
      /- `SDE_EVT32(.., phys_enc->hw_pp->idx - PINGPONG_0, ..)` -/
      if s1.hw_pp.isNone then none
      else if s1.enable_state = .SDE_ENC_ERR_NEEDS_HW_RESET then
        some (rc1, { s1 with trace := s1.trace ++ [hw_effect.needs_hw_reset] })
      else some (rc1, s1)
    else some (rc1, s1)

/-- The part of `sde_encoder_phys_cmd_wait_for_commit_done` that only a master
runs: the value of `rc`, the encoder, the scheduler status read, and whether
the code jumps to the label `wait_for_idle` from there. -/
def wait_for_commit_done_master (phys_enc : sde_encoder_phys)
    (env : wait_for_commit_done_env) : Option (Int × sde_encoder_phys × Nat × Bool) :=
  match _sde_encoder_phys_cmd_wait_for_wr_ptr phys_enc env.wr_ptr with
  | none => none
  | some (rc, s1) =>
    let handled : Option (Int × sde_encoder_phys) :=
      if rc = -ETIMEDOUT then _sde_encoder_phys_cmd_handle_wr_ptr_timeout s1 env.timeout
      else some (rc, s1)
    match handled with
    | none => none
    | some (rc2, s2) =>
      if rc = -ETIMEDOUT ∧ rc2 = -ETIMEDOUT then
        some (rc2, s2, env.invalid_ctl_status, true)
      else
        let auto :=
          if s2.autorefresh_cfg.enable then
            _sde_encoder_phys_cmd_wait_for_autorefresh_done s2 env.autorefresh
          else (rc2, s2)
        let scheduler_status :=
          match auto.2.hw_ctl with
          | some ctl =>
            if ctl.get_scheduler_status then env.scheduler_status
            else env.invalid_ctl_status
          | none => env.invalid_ctl_status
        some (auto.1, auto.2, scheduler_status, false)

/-- Source: `sde_encoder_phys_cmd_wait_for_commit_done`. -/
def sde_encoder_phys_cmd_wait_for_commit_done (phys_enc : sde_encoder_phys)
    (env : wait_for_commit_done_env) : Option (Int × sde_encoder_phys) :=
  if env.ctl_done_support && !sde_encoder_phys_cmd_is_master phys_enc then
    some (0, phys_enc)
  else
    let first : Option (Int × sde_encoder_phys × Nat × Bool) :=
      /- only required for master controller -/
      if sde_encoder_phys_cmd_is_master phys_enc then
        wait_for_commit_done_master phys_enc env
      else some (0, phys_enc, env.invalid_ctl_status, false)
    match first with
    | none => none
    | some (rc, s1, scheduler_status, to_wait_for_idle) =>
      /- wait for posted start or serialize trigger -/
      let pending_cnt := s1.pending_kickoff_cnt
      if to_wait_for_idle || decide (pending_cnt > 1) ||
          (decide (pending_cnt ≠ 0) && (scheduler_status &&& 1 != 0)) ||
          (decide (rc = 0) &&
            s1.frame_trigger_mode == .FRAME_DONE_WAIT_SERIALIZE) then
        wait_for_commit_done_idle s1 rc env
      else some (rc, s1)

/-! ## Vblank interrupt control -/

/-- What `sde_encoder_phys_cmd_control_vblank_irq` gets back from the helpers
of `sde_encoder.c`. -/
structure control_vblank_irq_env where
  /-- Return value of `sde_encoder_helper_register_irq(phys_enc, INTR_IDX_RDPTR)`. -/
  register_ret : Int
  /-- Return value of `sde_encoder_helper_unregister_irq(phys_enc, INTR_IDX_RDPTR)`. -/
  unregister_ret : Int
deriving DecidableEq, Repr

/-- Source: `sde_encoder_phys_cmd_control_vblank_irq`. -/
def sde_encoder_phys_cmd_control_vblank_irq (phys_enc : sde_encoder_phys) (enable : Bool)
    (env : control_vblank_irq_env) : Int × sde_encoder_phys :=
  if phys_enc.hw_pp.isNone then (-EINVAL, phys_enc)
  /- slave encoders don't report vblank -/
  else if !sde_encoder_phys_cmd_is_master phys_enc then (0, phys_enc)
  else
    let refcount := wrap_u32 phys_enc.vblank_refcount
    /- protect against negative -/
    if !enable && decide (refcount = 0) then (-EINVAL, phys_enc)
    else if enable then
      let s1 := { phys_enc with vblank_refcount := wrap_s32 (phys_enc.vblank_refcount + 1) }
      if s1.vblank_refcount = 1 then
        let s2 := { s1 with trace := s1.trace ++ [hw_effect.register_irq .INTR_IDX_RDPTR] }
        if env.register_ret ≠ 0 then
          (env.register_ret,
            { s2 with vblank_refcount := wrap_s32 (s2.vblank_refcount - 1) })
        else (env.register_ret, s2)
      else (0, s1)
    else
      let s1 := { phys_enc with vblank_refcount := wrap_s32 (phys_enc.vblank_refcount - 1) }
      if s1.vblank_refcount = 0 then
        let s2 := { s1 with trace := s1.trace ++ [hw_effect.unregister_irq .INTR_IDX_RDPTR] }
        if env.unregister_ret ≠ 0 then
          (env.unregister_ret,
            { s2 with vblank_refcount := wrap_s32 (s2.vblank_refcount + 1) })
        else (env.unregister_ret, s2)
      else (0, s1)

/-! ## Exclusion steps of the interrupt callbacks -/

/-- The encoder state that the interrupt callbacks share with the commit
thread. -/
inductive shared_field
  | pending_kickoff_cnt
  | pending_retire_fence_cnt
  | pending_vblank_cnt
  | autorefresh_kickoff_cnt
  | recovered
  | autorefresh_disable_trans
  | te_timestamp_list
deriving DecidableEq, Repr

/-- A step of an interrupt callback that bears on exclusion: taking or
releasing `enc_spinlock` (`spin_lock`, `spin_lock_irqsave` and their
counterparts), an atomic counter operation (`atomic_add_unless`), or a plain
store to a shared field. -/
inductive sync_step
  | spin_lock
  | spin_unlock
  | atomic_op (field : shared_field)
  | store (field : shared_field)
deriving DecidableEq, Repr

/-- The exclusion steps of `_sde_encoder_phys_signal_frame_done` on the path it
takes from `phys_enc`, in program order, up to its return or fault. -/
def _sde_encoder_phys_signal_frame_done_steps (phys_enc : sde_encoder_phys) :
    List sync_step :=
  match phys_enc.hw_ctl with
  | none => []
  | some _ =>
    let dec := atomic_add_unless phys_enc.pending_kickoff_cnt (-1) 0
    /- `handle_frame_done && atomic_add_unless(..)`: the counter is touched only
       with the callback registered -/
    let notify : List sync_step :=
      if phys_enc.handle_frame_done then
        sync_step.atomic_op .pending_kickoff_cnt ::
          (if dec.2 then
            [sync_step.spin_lock] ++
              /- `if (cmd_enc->frame_tx_timeout_report_cnt) phys_enc->recovered = true` -/
              (if phys_enc.frame_tx_timeout_report_cnt ≠ 0 then
                [sync_step.store .recovered] else []) ++
              [sync_step.spin_unlock]
           else [])
      else []
    /- `SDE_EVT32_IRQ(.., phys_enc->hw_pp->idx - PINGPONG_0, ..)` -/
    if phys_enc.hw_pp.isNone then notify
    /- `phys_enc->autorefresh_disable_trans = false` -/
    else if phys_enc.autorefresh_disable_trans then
      notify ++ [sync_step.store .autorefresh_disable_trans]
    else notify

/-- The exclusion steps of `sde_encoder_phys_cmd_ctl_done_irq`. -/
def sde_encoder_phys_cmd_ctl_done_irq_steps (phys_enc : sde_encoder_phys) : List sync_step :=
  _sde_encoder_phys_signal_frame_done_steps phys_enc

/-- The exclusion steps of `sde_encoder_phys_cmd_pp_tx_done_irq`. -/
def sde_encoder_phys_cmd_pp_tx_done_irq_steps (phys_enc : sde_encoder_phys) : List sync_step :=
  if phys_enc.hw_pp.isNone then [] else _sde_encoder_phys_signal_frame_done_steps phys_enc

/-- The exclusion steps of `sde_encoder_phys_cmd_autorefresh_done_irq`. -/
def sde_encoder_phys_cmd_autorefresh_done_irq_steps (phys_enc : sde_encoder_phys) :
    List sync_step :=
  let new_cnt := atomic_add_unless phys_enc.autorefresh_kickoff_cnt (-1) 0
  let s1 := { phys_enc with autorefresh_kickoff_cnt := new_cnt.1 }
  [sync_step.spin_lock, sync_step.atomic_op .autorefresh_kickoff_cnt, sync_step.spin_unlock] ++
    (if s1.hw_pp.isNone || s1.hw_intf.isNone then []
     else if new_cnt.2 then _sde_encoder_phys_signal_frame_done_steps s1 else [])

/-- The exclusion steps of `sde_encoder_phys_cmd_te_rd_ptr_irq`. -/
def sde_encoder_phys_cmd_te_rd_ptr_irq_steps (phys_enc : sde_encoder_phys) : List sync_step :=
  if phys_enc.hw_pp.isNone || phys_enc.hw_intf.isNone || phys_enc.hw_ctl.isNone then []
  else
    [sync_step.spin_lock] ++
      (match phys_enc.te_timestamp_list with
        | [] => []
        | _ :: _ => [sync_step.store .te_timestamp_list]) ++
      [sync_step.spin_unlock, sync_step.atomic_op .pending_vblank_cnt]

/-- The exclusion steps of `sde_encoder_phys_cmd_wr_ptr_irq`. -/
def sde_encoder_phys_cmd_wr_ptr_irq_steps (phys_enc : sde_encoder_phys) : List sync_step :=
  if phys_enc.hw_ctl.isNone then []
  else
    let dec := atomic_add_unless phys_enc.pending_retire_fence_cnt (-1) 0
    sync_step.atomic_op .pending_retire_fence_cnt ::
      (if dec.2 && phys_enc.handle_frame_done then
        [sync_step.spin_lock, sync_step.spin_unlock]
       else [])

/-- The exclusion steps of the callback registered for an interrupt. -/
def irq_event.steps (phys_enc : sde_encoder_phys) : irq_event → List sync_step
  | .ctl_done => sde_encoder_phys_cmd_ctl_done_irq_steps phys_enc
  | .pp_tx_done => sde_encoder_phys_cmd_pp_tx_done_irq_steps phys_enc
  | .autorefresh_done => sde_encoder_phys_cmd_autorefresh_done_irq_steps phys_enc
  | .te_rd_ptr _ => sde_encoder_phys_cmd_te_rd_ptr_irq_steps phys_enc
  | .wr_ptr _ => sde_encoder_phys_cmd_wr_ptr_irq_steps phys_enc

/-! ## Operations on the pending-kickoff counter and observations on traces -/

/-- The completion-side events: the three completion interrupts, the
scheduler-idle reclaim and the frame-done timeout handler, with the values
each reads. -/
inductive completion_event
  | ctl_done
  | pp_tx_done
  | autorefresh_done
  | scheduler_idle (scheduler_status : Nat)
  | framedone_timeout (env : framedone_timeout_env)
deriving DecidableEq, Repr

/-- The encoder after a completion-side event. -/
def completion_event.run (phys_enc : sde_encoder_phys) :
    completion_event → Option sde_encoder_phys
  | .ctl_done => sde_encoder_phys_cmd_ctl_done_irq phys_enc
  | .pp_tx_done => sde_encoder_phys_cmd_pp_tx_done_irq phys_enc
  | .autorefresh_done => sde_encoder_phys_cmd_autorefresh_done_irq phys_enc
  | .scheduler_idle scheduler_status =>
    (_sde_encoder_phys_cmd_is_scheduler_idle phys_enc scheduler_status).map Prod.snd
  | .framedone_timeout env =>
    some (_sde_encoder_phys_cmd_handle_framedone_timeout phys_enc env).2

/-- The encoder after a sequence of completion-side events. -/
def run_completion_events (phys_enc : sde_encoder_phys) :
    List completion_event → Option sde_encoder_phys
  | [] => some phys_enc
  | e :: es => (e.run phys_enc).bind fun s => run_completion_events s es

/-- The operations of this file that write `pending_kickoff_cnt`. -/
inductive kickoff_cnt_op
  | completion (e : completion_event)
  | prepare_for_kickoff (params : sde_encoder_kickoff_params)
      (env : prepare_for_kickoff_env)
deriving DecidableEq, Repr

/-- The encoder after an operation on the pending-kickoff counter. -/
def kickoff_cnt_op.run (phys_enc : sde_encoder_phys) :
    kickoff_cnt_op → Option sde_encoder_phys
  | .completion e => e.run phys_enc
  | .prepare_for_kickoff params env =>
    (sde_encoder_phys_cmd_prepare_for_kickoff phys_enc params env).map Prod.snd

/-- The event masks of the `handle_frame_done` calls of a trace, in order. -/
def frame_done_events (trace : List hw_effect) : List Nat :=
  trace.filterMap fun
    | .handle_frame_done event => some event
    | _ => none

/-- Number of `handle_frame_done` calls of a trace whose event mask carries the
release-fence flag. -/
def release_fence_notifications (trace : List hw_effect) : Nat :=
  (frame_done_events trace).countP fun event =>
    event &&& SDE_ENCODER_FRAME_EVENT_SIGNAL_RELEASE_FENCE != 0

/-- The hardware writes of a trace (calls of `ops` of a hardware block). -/
def hw_writes (trace : List hw_effect) : List hw_effect :=
  trace.filter fun
    | .trigger_output_fence_override => true
    | .override_tear_rd_ptr_val _ => true
    | .update_tearcheck _ _ => true
    | .setup_autorefresh _ _ => true
    | .connect_external_te _ _ => true
    | .check_and_reset_tearcheck => true
    | .setup_intf_cfg => true
    | .setup_tearcheck _ _ => true
    | .enable_tearcheck _ _ => true
    | .enable_compressed_input _ => true
    | .enable_wide_bus _ => true
    | .update_bitmask_intf => true
    | .update_bitmask_merge_3d => true
    | .reset_counter => true
    | _ => false

/-- Relation between the encoder before and after an operation that issues no
trigger: the counter stays non-negative, does not grow, and every new
release-fence notification is paid for by one decrement. -/
def kickoff_rel (s s' : sde_encoder_phys) : Prop :=
  0 ≤ s'.pending_kickoff_cnt ∧ s'.pending_kickoff_cnt ≤ s.pending_kickoff_cnt ∧
  (release_fence_notifications s'.trace : Int) + s'.pending_kickoff_cnt ≤
    release_fence_notifications s.trace + s.pending_kickoff_cnt

/-- The configs of the `setup_autorefresh` hardware writes of a trace, in order. -/
def autorefresh_writes (trace : List hw_effect) : List sde_hw_autorefresh :=
  trace.filterMap fun
    | .setup_autorefresh _ cfg => some cfg
    | _ => none

/-- Number of ordinary transmission triggers of a trace. -/
def transmission_triggers (trace : List hw_effect) : Nat :=
  trace.countP fun e => e == hw_effect.trigger_start

/-- Lowest value of a C `int`. -/
def INT_MIN : Int := -2147483648

/-- The reference definition of the jitter scan: both bounds are nonzero and
two adjacent ring entries, older `o` and newer `n`, have `o > p` and
`n - o < l ∨ n - o > u`.  The ring is given oldest first. -/
def jitter_out_of_bounds (ring : List Int) (p l u : Int) : Prop :=
  l ≠ 0 ∧ u ≠ 0 ∧
    ∃ pr ∈ ring.zip ring.tail, pr.1 > p ∧ (pr.2 - pr.1 < l ∨ pr.2 - pr.1 > u)

/-- The pingpong, interface and controller blocks are all attached, which is
what the pointer-read handler checks before anything else. -/
def blocks_attached (s : sde_encoder_phys) : Prop :=
  s.hw_pp.isSome = true ∧ s.hw_intf.isSome = true ∧ s.hw_ctl.isSome = true

/-- One commit: prepare-for-kickoff, the trigger and the wait for commit done,
with the completion-side events that arrive between these steps. -/
structure kickoff_round where
  params : sde_encoder_kickoff_params
  env : prepare_for_kickoff_env
  before_trigger : List completion_event
  /-- Value of the connector's autorefresh property that the trigger reads. -/
  autorefresh_property : Nat
  after_trigger : List completion_event
  commit_done : wait_for_commit_done_env
  after_commit_done : List completion_event
deriving DecidableEq, Repr

/-- Modelled from the spec: the order in which the virtual encoder
(`sde_encoder.c`, not among the sources) calls the operations of this file in
one commit, "Per-frame sub-sequence while `ENABLED`: 1. Prepare ... 2. Trigger
... 4. Wait for commit done": `sde_encoder_phys_cmd_prepare_for_kickoff`, the
increment of the counter for the frame issued,
`sde_encoder_phys_cmd_trigger_start`, then
`sde_encoder_phys_cmd_wait_for_commit_done`. -/
def kickoff_round.run (phys_enc : sde_encoder_phys) (r : kickoff_round) :
    Option sde_encoder_phys :=
  match sde_encoder_phys_cmd_prepare_for_kickoff phys_enc r.params r.env with
  | none => none
  | some (_, s1) =>
    match run_completion_events s1 r.before_trigger with
    | none => none
    | some s2 =>
      let s3 := sde_encoder_phys_cmd_trigger_start (issue_frame s2) r.autorefresh_property
      match run_completion_events s3 r.after_trigger with
      | none => none
      | some s4 =>
        match sde_encoder_phys_cmd_wait_for_commit_done s4 r.commit_done with
        | none => none
        | some (_, s5) => run_completion_events s5 r.after_commit_done

/-- The encoder after a sequence of commit rounds. -/
def run_kickoff_rounds (phys_enc : sde_encoder_phys) :
    List kickoff_round → Option sde_encoder_phys
  | [] => some phys_enc
  | r :: rs =>
    match r.run phys_enc with
    | none => none
    | some s => run_kickoff_rounds s rs

/-- The round `r` started on `s` waits for idle in its prepare step: the
pingpong block is attached, the round uses the default frame-trigger mode,
neither early return of `_sde_encoder_phys_cmd_wait_for_idle` applies, and the
wait behaves as `wait_reaches_count` says, for the count the function asks for
(1 when more than one frame is pending, else 0). -/
def waits_for_idle (s : sde_encoder_phys) (r : kickoff_round) : Prop :=
  s.hw_pp.isSome = true ∧
  r.params.frame_trigger_mode = .FRAME_DONE_WAIT_DEFAULT ∧
  (r.env.idle.ctl_done_support && !sde_encoder_phys_cmd_is_master s) = false ∧
  _sde_encoder_phys_is_ppsplit_slave s r.env.idle.is_ppsplit = false ∧
  wait_reaches_count { s with frame_trigger_mode := r.params.frame_trigger_mode }
    (if s.pending_kickoff_cnt > 1 then 1 else 0) r.env.idle.wait

instance (s : sde_encoder_phys) (r : kickoff_round) : Decidable (waits_for_idle s r) := by
  unfold waits_for_idle; infer_instance

/-- Every round of the sequence waits for idle on the encoder it starts on. -/
def rounds_wait_for_idle (s : sde_encoder_phys) : List kickoff_round → Bool
  | [] => true
  | r :: rs =>
    decide (waits_for_idle s r) &&
      match r.run s with
      | none => true
      | some s' => rounds_wait_for_idle s' rs

/-- The pingpong and interface blocks, the connector and its state are all
present, which is what `_sde_encoder_phys_cmd_config_autorefresh` checks first. -/
def autorefresh_handles_present (s : sde_encoder_phys) : Prop :=
  s.hw_pp.isSome = true ∧ s.hw_intf.isSome = true ∧ s.connector = true ∧
    s.conn_state = true

instance (s : sde_encoder_phys) : Decidable (autorefresh_handles_present s) := by
  unfold autorefresh_handles_present; infer_instance

/-- The block in charge of the TE offers `setup_autorefresh`: the interface
when `has_intf_te` is set and it has the op, else the pingpong. -/
def offers_setup_autorefresh (s : sde_encoder_phys) : Bool :=
  match s.hw_pp, s.hw_intf with
  | some hw_pp, some hw_intf =>
    s.has_intf_te && hw_intf.setup_autorefresh || hw_pp.setup_autorefresh
  | _, _ => false

/-- The block in charge of the TE is attached and offers `get_vsync_info`: the
interface when `has_intf_te` is set, else the pingpong. -/
def reads_vsync_info (s : sde_encoder_phys) : Bool :=
  if s.has_intf_te then s.hw_intf.any fun hw_intf => hw_intf.get_vsync_info
  else s.hw_pp.any fun hw_pp => hw_pp.get_vsync_info

/-- A call `_sde_encoder_phys_cmd_config_autorefresh(phys_enc, 0)` returns
before it stores or writes anything: a handle is missing or the cached config
is already disabled. -/
def autorefresh_off_is_cached (s : sde_encoder_phys) : Prop :=
  s.autorefresh_cfg.enable = false ∨ s.hw_pp = none ∨ s.hw_intf = none ∨
    s.connector = false ∨ s.conn_state = false

/-- The helper calls of a trace that register (`true`) or unregister (`false`)
the pointer-read interrupt, in order. -/
def rd_ptr_irq_registrations (trace : List hw_effect) : List Bool :=
  trace.filterMap fun
    | .register_irq .INTR_IDX_RDPTR => some true
    | .unregister_irq .INTR_IDX_RDPTR => some false
    | _ => none

/-- The vsync-source switches of a trace, in order: `true` for a switch to the
watchdog TE, `false` for the switch back to the default TE. -/
def vsync_switches (trace : List hw_effect) : List Bool :=
  trace.filterMap fun
    | .switch_vsync watchdog_te => some watchdog_te
    | _ => none

/-- The value of `rc` after `rc |= code` for each of `codes` in turn. -/
def or_codes (rc : Int) (codes : List Int) : Int := codes.foldl int_or rc

/-- The fields written by plain stores made while `enc_spinlock` is not held;
`held` says whether the lock is held before the first step. -/
def unlocked_stores : Bool → List sync_step → List shared_field
  | _, [] => []
  | _, .spin_lock :: rest => unlocked_stores true rest
  | _, .spin_unlock :: rest => unlocked_stores false rest
  | held, .atomic_op _ :: rest => unlocked_stores held rest
  | held, .store field :: rest =>
    (if held then [] else [field]) ++ unlocked_stores held rest

/-- Whether `enc_spinlock` is held after the steps. -/
def lock_held_after : Bool → List sync_step → Bool
  | held, [] => held
  | _, .spin_lock :: rest => lock_held_after true rest
  | _, .spin_unlock :: rest => lock_held_after false rest
  | held, .atomic_op _ :: rest => lock_held_after held rest
  | held, .store _ :: rest => lock_held_after held rest

/-- Every shared field in which `s'` differs from `s` is the target of a step:
an atomic operation for a counter, a store for the recovered flag, the
autorefresh disable-transition flag and the TE timestamp ring. -/
def mutations_recorded (s s' : sde_encoder_phys) (steps : List sync_step) : Prop :=
  (s'.pending_kickoff_cnt ≠ s.pending_kickoff_cnt →
    sync_step.atomic_op .pending_kickoff_cnt ∈ steps) ∧
  (s'.pending_retire_fence_cnt ≠ s.pending_retire_fence_cnt →
    sync_step.atomic_op .pending_retire_fence_cnt ∈ steps) ∧
  (s'.pending_vblank_cnt ≠ s.pending_vblank_cnt →
    sync_step.atomic_op .pending_vblank_cnt ∈ steps) ∧
  (s'.autorefresh_kickoff_cnt ≠ s.autorefresh_kickoff_cnt →
    sync_step.atomic_op .autorefresh_kickoff_cnt ∈ steps) ∧
  (s'.recovered ≠ s.recovered → sync_step.store .recovered ∈ steps) ∧
  (s'.autorefresh_disable_trans ≠ s.autorefresh_disable_trans →
    sync_step.store .autorefresh_disable_trans ∈ steps) ∧
  (s'.te_timestamp_list ≠ s.te_timestamp_list →
    sync_step.store .te_timestamp_list ∈ steps)

/-! ## Concrete encoders and readings used in the examples -/

/-- An encoder with two frames outstanding. -/
def two_frames_pending : sde_encoder_phys := { pending_kickoff_cnt := 2 }

/-- Readings for a prepare-for-kickoff whose wait for idle times out after one
pointer-read interrupt, the panel being alive and a recovery listener registered. -/
def idle_wait_times_out : prepare_for_kickoff_env :=
  { idle :=
      { ctl_done_support := false
        is_ppsplit := false
        scheduler_status_first := 0
        wait := ⟨[.te_rd_ptr 5], -ETIMEDOUT⟩
        scheduler_status_second := 0
        timeout := ⟨true, 0, false⟩ }
    autorefresh_status := 0
    vblank_wait := ⟨[], 0⟩
    recovery_events := true
    qsync_updated := false
    tearcheck := ⟨.SDE_RM_QSYNC_DISABLED, 0, 60, 0, 0⟩ }

/-- An encoder in posted-start mode with three frames and one autorefresh
kickoff outstanding, the pointer-write wait having succeeded. -/
def three_frames_posted : sde_encoder_phys :=
  { pending_kickoff_cnt := 3
    frame_trigger_mode := .FRAME_DONE_WAIT_POSTED_START
    wr_ptr_wait_success := true
    autorefresh_kickoff_cnt := 1 }

/-- Seven completion-side events, more than the three frames outstanding. -/
def seven_completions : List completion_event :=
  [.ctl_done, .pp_tx_done, .framedone_timeout ⟨false, 0, false⟩, .ctl_done,
   .autorefresh_done, .scheduler_idle 1, .framedone_timeout ⟨false, 1, false⟩]

/-- The encoder `two_frames_pending` after a prepare-for-kickoff with the
readings `idle_wait_times_out`. -/
def two_frames_timed_out : sde_encoder_phys :=
  { two_frames_pending with
      pending_kickoff_cnt := 0
      frame_tx_timeout_report_cnt := 1
      enable_state := .SDE_ENC_ERR_NEEDS_HW_RESET
      trace := [.handle_vblank_virt, .unregister_irq .INTR_IDX_RDPTR, .dbg_dump_all false,
        .register_irq .INTR_IDX_RDPTR, .event_notify .SDE_RECOVERY_CAPTURE,
        .handle_frame_done 10] }

/-- The encoder `three_frames_posted` after the events `seven_completions`. -/
def three_frames_completed : sde_encoder_phys :=
  { three_frames_posted with
      pending_kickoff_cnt := 0
      autorefresh_kickoff_cnt := 0
      frame_tx_timeout_report_cnt := 1
      enable_state := .SDE_ENC_ERR_NEEDS_HW_RESET
      trace := [.handle_frame_done 9, .handle_frame_done 9, .unregister_irq .INTR_IDX_RDPTR,
        .dbg_dump_all false, .register_irq .INTR_IDX_RDPTR, .dbg_dump_panic,
        .handle_frame_done 10] }

/-- An idle encoder in the autorefresh disable transition. -/
def idle_in_disable_transition : sde_encoder_phys :=
  { pending_kickoff_cnt := 0, autorefresh_disable_trans := true }

/-- An idle encoder outside the autorefresh disable transition. -/
def idle_encoder : sde_encoder_phys := { pending_kickoff_cnt := 0 }

/-- An encoder with one frame outstanding. -/
def one_frame_pending : sde_encoder_phys := { pending_kickoff_cnt := 1 }

/-- An encoder with one frame outstanding and no pingpong block attached. -/
def one_frame_pending_no_pp : sde_encoder_phys :=
  { pending_kickoff_cnt := 1, hw_pp := none }

/-- Readings of the timeout handler: panel alive, no recovery listener. -/
def panel_alive : framedone_timeout_env := ⟨false, 0, false⟩

/-- A 400-line panel (variable-refresh callback registered). -/
def small_panel : sde_encoder_phys := { vtotal := 400 }

/-- A 2400-line panel (variable-refresh callback registered). -/
def panel_2400 : sde_encoder_phys := { vtotal := 2400 }

/-- Continuous mode, minimum 119 fps, nominal 120 fps, jitter bounds unset. -/
def qsync_119_of_120 : tearcheck_env := ⟨.SDE_RM_QSYNC_CONTINUOUS_MODE, 119, 120, 0, 0⟩

/-- Continuous mode, minimum 60 fps, nominal 90 fps, jitter bounds unset. -/
def qsync_60_of_90 : tearcheck_env := ⟨.SDE_RM_QSYNC_CONTINUOUS_MODE, 60, 90, 0, 0⟩

/-- Continuous mode, minimum 30 fps, nominal 90 fps, jitter bounds unset. -/
def qsync_30_of_90 : tearcheck_env := ⟨.SDE_RM_QSYNC_CONTINUOUS_MODE, 30, 90, 0, 0⟩

/-- Continuous mode, minimum rate equal to the nominal 90 fps. -/
def qsync_90_of_90 : tearcheck_env := ⟨.SDE_RM_QSYNC_CONTINUOUS_MODE, 90, 90, 0, 0⟩

/-- An encoder with autorefresh programmed for 30 frames. -/
def autorefresh_30 : sde_encoder_phys := { autorefresh_cfg := ⟨true, 30⟩ }

/-- An encoder with two frames outstanding in posted-start mode. -/
def two_frames_posted : sde_encoder_phys :=
  { pending_kickoff_cnt := 2, frame_trigger_mode := .FRAME_DONE_WAIT_POSTED_START }

instance (ring : List Int) (p l u : Int) : Decidable (jitter_out_of_bounds ring p l u) := by
  unfold jitter_out_of_bounds; infer_instance

/-- The values a `ktime_get()` reading or a zeroed entry can have. -/
def valid_ktime (t : Int) : Prop := 0 ≤ t ∧ t < 9223372036854775808

instance (t : Int) : Decidable (valid_ktime t) := by
  unfold valid_ktime; infer_instance

/-- A ring with one late pulse: intervals 8, 8, 20, 8 (milliseconds, in ns). -/
def ring_late_pulse : sde_encoder_phys :=
  { te_timestamp_list := [100000000, 108000000, 116000000, 136000000, 144000000] }

instance (s : sde_encoder_phys) : Decidable (blocks_attached s) := by
  unfold blocks_attached; infer_instance

/-- An encoder whose ring holds five pulses. -/
def ring_of_five : sde_encoder_phys :=
  { te_timestamp_list := [10, 20, 30, 40, 50] }

/-- The same encoder before a controller is assigned to it. -/
def ring_of_five_no_ctl : sde_encoder_phys :=
  { ring_of_five with hw_ctl := none }

/-- Hardware that reports autorefresh off. -/
def autorefresh_reported_off : disable_autorefresh_env :=
  { autorefresh := ⟨0, ⟨false, 0⟩⟩
    disable_seq1 := true
    wr_ptr_line_counts := [5, 0]
    autorefresh_statuses := [128, 0] }

/-- Hardware that reports autorefresh on; the transfer is seen ongoing once and
the status register shows autorefresh active for one more poll. -/
def autorefresh_reported_on : disable_autorefresh_env :=
  { autorefresh := ⟨0, ⟨true, 30⟩⟩
    disable_seq1 := true
    wr_ptr_line_counts := [5, 0]
    autorefresh_statuses := [128, 0] }

/-- An encoder in autorefresh with 30 frames on a panel of 2400 lines. -/
def autorefresh_30_running : sde_encoder_phys :=
  { autorefresh_cfg := ⟨true, 30⟩, vdisplay := 2400 }

/-- The encoder of `autorefresh_30_running` on hardware whose blocks cannot
connect the external TE. -/
def autorefresh_30_no_te_connect : sde_encoder_phys :=
  { autorefresh_30_running with
    hw_pp := some { connect_external_te := false }
    hw_intf := some { connect_external_te := false } }

/-- The encoder that disabling autorefresh leaves from `autorefresh_30_running`
under `autorefresh_reported_on`. -/
def autorefresh_30_disabled : sde_encoder_phys :=
  { autorefresh_30_running with
    autorefresh_cfg := ⟨false, 0⟩
    autorefresh_disable_trans := true
    trace := [hw_effect.connect_external_te true false,
      hw_effect.setup_autorefresh true ⟨false, 0⟩,
      hw_effect.check_and_reset_tearcheck,
      hw_effect.connect_external_te true true] }

/-- An encoder marked for a hardware reset after a frame-done timeout. -/
def encoder_needs_hw_reset : sde_encoder_phys :=
  { enable_state := .SDE_ENC_ERR_NEEDS_HW_RESET }

/-- A disabled encoder that still has one frame pending. -/
def disabled_one_frame_pending : sde_encoder_phys :=
  { enable_state := .SDE_ENC_DISABLED, pending_kickoff_cnt := 1 }

/-- Readings for an enable without qsync and without a vsync clock rate. -/
def enable_plain : enable_env :=
  { is_ppsplit := false
    kms_valid := true
    vsync_clk_rate := 0
    tearcheck := ⟨.SDE_RM_QSYNC_DISABLED, 0, 60, 0, 0⟩
    compressed := false
    widebus := false
    idle_pc_restore := false }

/-- A slave encoder with nothing pending. -/
def idle_slave : sde_encoder_phys := { split_role := .ENC_ROLE_SLAVE }

/-- An encoder in continuous splash with two frames outstanding in
posted-start mode. -/
def two_frames_posted_splash : sde_encoder_phys :=
  { pending_kickoff_cnt := 2
    frame_trigger_mode := .FRAME_DONE_WAIT_POSTED_START
    cont_splash_enabled := true }

/-- Readings for a prepare-for-kickoff that finds autorefresh busy and sees one
pp-done interrupt during the vblank wait. -/
def vblank_wait_sees_completion : prepare_for_kickoff_env :=
  { idle_wait_times_out with autorefresh_status := 1, vblank_wait := ⟨[.pp_tx_done], 0⟩ }

/-- An encoder with two frames outstanding after a recorded frame-done timeout. -/
def two_frames_after_timeout : sde_encoder_phys :=
  { pending_kickoff_cnt := 2, frame_tx_timeout_report_cnt := 1 }

/-- An idle encoder on hardware without autorefresh programming. -/
def idle_no_autorefresh_op : sde_encoder_phys :=
  { hw_pp := some { setup_autorefresh := false }
    hw_intf := some { setup_autorefresh := false } }

/-- An encoder with a kickoff timeout of 4 ms on a panel of 2400 lines. -/
def short_timeout_2400 : sde_encoder_phys :=
  { kickoff_timeout_ms := 4, vdisplay := 2400 }

/-- An encoder whose vblank interrupt has one user. -/
def vblank_one_user : sde_encoder_phys := { vblank_refcount := 1 }

/-- Helpers that fail to unregister the interrupt. -/
def unregister_fails : control_vblank_irq_env := ⟨0, -EINVAL⟩

/-- A wait for the write pointer during which the interrupt arrives. -/
def wr_ptr_arrives : wait_for_wr_ptr_env :=
  { is_ppsplit := false, wait := ⟨[.wr_ptr 0], 0⟩, hw_fence_rev := false,
    extended_wait := ⟨[], 0⟩, start_state := false, esd_status := 0 }

/-- A wait for the write pointer that times out with the frame still pending. -/
def wr_ptr_stays_away : wait_for_wr_ptr_env :=
  { is_ppsplit := false, wait := ⟨[], -ETIMEDOUT⟩, hw_fence_rev := false,
    extended_wait := ⟨[], 0⟩, start_state := true, esd_status := 0 }

/-- A timeout on a dead panel, jitter bounds unset; the next wait succeeds. -/
def dead_panel_timeout : wr_ptr_timeout_env :=
  { profile_timestamp := 0, l_bound := 0, u_bound := 0, panel_dead := true,
    retry := wr_ptr_arrives }

/-- A timeout on a live panel whose TE jitter is out of bounds (against
`ring_late_pulse`); the wait on the watchdog TE succeeds. -/
def jitter_timeout : wr_ptr_timeout_env :=
  { profile_timestamp := 100000000, l_bound := 7000000, u_bound := 9000000,
    panel_dead := false, retry := wr_ptr_arrives }

/-- A timeout on a live panel with jitter bounds unset. -/
def plain_timeout : wr_ptr_timeout_env :=
  { profile_timestamp := 0, l_bound := 0, u_bound := 0, panel_dead := false,
    retry := wr_ptr_stays_away }

/-- A master encoder with one retire fence pending. -/
def one_retire_fence_pending : sde_encoder_phys := { pending_retire_fence_cnt := 1 }

/-- A wait for the write pointer that fails at once with `-EWOULDBLOCK` (-11). -/
def wr_ptr_would_block : wait_for_wr_ptr_env :=
  { is_ppsplit := false, wait := ⟨[], -11⟩, hw_fence_rev := false,
    extended_wait := ⟨[], 0⟩, start_state := true, esd_status := 0 }

/-- A commit whose write pointer never comes (live panel, jitter bounds unset)
and whose transmit-complete wait fails with `-EINVAL`. -/
def commit_done_two_failures : wait_for_commit_done_env :=
  { ctl_done_support := false, wr_ptr := wr_ptr_stays_away, timeout := plain_timeout,
    autorefresh := ⟨⟨[], 0⟩, ⟨0, 0⟩⟩, scheduler_status := 0, invalid_ctl_status := 0,
    tx_complete := [⟨[], -EINVAL⟩] }

/-- A commit whose wait for the write pointer fails with `-EWOULDBLOCK` while
the autorefresh-done wait and the write-pointer poll succeed. -/
def commit_done_autorefresh_ok : wait_for_commit_done_env :=
  { ctl_done_support := false, wr_ptr := wr_ptr_would_block, timeout := plain_timeout,
    autorefresh := ⟨⟨[], 0⟩, ⟨0, 0⟩⟩, scheduler_status := 0, invalid_ctl_status := 0,
    tx_complete := [] }

/-- A master encoder with one frame outstanding. -/
def one_frame_outstanding : sde_encoder_phys := { pending_kickoff_cnt := 1 }

/-- A master encoder with autorefresh enabled and no frame outstanding. -/
def autorefresh_running : sde_encoder_phys := { autorefresh_cfg := ⟨true, 1⟩ }

/-- Both registration calls for the pointer-read interrupt succeed. -/
def vblank_irq_calls_succeed : control_vblank_irq_env := ⟨0, 0⟩

/-- A master encoder with one retire fence pending whose parent registered no
`handle_frame_done`. -/
def one_retire_fence_no_callback : sde_encoder_phys :=
  { pending_retire_fence_cnt := 1, handle_frame_done := false }

/-- Readings for a commit-done wait on a target with ctl-done support. -/
def commit_done_ctl_done_target : wait_for_commit_done_env :=
  { commit_done_autorefresh_ok with ctl_done_support := true }

/-- Readings for a commit-done wait whose write pointer arrives and whose
transmit-complete waits, when made, each see one pp-done interrupt. -/
def commit_done_wr_ptr_arrives : wait_for_commit_done_env :=
  { commit_done_autorefresh_ok with
    wr_ptr := wr_ptr_arrives
    tx_complete := [⟨[.pp_tx_done], 0⟩, ⟨[.pp_tx_done], 0⟩] }

/-- A round in default mode on a target with ctl-done support; the waits, were
they reached, would time out. -/
def ctl_done_round : kickoff_round :=
  { params := ⟨.FRAME_DONE_WAIT_DEFAULT⟩
    env := { idle_wait_times_out with
      idle := { idle_wait_times_out.idle with ctl_done_support := true } }
    before_trigger := []
    autorefresh_property := 0
    after_trigger := []
    commit_done := commit_done_ctl_done_target
    after_commit_done := [] }

/-- A slave encoder with three frames pending. -/
def three_frames_on_slave : sde_encoder_phys :=
  { split_role := .ENC_ROLE_SLAVE, pending_kickoff_cnt := 3 }

/-- A round in default mode whose wait sees one pp-done interrupt and succeeds. -/
def round_wait_succeeds : kickoff_round :=
  { params := ⟨.FRAME_DONE_WAIT_DEFAULT⟩
    env := { idle_wait_times_out with
      idle := { idle_wait_times_out.idle with wait := ⟨[.pp_tx_done], 0⟩ } }
    before_trigger := []
    autorefresh_property := 0
    after_trigger := []
    commit_done := commit_done_wr_ptr_arrives
    after_commit_done := [] }

/-- A round in default mode whose wait times out; the frame it issues is
completed by a ctl-done interrupt. -/
def round_wait_times_out : kickoff_round :=
  { params := ⟨.FRAME_DONE_WAIT_DEFAULT⟩
    env := idle_wait_times_out
    before_trigger := []
    autorefresh_property := 0
    after_trigger := [.ctl_done]
    commit_done := commit_done_wr_ptr_arrives
    after_commit_done := [] }

/-! ## Lemmas on the pending-kickoff counter -/

theorem atomic_dec_fst (v : Int) (h0 : 0 ≤ v) (h1 : v ≤ INT_MAX) :
    (atomic_add_unless v (-1) 0).1 = if v = 0 then 0 else v - 1 := by
  unfold atomic_add_unless wrap_s32
  unfold INT_MAX at h1
  split_ifs with h
  · simpa using h
  · simp only; omega

theorem atomic_dec_snd (v : Int) :
    (atomic_add_unless v (-1) 0).2 = decide (v ≠ 0) := by
  unfold atomic_add_unless
  split_ifs with h <;> simp [h]

@[simp] theorem release_fence_notifications_nil : release_fence_notifications [] = 0 := rfl

@[simp] theorem release_fence_notifications_append (t u : List hw_effect) :
    release_fence_notifications (t ++ u) =
      release_fence_notifications t + release_fence_notifications u := by
  simp [release_fence_notifications, frame_done_events, List.filterMap_append,
    List.countP_append]

@[simp] theorem release_fence_notifications_cons (e : hw_effect) (t : List hw_effect) :
    release_fence_notifications (e :: t) =
      (match e with
        | .handle_frame_done event =>
          if event &&& SDE_ENCODER_FRAME_EVENT_SIGNAL_RELEASE_FENCE = 0 then 0 else 1
        | _ => 0) + release_fence_notifications t := by
  cases e
  all_goals simp [release_fence_notifications, frame_done_events, List.countP_cons]
  omega

theorem kickoff_rel_refl (s : sde_encoder_phys) (h0 : 0 ≤ s.pending_kickoff_cnt) :
    kickoff_rel s s := ⟨h0, le_refl _, le_refl _⟩

theorem kickoff_rel_trans {s t u : sde_encoder_phys} (h : kickoff_rel s t)
    (h' : kickoff_rel t u) : kickoff_rel s u := by
  unfold kickoff_rel at *
  omega

theorem kickoff_rel_le_max {s t : sde_encoder_phys} (h : kickoff_rel s t)
    (h1 : s.pending_kickoff_cnt ≤ INT_MAX) : t.pending_kickoff_cnt ≤ INT_MAX :=
  le_trans h.2.1 h1

theorem kickoff_rel_of_eq {s t : sde_encoder_phys} (h0 : 0 ≤ s.pending_kickoff_cnt)
    (h : t.pending_kickoff_cnt = s.pending_kickoff_cnt ∧
      release_fence_notifications t.trace = release_fence_notifications s.trace) :
    kickoff_rel s t := by
  unfold kickoff_rel
  rw [h.1, h.2]
  exact ⟨h0, le_refl _, le_refl _⟩

theorem signal_frame_done_rel (s s' : sde_encoder_phys)
    (h : _sde_encoder_phys_signal_frame_done s = some s')
    (h0 : 0 ≤ s.pending_kickoff_cnt) (h1 : s.pending_kickoff_cnt ≤ INT_MAX) :
    kickoff_rel s s' := by
  unfold _sde_encoder_phys_signal_frame_done at h
  simp only [atomic_dec_snd, atomic_dec_fst _ h0 h1] at h
  unfold kickoff_rel
  repeat' split at h
  all_goals simp_all [SDE_ENCODER_FRAME_EVENT_DONE, SDE_ENCODER_FRAME_EVENT_SIGNAL_RELEASE_FENCE]
  all_goals subst h
  all_goals simp
  all_goals omega

theorem autorefresh_done_irq_rel (s s' : sde_encoder_phys)
    (h : sde_encoder_phys_cmd_autorefresh_done_irq s = some s')
    (h0 : 0 ≤ s.pending_kickoff_cnt) (h1 : s.pending_kickoff_cnt ≤ INT_MAX) :
    kickoff_rel s s' := by
  unfold sde_encoder_phys_cmd_autorefresh_done_irq at h
  simp only at h
  split_ifs at h
  · exact signal_frame_done_rel
      { s with autorefresh_kickoff_cnt := (atomic_add_unless s.autorefresh_kickoff_cnt (-1) 0).1 }
      s' h h0 h1
  · cases h
    exact ⟨h0, le_refl _, le_refl _⟩

theorem te_rd_ptr_irq_cnt (s : sde_encoder_phys) (now : Int) :
    (sde_encoder_phys_cmd_te_rd_ptr_irq s now).pending_kickoff_cnt = s.pending_kickoff_cnt ∧
    release_fence_notifications (sde_encoder_phys_cmd_te_rd_ptr_irq s now).trace =
      release_fence_notifications s.trace := by
  unfold sde_encoder_phys_cmd_te_rd_ptr_irq
  dsimp only
  repeat' split
  all_goals simp

theorem override_tearcheck_rd_ptr_cnt (s : sde_encoder_phys) :
    (sde_encoder_override_tearcheck_rd_ptr s).pending_kickoff_cnt = s.pending_kickoff_cnt ∧
    release_fence_notifications (sde_encoder_override_tearcheck_rd_ptr s).trace =
      release_fence_notifications s.trace := by
  unfold sde_encoder_override_tearcheck_rd_ptr
  dsimp only
  repeat' split
  all_goals simp

theorem wr_ptr_irq_cnt (s : sde_encoder_phys) (qsync_mode : Nat) :
    (sde_encoder_phys_cmd_wr_ptr_irq s qsync_mode).pending_kickoff_cnt = s.pending_kickoff_cnt ∧
    release_fence_notifications (sde_encoder_phys_cmd_wr_ptr_irq s qsync_mode).trace =
      release_fence_notifications s.trace := by
  unfold sde_encoder_phys_cmd_wr_ptr_irq
  dsimp only
  repeat' split
  all_goals simp [override_tearcheck_rd_ptr_cnt]
  all_goals rfl

theorem pp_tx_done_irq_rel (s s' : sde_encoder_phys)
    (h : sde_encoder_phys_cmd_pp_tx_done_irq s = some s')
    (h0 : 0 ≤ s.pending_kickoff_cnt) (h1 : s.pending_kickoff_cnt ≤ INT_MAX) :
    kickoff_rel s s' := by
  unfold sde_encoder_phys_cmd_pp_tx_done_irq at h
  split_ifs at h
  · cases h; exact kickoff_rel_refl s h0
  · exact signal_frame_done_rel s s' h h0 h1

theorem irq_event_run_rel (s s' : sde_encoder_phys) (e : irq_event)
    (h : e.run s = some s')
    (h0 : 0 ≤ s.pending_kickoff_cnt) (h1 : s.pending_kickoff_cnt ≤ INT_MAX) :
    kickoff_rel s s' := by
  cases e with
  | ctl_done => exact signal_frame_done_rel s s' h h0 h1
  | pp_tx_done => exact pp_tx_done_irq_rel s s' h h0 h1
  | autorefresh_done => exact autorefresh_done_irq_rel s s' h h0 h1
  | te_rd_ptr now => cases h; exact kickoff_rel_of_eq h0 (te_rd_ptr_irq_cnt s now)
  | wr_ptr q => cases h; exact kickoff_rel_of_eq h0 (wr_ptr_irq_cnt s q)

theorem irq_event_handled_rel (s : sde_encoder_phys) (e : irq_event)
    (h0 : 0 ≤ s.pending_kickoff_cnt) (h1 : s.pending_kickoff_cnt ≤ INT_MAX) :
    kickoff_rel s (e.handled s) := by
  unfold irq_event.handled
  cases h : e.run s with
  | none => exact kickoff_rel_refl s h0
  | some s' => exact irq_event_run_rel s s' e h h0 h1

theorem run_irqs_rel (irqs : List irq_event) (s : sde_encoder_phys)
    (h0 : 0 ≤ s.pending_kickoff_cnt) (h1 : s.pending_kickoff_cnt ≤ INT_MAX) :
    kickoff_rel s (run_irqs s irqs) := by
  induction irqs generalizing s with
  | nil => exact kickoff_rel_refl s h0
  | cons e es ih =>
    have h := irq_event_handled_rel s e h0 h1
    exact kickoff_rel_trans h (ih (e.handled s) h.1 (kickoff_rel_le_max h h1))

/-- On a list of interrupts none of whose callbacks faults, `run_irqs` is the
run of the callbacks in order. -/
theorem run_irqs_of_checked (irqs : List irq_event) (s s' : sde_encoder_phys)
    (h : run_irqs_checked s irqs = some s') : run_irqs s irqs = s' := by
  induction irqs generalizing s with
  | nil =>
    unfold run_irqs_checked at h
    cases h
    rfl
  | cons e es ih =>
    unfold run_irqs_checked at h
    obtain ⟨t, ht, hrest⟩ := Option.bind_eq_some.mp h
    show run_irqs (e.handled s) es = s'
    unfold irq_event.handled
    rw [ht]
    exact ih t hrest

theorem handle_framedone_timeout_rel (s : sde_encoder_phys) (env : framedone_timeout_env)
    (h0 : 0 ≤ s.pending_kickoff_cnt) (h1 : s.pending_kickoff_cnt ≤ INT_MAX) :
    kickoff_rel s (_sde_encoder_phys_cmd_handle_framedone_timeout s env).2 := by
  unfold _sde_encoder_phys_cmd_handle_framedone_timeout kickoff_rel
  simp only [atomic_dec_snd, atomic_dec_fst _ h0 h1]
  by_cases hg : (s.hw_pp.isNone || s.hw_ctl.isNone) = true
  · simp only [hg, if_true]; exact ⟨h0, le_refl _, le_refl _⟩
  · by_cases hz : s.pending_kickoff_cnt = 0
    · simp [hg, hz]
    · by_cases hesd : env.esd_status = 0 <;> by_cases hrec : env.recovery_events = true <;>
        by_cases hone : s.frame_tx_timeout_report_cnt = 0 <;>
        by_cases hf : s.handle_frame_done = true <;>
        simp [hg, hz, hesd, hrec, hone, hf, SDE_ENCODER_FRAME_EVENT_ERROR,
          SDE_ENCODER_FRAME_EVENT_SIGNAL_RELEASE_FENCE] <;> omega

theorem is_scheduler_idle_rel (s : sde_encoder_phys) (scheduler_status : Nat)
    (r : Bool × sde_encoder_phys)
    (h : _sde_encoder_phys_cmd_is_scheduler_idle s scheduler_status = some r)
    (h0 : 0 ≤ s.pending_kickoff_cnt) (h1 : s.pending_kickoff_cnt ≤ INT_MAX) :
    kickoff_rel s r.2 := by
  unfold _sde_encoder_phys_cmd_is_scheduler_idle at h
  simp only [atomic_dec_snd, atomic_dec_fst _ h0 h1] at h
  unfold kickoff_rel
  repeat' split at h
  all_goals simp_all [SDE_ENCODER_FRAME_EVENT_DONE, SDE_ENCODER_FRAME_EVENT_SIGNAL_RELEASE_FENCE]
  all_goals subst h
  all_goals simp
  all_goals omega


theorem wait_for_idle_rel (s : sde_encoder_phys) (env : wait_for_idle_env)
    (r : Int × sde_encoder_phys)
    (h : _sde_encoder_phys_cmd_wait_for_idle s env = some r)
    (h0 : 0 ≤ s.pending_kickoff_cnt) (h1 : s.pending_kickoff_cnt ≤ INT_MAX) :
    kickoff_rel s r.2 := by
  unfold _sde_encoder_phys_cmd_wait_for_idle at h
  split_ifs at h with hA hB
  · cases h; exact kickoff_rel_refl s h0
  · cases h; exact kickoff_rel_refl s h0
  · cases hi : _sde_encoder_phys_cmd_is_scheduler_idle s env.scheduler_status_first with
    | none => simp [hi] at h
    | some p =>
      have hp := is_scheduler_idle_rel s _ p hi h0 h1
      rcases p with ⟨b, s1⟩
      cases b
      · simp only [hi] at h
        have hw := run_irqs_rel env.wait.irqs s1 hp.1 (kickoff_rel_le_max hp h1)
        have hw' := kickoff_rel_trans hp hw
        split_ifs at h with hT
        · cases hj : _sde_encoder_phys_cmd_is_scheduler_idle (run_irqs s1 env.wait.irqs)
              env.scheduler_status_second with
          | none => simp [hj] at h
          | some q =>
            have hq := is_scheduler_idle_rel _ _ q hj hw'.1 (kickoff_rel_le_max hw' h1)
            have hq' := kickoff_rel_trans hw' hq
            rcases q with ⟨c, s3⟩
            cases c
            · simp only [hj] at h
              cases h
              exact kickoff_rel_trans hq'
                (handle_framedone_timeout_rel s3 env.timeout hq'.1 (kickoff_rel_le_max hq' h1))
            · simp only [hj] at h
              cases h
              exact hq'
        · cases h; exact hw'
      · simp only [hi] at h
        cases h
        exact hp

theorem wait_for_vsync_on_autorefresh_busy_rel (s : sde_encoder_phys) (st : Nat)
    (w : irq_wait) (h0 : 0 ≤ s.pending_kickoff_cnt) (h1 : s.pending_kickoff_cnt ≤ INT_MAX) :
    kickoff_rel s (_sde_encoder_phys_wait_for_vsync_on_autorefresh_busy s st w) := by
  unfold _sde_encoder_phys_wait_for_vsync_on_autorefresh_busy
  split
  · exact kickoff_rel_refl s h0
  · split_ifs
    · exact kickoff_rel_refl s h0
    · exact run_irqs_rel w.irqs s h0 h1
    · exact kickoff_rel_refl s h0


theorem kickoff_rel_of_eq_trans {s t u : sde_encoder_phys} (h : kickoff_rel s t)
    (hu : u.pending_kickoff_cnt = t.pending_kickoff_cnt ∧
      release_fence_notifications u.trace = release_fence_notifications t.trace) :
    kickoff_rel s u := by
  unfold kickoff_rel at *
  rw [hu.1, hu.2]
  exact h

set_option maxHeartbeats 1000000 in
theorem prepare_for_kickoff_rel (s : sde_encoder_phys) (params : sde_encoder_kickoff_params)
    (env : prepare_for_kickoff_env) (r : Int × sde_encoder_phys)
    (h : sde_encoder_phys_cmd_prepare_for_kickoff s params env = some r)
    (h0 : 0 ≤ s.pending_kickoff_cnt) (h1 : s.pending_kickoff_cnt ≤ INT_MAX) :
    kickoff_rel s r.2 := by
  unfold sde_encoder_phys_cmd_prepare_for_kickoff at h
  split at h
  · cases h; exact kickoff_rel_refl s h0
  · rename_i hw_pp hpp
    dsimp only at h
    split at h
    · cases h
    · rename_i ret s1 hfirst
      -- the wait for idle
      have hs1 : kickoff_rel s s1 := by
        split_ifs at hfirst with hm
        · split at hfirst
          · cases hfirst
          · rename_i rq sq hw
            have hq : kickoff_rel s sq :=
              wait_for_idle_rel { s with frame_trigger_mode := params.frame_trigger_mode }
                env.idle (rq, sq) hw h0 h1
            split_ifs at hfirst
            · cases hfirst
              exact ⟨le_refl _, h0, by have := hq.2.2; have := hq.1; simp at *; omega⟩
            · cases hfirst; exact hq
        · cases hfirst; exact kickoff_rel_refl s h0
      have hs2 : kickoff_rel s (if s1.cont_splash_enabled then
          _sde_encoder_phys_wait_for_vsync_on_autorefresh_busy s1 env.autorefresh_status
            env.vblank_wait else s1) := by
        split_ifs
        · exact kickoff_rel_trans hs1 (wait_for_vsync_on_autorefresh_busy_rel s1 _ _ hs1.1
            (kickoff_rel_le_max hs1 h1))
        · exact hs1
      generalize (if s1.cont_splash_enabled then
          _sde_encoder_phys_wait_for_vsync_on_autorefresh_busy s1 env.autorefresh_status
            env.vblank_wait else s1) = s2 at h hs2
      repeat' split at h
      all_goals cases h
      all_goals refine kickoff_rel_of_eq_trans hs2 ?_
      all_goals simp


theorem completion_event_run_rel (s s' : sde_encoder_phys) (e : completion_event)
    (h : e.run s = some s')
    (h0 : 0 ≤ s.pending_kickoff_cnt) (h1 : s.pending_kickoff_cnt ≤ INT_MAX) :
    kickoff_rel s s' := by
  cases e with
  | ctl_done => exact signal_frame_done_rel s s' h h0 h1
  | pp_tx_done => exact pp_tx_done_irq_rel s s' h h0 h1
  | autorefresh_done => exact autorefresh_done_irq_rel s s' h h0 h1
  | scheduler_idle st =>
    obtain ⟨r, hr, hs⟩ := Option.map_eq_some'.mp h
    subst hs
    exact is_scheduler_idle_rel s st r hr h0 h1
  | framedone_timeout env => cases h; exact handle_framedone_timeout_rel s env h0 h1

theorem run_completion_events_rel (events : List completion_event) (s s' : sde_encoder_phys)
    (h : run_completion_events s events = some s')
    (h0 : 0 ≤ s.pending_kickoff_cnt) (h1 : s.pending_kickoff_cnt ≤ INT_MAX) :
    kickoff_rel s s' := by
  induction events generalizing s with
  | nil => cases h; exact kickoff_rel_refl _ h0
  | cons e es ih =>
    obtain ⟨t, ht, hrest⟩ := Option.bind_eq_some.mp h
    have hst := completion_event_run_rel s t e ht h0 h1
    exact kickoff_rel_trans hst (ih t hrest hst.1 (kickoff_rel_le_max hst h1))

/-! ## The pending-kickoff counter and frame-done notifications -/

/-- C1: the pending-kickoff counter never goes negative.  From every encoder
whose counter is a non-negative `int`, each operation of the file that writes
the counter (ctl-done, pp-done and autorefresh-done interrupts, scheduler-idle
reclaim, frame-done timeout handler, prepare-for-kickoff) leaves it
non-negative; a counter at 0 stays at 0, the decrement `atomic_add_unless`
at 0 being refused. -/
theorem pending_kickoff_cnt_never_negative (s s' : sde_encoder_phys) (op : kickoff_cnt_op)
    (h0 : 0 ≤ s.pending_kickoff_cnt) (h1 : s.pending_kickoff_cnt ≤ INT_MAX)
    (h : op.run s = some s') :
    0 ≤ s'.pending_kickoff_cnt ∧
    (s.pending_kickoff_cnt = 0 → s'.pending_kickoff_cnt = 0) ∧
    atomic_add_unless 0 (-1) 0 = (0, false) := by
  have hrel : kickoff_rel s s' := by
    cases op with
    | completion e => exact completion_event_run_rel s s' e h h0 h1
    | prepare_for_kickoff params env =>
      obtain ⟨r, hr, hs⟩ := Option.map_eq_some'.mp h
      subst hs
      exact prepare_for_kickoff_rel s params env r hr h0 h1
  refine ⟨hrel.1, fun hz => ?_, rfl⟩
  have := hrel.1
  have := hrel.2.1
  omega


/-- C2: frame-done notifications are delivered at most once per issued
trigger.  Starting from `pending_kickoff_cnt = n`, after any sequence of
completion-side events (no trigger is issued) the number of
`handle_frame_done` calls carrying the release-fence flag has grown by at most
`n`; more precisely the calls made and the decrements still available never
exceed `n` together, each call being paired with one decrement. -/
theorem frame_done_at_most_once_per_trigger (n : Nat) (s s' : sde_encoder_phys)
    (events : List completion_event)
    (hn : s.pending_kickoff_cnt = n) (h1 : s.pending_kickoff_cnt ≤ INT_MAX)
    (h : run_completion_events s events = some s') :
    release_fence_notifications s'.trace ≤ release_fence_notifications s.trace + n ∧
    (release_fence_notifications s'.trace : Int) + s'.pending_kickoff_cnt ≤
      release_fence_notifications s.trace + n := by
  have hrel := run_completion_events_rel events s s' h (by omega) h1
  have := hrel.1
  have := hrel.2.2
  constructor <;> omega


/-- C1 on a run: two frames outstanding, the wait for idle of
prepare-for-kickoff times out, the counter ends at 0. -/
theorem pending_kickoff_cnt_never_negative_witness :
    (0 ≤ two_frames_pending.pending_kickoff_cnt ∧
      two_frames_pending.pending_kickoff_cnt ≤ INT_MAX ∧
      (kickoff_cnt_op.prepare_for_kickoff ⟨.FRAME_DONE_WAIT_DEFAULT⟩ idle_wait_times_out).run
        two_frames_pending = some two_frames_timed_out) ∧
    (0 ≤ two_frames_timed_out.pending_kickoff_cnt ∧
      (two_frames_pending.pending_kickoff_cnt = 0 →
        two_frames_timed_out.pending_kickoff_cnt = 0) ∧
      atomic_add_unless 0 (-1) 0 = (0, false)) :=
  ⟨⟨by decide, by decide, by decide⟩,
    pending_kickoff_cnt_never_negative two_frames_pending two_frames_timed_out
      (.prepare_for_kickoff ⟨.FRAME_DONE_WAIT_DEFAULT⟩ idle_wait_times_out)
      (by decide) (by decide) (by decide)⟩

/-- C2 on a run: three frames outstanding, seven completion-side events, three
release-fence notifications. -/
theorem frame_done_at_most_once_per_trigger_witness :
    (three_frames_posted.pending_kickoff_cnt = (3 : Nat) ∧
      three_frames_posted.pending_kickoff_cnt ≤ INT_MAX ∧
      run_completion_events three_frames_posted seven_completions =
        some three_frames_completed) ∧
    (release_fence_notifications three_frames_completed.trace ≤
        release_fence_notifications three_frames_posted.trace + 3 ∧
      (release_fence_notifications three_frames_completed.trace : Int) +
          three_frames_completed.pending_kickoff_cnt ≤
        release_fence_notifications three_frames_posted.trace + (3 : Nat)) :=
  ⟨⟨by decide, by decide, by decide⟩,
    frame_done_at_most_once_per_trigger 3 three_frames_posted three_frames_completed
      seven_completions (by decide) (by decide) (by decide)⟩

theorem signal_frame_done_faults (s : sde_encoder_phys) :
    _sde_encoder_phys_signal_frame_done s = none ↔
      s.hw_ctl.isSome = true ∧ s.hw_pp.isNone = true := by
  unfold _sde_encoder_phys_signal_frame_done
  cases hc : s.hw_ctl with
  | none => simp
  | some ctl =>
    cases hp : s.hw_pp with
    | none =>
      dsimp only
      repeat' split
      all_goals simp_all
    | some pp =>
      dsimp only
      repeat' split
      all_goals simp_all

theorem pp_tx_done_irq_returns (s : sde_encoder_phys) :
    (sde_encoder_phys_cmd_pp_tx_done_irq s).isSome = true := by
  unfold sde_encoder_phys_cmd_pp_tx_done_irq
  split_ifs with hp
  · rfl
  · rw [Option.isSome_iff_ne_none]
    intro hn
    exact hp ((signal_frame_done_faults s).mp hn).2

theorem pp_tx_done_irq_some (s s' : sde_encoder_phys)
    (h : sde_encoder_phys_cmd_pp_tx_done_irq s = some s') :
    (s.hw_pp.isNone = true ∧ s' = s) ∨
      (s.hw_pp.isSome = true ∧ _sde_encoder_phys_signal_frame_done s = some s') := by
  unfold sde_encoder_phys_cmd_pp_tx_done_irq at h
  split_ifs at h with hp
  · cases h; exact Or.inl ⟨hp, rfl⟩
  · right
    refine ⟨?_, h⟩
    cases hq : s.hw_pp
    · rw [hq] at hp; exact absurd rfl hp
    · rfl

theorem signal_frame_done_at_zero (s s' : sde_encoder_phys) (h : s.pending_kickoff_cnt = 0)
    (hs : _sde_encoder_phys_signal_frame_done s = some s') :
    frame_done_events s'.trace = frame_done_events s.trace ∧
    s'.pending_kickoff_cnt = 0 ∧
    s'.recovered = s.recovered ∧
    s'.enable_state = s.enable_state ∧
    s'.frame_tx_timeout_report_cnt = s.frame_tx_timeout_report_cnt ∧
    (s.autorefresh_disable_trans = false → s' = s) := by
  unfold _sde_encoder_phys_signal_frame_done at hs
  simp only [atomic_dec_snd, h] at hs
  repeat' split at hs
  all_goals simp_all [frame_done_events]
  all_goals subst hs
  all_goals simp_all [frame_done_events]

/-- C3 refuted as stated: an idle encoder in the autorefresh disable transition
receives a ctl-done interrupt; the handler issues the output-fence override and
clears `autorefresh_disable_trans`. -/
theorem duplicate_completion_overrides_fence :
    idle_in_disable_transition.pending_kickoff_cnt = 0 ∧
    hw_writes idle_in_disable_transition.trace = [] ∧
    (sde_encoder_phys_cmd_ctl_done_irq idle_in_disable_transition).map
        (fun s => hw_writes s.trace) = some [hw_effect.trigger_output_fence_override] ∧
    idle_in_disable_transition.autorefresh_disable_trans = true ∧
    (sde_encoder_phys_cmd_ctl_done_irq idle_in_disable_transition).map
        (fun s => s.autorefresh_disable_trans) = some false := by
  decide

/-- C3 as amended: with `pending_kickoff_cnt = 0`, the pp-done handler returns,
and the ctl-done handler returns unless the controller is attached and the
pingpong block is not, in which case it faults on `hw_pp->idx`.  A handler that
returns has delivered no frame-done notification and left
`pending_kickoff_cnt`, `recovered`, `enable_state` and the timeout-report
counter unchanged; outside the autorefresh disable transition it has issued no
hardware write and left every field unchanged. -/
theorem duplicate_completion_irq_noop (s : sde_encoder_phys)
    (h : s.pending_kickoff_cnt = 0) :
    (sde_encoder_phys_cmd_ctl_done_irq s = none ↔
      s.hw_ctl.isSome = true ∧ s.hw_pp.isNone = true) ∧
    (sde_encoder_phys_cmd_pp_tx_done_irq s).isSome = true ∧
    ∀ s', (sde_encoder_phys_cmd_ctl_done_irq s = some s' ∨
        sde_encoder_phys_cmd_pp_tx_done_irq s = some s') →
      frame_done_events s'.trace = frame_done_events s.trace ∧
      s'.pending_kickoff_cnt = 0 ∧
      s'.recovered = s.recovered ∧
      s'.enable_state = s.enable_state ∧
      s'.frame_tx_timeout_report_cnt = s.frame_tx_timeout_report_cnt ∧
      (s.autorefresh_disable_trans = false → s' = s) := by
  refine ⟨signal_frame_done_faults s, pp_tx_done_irq_returns s, ?_⟩
  intro s' hs'
  rcases hs' with hs' | hs'
  · exact signal_frame_done_at_zero s s' h hs'
  · rcases pp_tx_done_irq_some s s' hs' with ⟨_, rfl⟩ | ⟨_, hsig⟩
    · exact ⟨rfl, h, rfl, rfl, rfl, fun _ => rfl⟩
    · exact signal_frame_done_at_zero s s' h hsig

/-- C3 as amended, on a run: both handlers on an idle encoder. -/
theorem duplicate_completion_irq_noop_witness :
    idle_encoder.pending_kickoff_cnt = 0 ∧
    sde_encoder_phys_cmd_ctl_done_irq idle_encoder = some idle_encoder ∧
    sde_encoder_phys_cmd_pp_tx_done_irq idle_encoder = some idle_encoder ∧
    (sde_encoder_phys_cmd_ctl_done_irq idle_encoder = none ↔
      idle_encoder.hw_ctl.isSome = true ∧ idle_encoder.hw_pp.isNone = true) :=
  ⟨by decide, by decide, by decide,
    (duplicate_completion_irq_noop idle_encoder (by decide)).1⟩

theorem signal_frame_done_at_one (s : sde_encoder_phys) (hcnt : s.pending_kickoff_cnt = 1)
    (hfd : s.handle_frame_done = true) (hctl : s.hw_ctl.isSome = true)
    (hpp : s.hw_pp.isSome = true) (hto : s.frame_tx_timeout_report_cnt = 0) :
    ∃ s', _sde_encoder_phys_signal_frame_done s = some s' ∧
      s'.pending_kickoff_cnt = 0 ∧
      frame_done_events s'.trace =
        frame_done_events s.trace ++
          [SDE_ENCODER_FRAME_EVENT_DONE ||| SDE_ENCODER_FRAME_EVENT_SIGNAL_RELEASE_FENCE] ∧
      s'.enable_state = s.enable_state ∧
      s'.frame_tx_timeout_report_cnt = s.frame_tx_timeout_report_cnt ∧
      s'.recovered = s.recovered := by
  cases hs : _sde_encoder_phys_signal_frame_done s with
  | none =>
    have hf := ((signal_frame_done_faults s).mp hs).2
    cases hq : s.hw_pp
    · rw [hq] at hpp; cases hpp
    · rw [hq] at hf; cases hf
  | some s' =>
    refine ⟨s', rfl, ?_⟩
    unfold _sde_encoder_phys_signal_frame_done at hs
    have hdec : atomic_add_unless 1 (-1) 0 = (0, true) := by decide
    simp only [hcnt, hdec] at hs
    repeat' split at hs
    all_goals simp_all [frame_done_events]
    all_goals subst hs
    all_goals simp_all [frame_done_events]

/-- C4 refuted as stated: with one frame outstanding, `handle_frame_done`
registered, the controller present and no timeout recorded, but no pingpong
block attached, the pp-done handler returns at its guard, the counter still at
1 and nothing notified, and the ctl-done handler faults on `hw_pp->idx`. -/
theorem pp_done_without_pingpong_completes_nothing :
    one_frame_pending_no_pp.pending_kickoff_cnt = 1 ∧
    one_frame_pending_no_pp.handle_frame_done = true ∧
    one_frame_pending_no_pp.hw_ctl.isSome = true ∧
    one_frame_pending_no_pp.frame_tx_timeout_report_cnt = 0 ∧
    sde_encoder_phys_cmd_pp_tx_done_irq one_frame_pending_no_pp =
      some one_frame_pending_no_pp ∧
    sde_encoder_phys_cmd_ctl_done_irq one_frame_pending_no_pp = none := by
  decide

/-- C4 as amended: with `pending_kickoff_cnt = 1`, `handle_frame_done`
registered, the controller and the pingpong block present and no timeout
recorded, the ctl-done interrupt and the pp-done interrupt return the same
encoder: the counter is 0, `handle_frame_done` has been called exactly once,
with exactly `FRAME_EVENT_DONE | SIGNAL_RELEASE_FENCE` (no error flag), and
`enable_state`, the timeout-report counter and `recovered` are unchanged. -/
theorem completion_scenario (s : sde_encoder_phys) (hcnt : s.pending_kickoff_cnt = 1)
    (hfd : s.handle_frame_done = true) (hctl : s.hw_ctl.isSome = true)
    (hpp : s.hw_pp.isSome = true) (hto : s.frame_tx_timeout_report_cnt = 0) :
    ∃ s', sde_encoder_phys_cmd_ctl_done_irq s = some s' ∧
      sde_encoder_phys_cmd_pp_tx_done_irq s = some s' ∧
      s'.pending_kickoff_cnt = 0 ∧
      frame_done_events s'.trace = frame_done_events s.trace ++
        [SDE_ENCODER_FRAME_EVENT_DONE ||| SDE_ENCODER_FRAME_EVENT_SIGNAL_RELEASE_FENCE] ∧
      (SDE_ENCODER_FRAME_EVENT_DONE ||| SDE_ENCODER_FRAME_EVENT_SIGNAL_RELEASE_FENCE) &&&
        SDE_ENCODER_FRAME_EVENT_ERROR = 0 ∧
      s'.enable_state = s.enable_state ∧
      s'.frame_tx_timeout_report_cnt = s.frame_tx_timeout_report_cnt ∧
      s'.recovered = s.recovered := by
  obtain ⟨s', hs, k1, k2, k3, k4, k5⟩ := signal_frame_done_at_one s hcnt hfd hctl hpp hto
  refine ⟨s', hs, ?_, k1, k2, by decide, k3, k4, k5⟩
  unfold sde_encoder_phys_cmd_pp_tx_done_irq
  cases hq : s.hw_pp
  · rw [hq] at hpp; cases hpp
  · exact hs

/-- C4 on a run: both interrupts on an encoder with one frame outstanding. -/
theorem completion_scenario_witness :
    (one_frame_pending.pending_kickoff_cnt = 1 ∧
      one_frame_pending.handle_frame_done = true ∧
      one_frame_pending.hw_ctl.isSome = true ∧
      one_frame_pending.hw_pp.isSome = true ∧
      one_frame_pending.frame_tx_timeout_report_cnt = 0) ∧
    sde_encoder_phys_cmd_pp_tx_done_irq one_frame_pending =
      some { one_frame_pending with
        pending_kickoff_cnt := 0
        trace := [hw_effect.handle_frame_done
          (SDE_ENCODER_FRAME_EVENT_DONE ||| SDE_ENCODER_FRAME_EVENT_SIGNAL_RELEASE_FENCE)] } ∧
    ∃ s', sde_encoder_phys_cmd_ctl_done_irq one_frame_pending = some s' ∧
      sde_encoder_phys_cmd_pp_tx_done_irq one_frame_pending = some s' ∧
      s'.pending_kickoff_cnt = 0 ∧
      frame_done_events s'.trace = frame_done_events one_frame_pending.trace ++
        [SDE_ENCODER_FRAME_EVENT_DONE ||| SDE_ENCODER_FRAME_EVENT_SIGNAL_RELEASE_FENCE] ∧
      (SDE_ENCODER_FRAME_EVENT_DONE ||| SDE_ENCODER_FRAME_EVENT_SIGNAL_RELEASE_FENCE) &&&
        SDE_ENCODER_FRAME_EVENT_ERROR = 0 ∧
      s'.enable_state = one_frame_pending.enable_state ∧
      s'.frame_tx_timeout_report_cnt = one_frame_pending.frame_tx_timeout_report_cnt ∧
      s'.recovered = one_frame_pending.recovered :=
  ⟨by decide, by decide,
    completion_scenario one_frame_pending (by decide) (by decide) (by decide) (by decide)
      (by decide)⟩

/-- C5: the timeout scenario.  With at least one frame outstanding, the
timeout-report counter at 0, the pingpong and controller blocks present,
`handle_frame_done` registered and the panel reporting alive, the frame-done
timeout handler decrements `pending_kickoff_cnt` by one, sets the
timeout-report counter to 1 and `enable_state` to `ERR_NEEDS_HW_RESET`, calls
`handle_frame_done` exactly once, with `FRAME_EVENT_ERROR |
SIGNAL_RELEASE_FENCE`, and returns `-ETIMEDOUT`. -/
theorem framedone_timeout_scenario (s : sde_encoder_phys) (env : framedone_timeout_env)
    (hcnt : 1 ≤ s.pending_kickoff_cnt) (hmax : s.pending_kickoff_cnt ≤ INT_MAX)
    (hrep : s.frame_tx_timeout_report_cnt = 0)
    (hpp : s.hw_pp.isSome = true) (hctl : s.hw_ctl.isSome = true)
    (hfd : s.handle_frame_done = true) (halive : env.esd_status = 0) :
    (_sde_encoder_phys_cmd_handle_framedone_timeout s env).1 = -ETIMEDOUT ∧
    (_sde_encoder_phys_cmd_handle_framedone_timeout s env).2.pending_kickoff_cnt =
      s.pending_kickoff_cnt - 1 ∧
    (_sde_encoder_phys_cmd_handle_framedone_timeout s env).2.frame_tx_timeout_report_cnt = 1 ∧
    (_sde_encoder_phys_cmd_handle_framedone_timeout s env).2.enable_state =
      .SDE_ENC_ERR_NEEDS_HW_RESET ∧
    frame_done_events (_sde_encoder_phys_cmd_handle_framedone_timeout s env).2.trace =
      frame_done_events s.trace ++
        [SDE_ENCODER_FRAME_EVENT_ERROR ||| SDE_ENCODER_FRAME_EVENT_SIGNAL_RELEASE_FENCE] ∧
    (SDE_ENCODER_FRAME_EVENT_ERROR ||| SDE_ENCODER_FRAME_EVENT_SIGNAL_RELEASE_FENCE) &&&
      SDE_ENCODER_FRAME_EVENT_ERROR ≠ 0 := by
  have hz : s.pending_kickoff_cnt ≠ 0 := by omega
  have hg : (s.hw_pp.isNone || s.hw_ctl.isNone) = false := by
    cases hp : s.hw_pp <;> cases hc : s.hw_ctl <;> simp_all
  have hrun : _sde_encoder_phys_cmd_handle_framedone_timeout s env =
      (-ETIMEDOUT, { s with
        pending_kickoff_cnt := s.pending_kickoff_cnt - 1
        frame_tx_timeout_report_cnt := 1
        enable_state := .SDE_ENC_ERR_NEEDS_HW_RESET
        trace := s.trace ++
          [hw_effect.unregister_irq .INTR_IDX_RDPTR, hw_effect.dbg_dump_all env.secure_session,
            hw_effect.register_irq .INTR_IDX_RDPTR] ++
          [if env.recovery_events then hw_effect.event_notify .SDE_RECOVERY_CAPTURE
            else hw_effect.dbg_dump_panic] ++
          [hw_effect.handle_frame_done
            (SDE_ENCODER_FRAME_EVENT_ERROR ||| SDE_ENCODER_FRAME_EVENT_SIGNAL_RELEASE_FENCE)] }) := by
    unfold _sde_encoder_phys_cmd_handle_framedone_timeout
    simp only [atomic_dec_snd, atomic_dec_fst _ (by omega) hmax, hg, hz, hrep, hfd, halive]
    cases hrec : env.recovery_events <;> simp [hz]
  rw [hrun]
  refine ⟨rfl, rfl, rfl, rfl, ?_, by decide⟩
  cases hrec : env.recovery_events <;>
    simp [frame_done_events, List.filterMap_append]

/-- C5 on a run: the handler on an encoder with two frames outstanding. -/
theorem framedone_timeout_scenario_witness :
    (1 ≤ two_frames_pending.pending_kickoff_cnt ∧
      two_frames_pending.pending_kickoff_cnt ≤ INT_MAX ∧
      two_frames_pending.frame_tx_timeout_report_cnt = 0 ∧
      two_frames_pending.hw_pp.isSome = true ∧ two_frames_pending.hw_ctl.isSome = true ∧
      two_frames_pending.handle_frame_done = true ∧ panel_alive.esd_status = 0) ∧
    ((_sde_encoder_phys_cmd_handle_framedone_timeout two_frames_pending panel_alive).1 =
        -ETIMEDOUT ∧
      (_sde_encoder_phys_cmd_handle_framedone_timeout two_frames_pending
        panel_alive).2.pending_kickoff_cnt = two_frames_pending.pending_kickoff_cnt - 1 ∧
      (_sde_encoder_phys_cmd_handle_framedone_timeout two_frames_pending
        panel_alive).2.frame_tx_timeout_report_cnt = 1 ∧
      (_sde_encoder_phys_cmd_handle_framedone_timeout two_frames_pending
        panel_alive).2.enable_state = .SDE_ENC_ERR_NEEDS_HW_RESET ∧
      frame_done_events (_sde_encoder_phys_cmd_handle_framedone_timeout two_frames_pending
        panel_alive).2.trace = frame_done_events two_frames_pending.trace ++
          [SDE_ENCODER_FRAME_EVENT_ERROR ||| SDE_ENCODER_FRAME_EVENT_SIGNAL_RELEASE_FENCE] ∧
      (SDE_ENCODER_FRAME_EVENT_ERROR ||| SDE_ENCODER_FRAME_EVENT_SIGNAL_RELEASE_FENCE) &&&
        SDE_ENCODER_FRAME_EVENT_ERROR ≠ 0) :=
  ⟨by decide,
    framedone_timeout_scenario two_frames_pending panel_alive (by decide) (by decide)
      (by decide) (by decide) (by decide) (by decide) (by decide)⟩

/-- C6: the benign timeout.  With the pingpong and controller blocks present
and `pending_kickoff_cnt = 0`, the frame-done timeout handler returns 0 and
leaves the encoder as it was: no frame-done notification, and
`pending_kickoff_cnt`, the timeout-report counter and `enable_state` unchanged. -/
theorem framedone_timeout_benign (s : sde_encoder_phys) (env : framedone_timeout_env)
    (hpp : s.hw_pp.isSome = true) (hctl : s.hw_ctl.isSome = true)
    (hcnt : s.pending_kickoff_cnt = 0) :
    _sde_encoder_phys_cmd_handle_framedone_timeout s env = (0, s) := by
  unfold _sde_encoder_phys_cmd_handle_framedone_timeout
  have hg : (s.hw_pp.isNone || s.hw_ctl.isNone) = false := by
    cases hp : s.hw_pp <;> cases hc : s.hw_ctl <;> simp_all
  simp [hg, hcnt, atomic_dec_snd]

/-- C6 on a run: the handler on an idle encoder. -/
theorem framedone_timeout_benign_witness :
    (idle_encoder.hw_pp.isSome = true ∧ idle_encoder.hw_ctl.isSome = true ∧
      idle_encoder.pending_kickoff_cnt = 0) ∧
    _sde_encoder_phys_cmd_handle_framedone_timeout idle_encoder panel_alive =
      (0, idle_encoder) :=
  ⟨by decide, framedone_timeout_benign idle_encoder panel_alive (by decide) (by decide)
    (by decide)⟩


/-! ## The tear-check threshold -/

theorem mult_frac_one_numer (x d : Int) (hx : 0 ≤ x) (hd : 0 < d) :
    mult_frac x 1 d = some (x / d) := by
  unfold mult_frac
  have hd' : d ≠ 0 := by omega
  have h1 : Int.tmod x d = x % d := Int.tmod_eq_emod hx (le_of_lt hd)
  have h2 : Int.tdiv x d = x / d := Int.tdiv_eq_ediv hx (le_of_lt hd)
  have h3 : 0 ≤ x % d := Int.emod_nonneg x hd'
  have h4 : x % d < d := Int.emod_lt_of_pos x hd
  have h5 : Int.tdiv (x % d) d = 0 := by
    rw [Int.tdiv_eq_ediv h3 (le_of_lt hd)]
    exact Int.ediv_eq_zero_of_lt h3 h4
  simp [hd', h1, h2, h5]

theorem mult_frac_one (n d : Int) (hn : 0 ≤ n) (hd : 0 < d) :
    mult_frac 1 n d = some (n / d) := by
  unfold mult_frac
  have hd' : d ≠ 0 := by omega
  by_cases h1 : d = 1
  · subst h1
    simp
  · have hd2 : 1 < d := by omega
    have h2 : Int.tdiv 1 d = 0 := by
      rw [Int.tdiv_eq_ediv (by omega) (le_of_lt hd)]
      exact Int.ediv_eq_zero_of_lt (by omega) hd2
    have h3 : Int.tmod 1 d = 1 := by
      rw [Int.tmod_eq_emod (by omega) (le_of_lt hd)]
      exact Int.emod_eq_of_lt (by omega) hd2
    have h4 : Int.tdiv n d = n / d := Int.tdiv_eq_ediv hn (le_of_lt hd)
    simp [hd', h2, h3, h4]


/-- The last steps of `_get_tearcheck_threshold` on a raw line count `x`: the
result is 4, or 2 below a multiple of 4. -/
theorem adjusted_threshold_mod (x : Int) :
    wrap_s32 (if wrap_u32 (round_down (wrap_u32 x) 4 - 2) >
        DEFAULT_TEARCHECK_SYNC_THRESH_START then wrap_u32 (round_down (wrap_u32 x) 4 - 2)
      else round_down (wrap_u32 x) 4) = 4 ∨
    (wrap_s32 (if wrap_u32 (round_down (wrap_u32 x) 4 - 2) >
        DEFAULT_TEARCHECK_SYNC_THRESH_START then wrap_u32 (round_down (wrap_u32 x) 4 - 2)
      else round_down (wrap_u32 x) 4) + 2) % 4 = 0 := by
  unfold wrap_s32 wrap_u32 round_down DEFAULT_TEARCHECK_SYNC_THRESH_START
  split_ifs <;> omega

theorem tearcheck_threshold_eq (s : sde_encoder_phys) (env : tearcheck_env)
    (hc : s.connector = true) (hcs : s.conn_state = true)
    (hq : env.qsync_mode = .SDE_RM_QSYNC_CONTINUOUS_MODE) (hg : s.get_qsync_fps = true)
    (hmin : 0 < env.qsync_min_fps) (hlt : env.qsync_min_fps < env.default_fps)
    (hv : 0 < s.vtotal) :
    _get_tearcheck_threshold s env =
      (mult_frac 1
        (wrap_s64 ((if env.l_bound = 0 ∨ env.u_bound = 0 then
            (1000000000 : Int) / env.qsync_min_fps else env.l_bound) -
          (1000000000 : Int) / env.default_fps))
        ((1000000000 : Int) / env.default_fps / s.vtotal)).map fun x =>
      ⟨wrap_s32 (if wrap_u32 (round_down (wrap_u32 x) 4 - 2) >
          DEFAULT_TEARCHECK_SYNC_THRESH_START then wrap_u32 (round_down (wrap_u32 x) 4 - 2)
        else round_down (wrap_u32 x) 4), 12⟩ := by
  unfold _get_tearcheck_threshold
  have h1 : ¬ ((env.qsync_min_fps : Int) = 0 ∨ (env.default_fps : Int) = 0 ∨
      (s.vtotal : Int) = 0) := by omega
  have h2 : ¬ ((env.qsync_min_fps : Int) ≥ env.default_fps) := by omega
  simp only [hc, hcs, hq, hg, h1, h2, if_true, if_false, Bool.not_true, Bool.or_false,
    Bool.false_eq_true, ne_eq, not_true_eq_false,
    mult_frac_one_numer 1000000000 env.qsync_min_fps (by omega) (by omega),
    mult_frac_one_numer 1000000000 env.default_fps (by omega) (by omega)]
  simp only [bind, Option.bind,
    mult_frac_one ((1000000000 : Int) / env.default_fps) s.vtotal
      (Int.ediv_nonneg (by omega) (by omega)) (by omega)]
  cases mult_frac 1
        (wrap_s64 ((if env.l_bound = 0 ∨ env.u_bound = 0 then
            (1000000000 : Int) / env.qsync_min_fps else env.l_bound) -
          (1000000000 : Int) / env.default_fps))
        ((1000000000 : Int) / env.default_fps / s.vtotal) <;> rfl

theorem ediv_antitone (x a b : Int) (hx : 0 ≤ x) (ha : 0 < a) (hab : a ≤ b) :
    x / b ≤ x / a := by
  have hb : 0 < b := by omega
  apply Int.le_ediv_of_mul_le ha
  have h1 : 0 ≤ x / b := Int.ediv_nonneg hx (le_of_lt hb)
  have h2 : x / b * b ≤ x := Int.ediv_mul_le x (by omega)
  nlinarith

/-- With the jitter bounds unset the extra time is the difference of the two
periods and the raw line count is its quotient by the line time. -/
theorem tearcheck_threshold_unset (s : sde_encoder_phys) (env : tearcheck_env)
    (hc : s.connector = true) (hcs : s.conn_state = true)
    (hq : env.qsync_mode = .SDE_RM_QSYNC_CONTINUOUS_MODE) (hg : s.get_qsync_fps = true)
    (hmin : 0 < env.qsync_min_fps) (hlt : env.qsync_min_fps < env.default_fps)
    (hv : 0 < s.vtotal) (hj : env.l_bound = 0 ∨ env.u_bound = 0) :
    _get_tearcheck_threshold s env =
      if (1000000000 : Int) / env.default_fps / s.vtotal = 0 then none
      else some
        ⟨wrap_s32 (if wrap_u32 (round_down (wrap_u32
              (((1000000000 : Int) / env.qsync_min_fps - (1000000000 : Int) / env.default_fps) /
                ((1000000000 : Int) / env.default_fps / s.vtotal))) 4 - 2) >
            DEFAULT_TEARCHECK_SYNC_THRESH_START then
          wrap_u32 (round_down (wrap_u32
              (((1000000000 : Int) / env.qsync_min_fps - (1000000000 : Int) / env.default_fps) /
                ((1000000000 : Int) / env.default_fps / s.vtotal))) 4 - 2)
          else round_down (wrap_u32
              (((1000000000 : Int) / env.qsync_min_fps - (1000000000 : Int) / env.default_fps) /
                ((1000000000 : Int) / env.default_fps / s.vtotal))) 4), 12⟩ := by
  rw [tearcheck_threshold_eq s env hc hcs hq hg hmin hlt hv]
  simp only [hj, if_true]
  have hle : (1000000000 : Int) / env.default_fps ≤ (1000000000 : Int) / env.qsync_min_fps :=
    ediv_antitone _ _ _ (by omega) (by omega) (by omega)
  have hub : (1000000000 : Int) / env.qsync_min_fps ≤ 1000000000 :=
    Int.ediv_le_self _ (by omega)
  have hlb : (0 : Int) ≤ (1000000000 : Int) / env.default_fps :=
    Int.ediv_nonneg (by omega) (by omega)
  have hw : wrap_s64 ((1000000000 : Int) / env.qsync_min_fps -
      (1000000000 : Int) / env.default_fps) =
      (1000000000 : Int) / env.qsync_min_fps - (1000000000 : Int) / env.default_fps := by
    unfold wrap_s64; omega
  rw [hw]
  have hd0 : (0 : Int) ≤ (1000000000 : Int) / env.default_fps / s.vtotal :=
    Int.ediv_nonneg hlb (by omega)
  by_cases hz : (1000000000 : Int) / env.default_fps / s.vtotal = 0
  · rw [if_pos hz, hz]; rfl
  · rw [if_neg hz, mult_frac_one _ _ (by omega) (by omega)]
    rfl


/-- C7, the code at a failing input: minimum 119 fps, nominal 120 fps, 400
lines, jitter unset.  The raw line count is 3, rounded down to 0; the unsigned
test `0 - 2 > 4` holds, so 2 is subtracted from 0 and the function returns -2
(4294967294 once stored in the `u32` start threshold), below the baseline 4. -/
theorem tearcheck_threshold_below_baseline :
    _get_tearcheck_threshold small_panel qsync_119_of_120 = some ⟨-2, 12⟩ ∧
    wrap_u32 (-2) = 4294967294 ∧
    ¬ (DEFAULT_TEARCHECK_SYNC_THRESH_START ≤ -2) := by
  decide

/-- C8 refuted as stated: for minimum 60 fps, nominal 90 fps and 2400 lines the
function returns 1198, which is not a multiple of 4. -/
theorem tearcheck_threshold_not_multiple_of_four :
    _get_tearcheck_threshold panel_2400 qsync_60_of_90 = some ⟨1198, 12⟩ ∧
    (1198 : Int) % 4 ≠ 0 := by
  decide

/-- C8 as amended: for `0 < min_fps < nominal_fps` and `vtotal > 0` (continuous
mode, connector state present), a threshold returned by
`_get_tearcheck_threshold` is the baseline 4 or a multiple of 4 less the
2-line latency margin. -/
theorem tearcheck_threshold_mod_four (s : sde_encoder_phys) (env : tearcheck_env)
    (hc : s.connector = true) (hcs : s.conn_state = true)
    (hq : env.qsync_mode = .SDE_RM_QSYNC_CONTINUOUS_MODE) (hg : s.get_qsync_fps = true)
    (hmin : 0 < env.qsync_min_fps) (hlt : env.qsync_min_fps < env.default_fps)
    (hv : 0 < s.vtotal) (r : tearcheck_result)
    (h : _get_tearcheck_threshold s env = some r) :
    r.threshold = 4 ∨ (r.threshold + 2) % 4 = 0 := by
  rw [tearcheck_threshold_eq s env hc hcs hq hg hmin hlt hv] at h
  obtain ⟨x, _, hx⟩ := Option.map_eq_some'.mp h
  subst hx
  exact adjusted_threshold_mod x

/-- C8 as amended, on a run: 60 of 90 fps on 2400 lines gives 1198 = 1200 - 2. -/
theorem tearcheck_threshold_mod_four_witness :
    (panel_2400.connector = true ∧ panel_2400.conn_state = true ∧
      qsync_60_of_90.qsync_mode = .SDE_RM_QSYNC_CONTINUOUS_MODE ∧
      panel_2400.get_qsync_fps = true ∧ 0 < qsync_60_of_90.qsync_min_fps ∧
      qsync_60_of_90.qsync_min_fps < qsync_60_of_90.default_fps ∧ 0 < panel_2400.vtotal ∧
      _get_tearcheck_threshold panel_2400 qsync_60_of_90 = some ⟨1198, 12⟩) ∧
    ((1198 : Int) = 4 ∨ ((1198 : Int) + 2) % 4 = 0) :=
  ⟨by decide,
    tearcheck_threshold_mod_four panel_2400 qsync_60_of_90 (by decide) (by decide) (by decide)
      (by decide) (by decide) (by decide) (by decide) ⟨1198, 12⟩ (by decide)⟩

/-- The last steps of `_get_tearcheck_threshold` are monotone on raw line
counts that fit an `int`. -/
theorem adjusted_threshold_mono (x y : Int) (hx : 0 ≤ x) (hxy : x ≤ y)
    (hy : y ≤ 1000000000) :
    wrap_s32 (if wrap_u32 (round_down (wrap_u32 x) 4 - 2) >
        DEFAULT_TEARCHECK_SYNC_THRESH_START then wrap_u32 (round_down (wrap_u32 x) 4 - 2)
      else round_down (wrap_u32 x) 4) ≤
    wrap_s32 (if wrap_u32 (round_down (wrap_u32 y) 4 - 2) >
        DEFAULT_TEARCHECK_SYNC_THRESH_START then wrap_u32 (round_down (wrap_u32 y) 4 - 2)
      else round_down (wrap_u32 y) 4) := by
  unfold wrap_s32 wrap_u32 round_down DEFAULT_TEARCHECK_SYNC_THRESH_START
  split_ifs <;> omega

/-- C9: the threshold does not decrease as `nominal_fps - min_fps` grows with
`vtotal` fixed.  For `vtotal > 0`, `0 < min_a ≤ min_b < nominal_fps` and the
jitter bounds unset, `_get_tearcheck_threshold` returns a value for `min_a`
exactly when it does for `min_b`, and the `int` returned for `min_a` is at
least the one returned for `min_b`. -/
theorem tearcheck_threshold_monotone (s : sde_encoder_phys) (env_a env_b : tearcheck_env)
    (hc : s.connector = true) (hcs : s.conn_state = true) (hg : s.get_qsync_fps = true)
    (hqa : env_a.qsync_mode = .SDE_RM_QSYNC_CONTINUOUS_MODE)
    (hqb : env_b.qsync_mode = .SDE_RM_QSYNC_CONTINUOUS_MODE)
    (hnom : env_a.default_fps = env_b.default_fps)
    (hv : 0 < s.vtotal) (ha : 0 < env_a.qsync_min_fps)
    (hab : env_a.qsync_min_fps ≤ env_b.qsync_min_fps)
    (hb : env_b.qsync_min_fps < env_b.default_fps)
    (hja : env_a.l_bound = 0 ∨ env_a.u_bound = 0)
    (hjb : env_b.l_bound = 0 ∨ env_b.u_bound = 0) :
    (_get_tearcheck_threshold s env_a).isSome = (_get_tearcheck_threshold s env_b).isSome ∧
    ∀ ra rb, _get_tearcheck_threshold s env_a = some ra →
      _get_tearcheck_threshold s env_b = some rb → rb.threshold ≤ ra.threshold := by
  rw [tearcheck_threshold_unset s env_a hc hcs hqa hg ha (by omega) hv hja,
    tearcheck_threshold_unset s env_b hc hcs hqb hg (by omega) hb hv hjb, hnom]
  by_cases hz : (1000000000 : Int) / env_b.default_fps / s.vtotal = 0
  · simp [hz]
  · simp only [hz, if_false, Option.isSome_some, true_and]
    intro ra rb hra hrb
    cases hra
    cases hrb
    have hd0 : (0 : Int) < (1000000000 : Int) / env_b.default_fps / s.vtotal := by
      have : (0 : Int) ≤ (1000000000 : Int) / env_b.default_fps / s.vtotal :=
        Int.ediv_nonneg (Int.ediv_nonneg (by omega) (by omega)) (by omega)
      omega
    have hTb : (1000000000 : Int) / env_b.default_fps ≤ (1000000000 : Int) / env_b.qsync_min_fps :=
      ediv_antitone _ _ _ (by omega) (by omega) (by omega)
    have hTab : (1000000000 : Int) / env_b.qsync_min_fps ≤
        (1000000000 : Int) / env_a.qsync_min_fps :=
      ediv_antitone _ _ _ (by omega) (by omega) (by omega)
    have hTa : (1000000000 : Int) / env_a.qsync_min_fps ≤ 1000000000 :=
      Int.ediv_le_self _ (by omega)
    have hn0 : (0 : Int) ≤ (1000000000 : Int) / env_b.default_fps :=
      Int.ediv_nonneg (by omega) (by omega)
    apply adjusted_threshold_mono
    · exact Int.ediv_nonneg (by omega) (le_of_lt hd0)
    · exact Int.ediv_le_ediv hd0 (by omega)
    · exact le_trans (Int.ediv_le_self _ (by omega)) (by omega)

/-- C9 on a run: on 2400 lines at nominal 90 fps, minimum 30 fps gives 4798 and
minimum 60 fps gives 1198. -/
theorem tearcheck_threshold_monotone_witness :
    (_get_tearcheck_threshold panel_2400 qsync_30_of_90 = some ⟨4798, 12⟩ ∧
      _get_tearcheck_threshold panel_2400 qsync_60_of_90 = some ⟨1198, 12⟩) ∧
    ((_get_tearcheck_threshold panel_2400 qsync_30_of_90).isSome =
        (_get_tearcheck_threshold panel_2400 qsync_60_of_90).isSome ∧
      ∀ ra rb, _get_tearcheck_threshold panel_2400 qsync_30_of_90 = some ra →
        _get_tearcheck_threshold panel_2400 qsync_60_of_90 = some rb →
        rb.threshold ≤ ra.threshold) :=
  ⟨by decide,
    tearcheck_threshold_monotone panel_2400 qsync_30_of_90 qsync_60_of_90 (by decide)
      (by decide) (by decide) (by decide) (by decide) (by decide) (by decide) (by decide)
      (by decide) (by decide) (by decide) (by decide)⟩

/-- C10: graceful failure.  In continuous mode with connector state present,
`_get_tearcheck_threshold` returns exactly the baseline 4, having executed no
division, whenever the minimum rate is unset (no callback, or 0), or is not
below the nominal rate, or `vtotal` is 0, or the nominal rate is 0. -/
theorem tearcheck_threshold_graceful (s : sde_encoder_phys) (env : tearcheck_env)
    (hc : s.connector = true) (hcs : s.conn_state = true)
    (hq : env.qsync_mode = .SDE_RM_QSYNC_CONTINUOUS_MODE)
    (hbad : s.get_qsync_fps = false ∨ env.qsync_min_fps = 0 ∨
      env.default_fps ≤ env.qsync_min_fps ∨ s.vtotal = 0 ∨ env.default_fps = 0) :
    _get_tearcheck_threshold s env = some ⟨4, 0⟩ := by
  unfold _get_tearcheck_threshold
  have h4 : wrap_s32 DEFAULT_TEARCHECK_SYNC_THRESH_START = 4 := by decide
  simp only [hc, hcs, hq, h4, Bool.not_true, Bool.or_false, Bool.false_eq_true, if_false,
    ne_eq, not_true_eq_false]
  by_cases h1 : ((if s.get_qsync_fps = true then (env.qsync_min_fps : Int) else 0) = 0 ∨
      (env.default_fps : Int) = 0 ∨ (s.vtotal : Int) = 0)
  · rw [if_pos h1]
  · rw [if_neg h1]
    have h2 : (if s.get_qsync_fps = true then (env.qsync_min_fps : Int) else 0) ≥
        (env.default_fps : Int) := by
      rcases hbad with h | h | h | h | h
      · simp [h] at h1
      · simp [h] at h1
      · split_ifs with hg
        · omega
        · simp [hg] at h1
      · simp [h] at h1
      · simp [h] at h1
    rw [if_pos h2]

/-- C10 on a run: minimum rate equal to the nominal rate. -/
theorem tearcheck_threshold_graceful_witness :
    (panel_2400.connector = true ∧ panel_2400.conn_state = true ∧
      qsync_90_of_90.qsync_mode = .SDE_RM_QSYNC_CONTINUOUS_MODE ∧
      qsync_90_of_90.default_fps ≤ qsync_90_of_90.qsync_min_fps) ∧
    _get_tearcheck_threshold panel_2400 qsync_90_of_90 = some ⟨4, 0⟩ :=
  ⟨by decide,
    tearcheck_threshold_graceful panel_2400 qsync_90_of_90 (by decide) (by decide) (by decide)
      (Or.inr (Or.inr (Or.inl (by decide))))⟩

/-! ## Autorefresh programming, trigger and disable -/

theorem config_autorefresh_cases (s : sde_encoder_phys) (new_frame_count : Nat) :
    _sde_encoder_phys_cmd_config_autorefresh s new_frame_count = s ∨
    (decide (new_frame_count ≠ 0) ≠ s.autorefresh_cfg.enable ∧
      ∃ t, (t = [] ∨ ∃ on_intf, t = [hw_effect.setup_autorefresh on_intf
          ⟨decide (new_frame_count ≠ 0), new_frame_count⟩]) ∧
        _sde_encoder_phys_cmd_config_autorefresh s new_frame_count =
          { s with
            autorefresh_cfg := ⟨decide (new_frame_count ≠ 0), new_frame_count⟩
            trace := s.trace ++ t }) := by
  unfold _sde_encoder_phys_cmd_config_autorefresh
  cases hpp : s.hw_pp with
  | none => exact Or.inl rfl
  | some hw_pp =>
    cases hi : s.hw_intf with
    | none => exact Or.inl rfl
    | some hw_intf =>
      dsimp only
      by_cases hg : (!s.connector || !s.conn_state) = true
      · rw [if_pos hg]; exact Or.inl rfl
      · rw [if_neg hg]
        by_cases he : decide (new_frame_count ≠ 0) = s.autorefresh_cfg.enable
        · rw [if_pos he]; exact Or.inl rfl
        · rw [if_neg he]
          refine Or.inr ⟨he, ?_⟩
          by_cases hA : (s.has_intf_te && hw_intf.setup_autorefresh) = true
          · rw [if_pos hA]
            exact ⟨_, Or.inr ⟨true, rfl⟩, rfl⟩
          · rw [if_neg hA]
            by_cases hB : hw_pp.setup_autorefresh = true
            · rw [if_pos hB]
              exact ⟨_, Or.inr ⟨false, rfl⟩, rfl⟩
            · rw [if_neg hB]
              exact ⟨[], Or.inl rfl, by simp⟩

/-- C14: write-only-on-change.  `_sde_encoder_phys_cmd_config_autorefresh`
issues a hardware autorefresh write only if the requested config differs from
the cached one; when they are equal it leaves the encoder, trace included, as
it was; it writes at most once, and what it writes is the cached config after
the call. -/
theorem config_autorefresh_write_only_on_change (s : sde_encoder_phys) (new_frame_count : Nat) :
    (autorefresh_writes (_sde_encoder_phys_cmd_config_autorefresh s new_frame_count).trace ≠
        autorefresh_writes s.trace →
      (⟨decide (new_frame_count ≠ 0), new_frame_count⟩ : sde_hw_autorefresh) ≠
        s.autorefresh_cfg) ∧
    ((⟨decide (new_frame_count ≠ 0), new_frame_count⟩ : sde_hw_autorefresh) =
        s.autorefresh_cfg →
      _sde_encoder_phys_cmd_config_autorefresh s new_frame_count = s) ∧
    (autorefresh_writes (_sde_encoder_phys_cmd_config_autorefresh s new_frame_count).trace =
        autorefresh_writes s.trace ∨
      autorefresh_writes (_sde_encoder_phys_cmd_config_autorefresh s new_frame_count).trace =
        autorefresh_writes s.trace ++
          [(_sde_encoder_phys_cmd_config_autorefresh s new_frame_count).autorefresh_cfg]) := by
  rcases config_autorefresh_cases s new_frame_count with h | ⟨he, t, ht, h⟩
  · rw [h]
    exact ⟨fun hw => absurd rfl hw, fun _ => rfl, Or.inl rfl⟩
  · rw [h]
    refine ⟨fun _ hreq => he (by rw [← hreq]), fun hreq => absurd (by rw [← hreq]) he, ?_⟩
    rcases ht with rfl | ⟨b, rfl⟩
    · left; simp
    · right; simp [autorefresh_writes, List.filterMap_append]

/-- C14 on a run: clearing the config of an encoder programmed for 30 frames
writes the cleared config once; asking for 30 frames again writes nothing. -/
theorem config_autorefresh_write_only_on_change_witness :
    autorefresh_writes (_sde_encoder_phys_cmd_config_autorefresh autorefresh_30 0).trace =
      [⟨false, 0⟩] ∧
    _sde_encoder_phys_cmd_config_autorefresh autorefresh_30 30 = autorefresh_30 ∧
    ((⟨decide (30 ≠ 0), 30⟩ : sde_hw_autorefresh) = autorefresh_30.autorefresh_cfg →
      _sde_encoder_phys_cmd_config_autorefresh autorefresh_30 30 = autorefresh_30) :=
  ⟨by decide, by decide, (config_autorefresh_write_only_on_change autorefresh_30 30).2.1⟩

theorem transmission_triggers_append (t u : List hw_effect) :
    transmission_triggers (t ++ u) = transmission_triggers t + transmission_triggers u := by
  simp [transmission_triggers, List.countP_append]

theorem config_autorefresh_triggers (s : sde_encoder_phys) (n : Nat) :
    transmission_triggers (_sde_encoder_phys_cmd_config_autorefresh s n).trace =
      transmission_triggers s.trace ∧
    (_sde_encoder_phys_cmd_config_autorefresh s n).autorefresh_kickoff_cnt =
      s.autorefresh_kickoff_cnt := by
  rcases config_autorefresh_cases s n with h | ⟨_, t, ht, h⟩
  · rw [h]; exact ⟨rfl, rfl⟩
  · rw [h]
    rcases ht with rfl | ⟨b, rfl⟩
    · simp
    · simp [transmission_triggers_append, transmission_triggers]

/-- C17 (as amended): the trigger.  The requested frame count is the
connector's autorefresh property narrowed to `u32`, read only when connector
and connector state are present.  With these present and a nonzero count,
`sde_encoder_phys_cmd_trigger_start` increments the autorefresh kickoff counter
by one (`int` arithmetic, exactly one below `INT_MAX`) and issues no ordinary
transmission trigger; it programs autorefresh, that is caches the config
`(enabled, count)` and writes it through the block that offers
`setup_autorefresh`, when the pingpong and interface blocks are attached and
the cached config is not enabled, and leaves cached config and trace as they
were when a block is missing or the cached config is already enabled.  With
a count of 0, or without connector or connector state, it issues exactly one
ordinary transmission trigger and leaves the autorefresh kickoff counter and
the cached config unchanged.  In every case `wr_ptr_wait_success` is false
afterwards. -/
theorem trigger_start_effect (s : sde_encoder_phys) (property : Nat) :
    (s.connector = true → s.conn_state = true → property % 4294967296 ≠ 0 →
      (sde_encoder_phys_cmd_trigger_start s property).autorefresh_kickoff_cnt =
        wrap_s32 (s.autorefresh_kickoff_cnt + 1) ∧
      (INT_MIN ≤ s.autorefresh_kickoff_cnt → s.autorefresh_kickoff_cnt < INT_MAX →
        (sde_encoder_phys_cmd_trigger_start s property).autorefresh_kickoff_cnt =
          s.autorefresh_kickoff_cnt + 1) ∧
      transmission_triggers (sde_encoder_phys_cmd_trigger_start s property).trace =
        transmission_triggers s.trace ∧
      (∀ hw_pp hw_intf, s.hw_pp = some hw_pp → s.hw_intf = some hw_intf →
        s.autorefresh_cfg.enable = false →
          (sde_encoder_phys_cmd_trigger_start s property).autorefresh_cfg =
            ⟨true, property % 4294967296⟩ ∧
          (sde_encoder_phys_cmd_trigger_start s property).trace = s.trace ++
            (if (s.has_intf_te && hw_intf.setup_autorefresh) = true then
              [hw_effect.setup_autorefresh true ⟨true, property % 4294967296⟩]
             else if hw_pp.setup_autorefresh = true then
              [hw_effect.setup_autorefresh false ⟨true, property % 4294967296⟩]
             else [])) ∧
      (s.hw_pp = none ∨ s.hw_intf = none ∨ s.autorefresh_cfg.enable = true →
        (sde_encoder_phys_cmd_trigger_start s property).autorefresh_cfg = s.autorefresh_cfg ∧
        (sde_encoder_phys_cmd_trigger_start s property).trace = s.trace)) ∧
    (s.connector = false ∨ s.conn_state = false ∨ property % 4294967296 = 0 →
      (sde_encoder_phys_cmd_trigger_start s property).trace =
        s.trace ++ [hw_effect.trigger_start] ∧
      transmission_triggers (sde_encoder_phys_cmd_trigger_start s property).trace =
        transmission_triggers s.trace + 1 ∧
      (sde_encoder_phys_cmd_trigger_start s property).autorefresh_kickoff_cnt =
        s.autorefresh_kickoff_cnt ∧
      (sde_encoder_phys_cmd_trigger_start s property).autorefresh_cfg = s.autorefresh_cfg) ∧
    (sde_encoder_phys_cmd_trigger_start s property).wr_ptr_wait_success = false := by
  refine ⟨fun hc hs hp => ?_, fun h => ?_, rfl⟩
  · have hget : _sde_encoder_phys_cmd_get_autorefresh_property s property = property := by
      unfold _sde_encoder_phys_cmd_get_autorefresh_property
      simp [hc, hs]
    have hcnt := (config_autorefresh_triggers s (property % 4294967296)).2
    have htrig := (config_autorefresh_triggers s (property % 4294967296)).1
    have hrun : sde_encoder_phys_cmd_trigger_start s property =
        { _sde_encoder_phys_cmd_config_autorefresh s (property % 4294967296) with
          autorefresh_kickoff_cnt := wrap_s32
            ((_sde_encoder_phys_cmd_config_autorefresh s
              (property % 4294967296)).autorefresh_kickoff_cnt + 1)
          wr_ptr_wait_success := false } := by
      unfold sde_encoder_phys_cmd_trigger_start
      dsimp only
      rw [hget, if_pos hp]
    rw [hrun]
    dsimp only
    refine ⟨by rw [hcnt], fun hlo hhi => ?_, htrig, fun hw_pp hw_intf hpp hintf hen => ?_,
      fun hno => ?_⟩
    · rw [hcnt]
      unfold wrap_s32
      unfold INT_MIN at hlo
      unfold INT_MAX at hhi
      omega
    · unfold _sde_encoder_phys_cmd_config_autorefresh
      rw [hpp, hintf]
      by_cases hA : (s.has_intf_te && hw_intf.setup_autorefresh) = true
      · simp [hc, hs, hen, hp, hA]
      · by_cases hB : hw_pp.setup_autorefresh = true
        · simp [hc, hs, hen, hp, hA, hB]
        · simp [hc, hs, hen, hp, hA, hB]
    · have hsame : _sde_encoder_phys_cmd_config_autorefresh s (property % 4294967296) = s := by
        unfold _sde_encoder_phys_cmd_config_autorefresh
        rcases hno with h | h | h
        · rw [h]
        · rw [h]
          split
          · rename_i hx; cases hx
          · rfl
        · split
          · simp [hc, hs, h, hp]
          · rfl
      rw [hsame]
      exact ⟨rfl, rfl⟩
  · have hget : _sde_encoder_phys_cmd_get_autorefresh_property s property % 4294967296 = 0 := by
      unfold _sde_encoder_phys_cmd_get_autorefresh_property
      rcases h with h | h | h
      · simp [h]
      · simp [h]
      · split
        · rfl
        · exact h
    unfold sde_encoder_phys_cmd_trigger_start
    dsimp only
    rw [if_neg (not_not.mpr hget)]
    exact ⟨rfl, by simp [transmission_triggers_append, transmission_triggers], rfl, rfl⟩

/-- C17 on two runs: an idle encoder triggered with 30 autorefresh frames
requested, and with none. -/
theorem trigger_start_effect_witness :
    (idle_encoder.connector = true ∧ idle_encoder.conn_state = true ∧
      30 % 4294967296 ≠ 0 ∧ 0 % 4294967296 = 0) ∧
    sde_encoder_phys_cmd_trigger_start idle_encoder 30 =
      { idle_encoder with
        autorefresh_cfg := ⟨true, 30⟩
        autorefresh_kickoff_cnt := 1
        trace := [hw_effect.setup_autorefresh true ⟨true, 30⟩] } ∧
    ((sde_encoder_phys_cmd_trigger_start idle_encoder 30).autorefresh_kickoff_cnt =
        wrap_s32 (idle_encoder.autorefresh_kickoff_cnt + 1) ∧
      transmission_triggers (sde_encoder_phys_cmd_trigger_start idle_encoder 30).trace =
        transmission_triggers idle_encoder.trace) ∧
    ((sde_encoder_phys_cmd_trigger_start idle_encoder 0).trace =
        idle_encoder.trace ++ [hw_effect.trigger_start] ∧
      transmission_triggers (sde_encoder_phys_cmd_trigger_start idle_encoder 0).trace =
        transmission_triggers idle_encoder.trace + 1 ∧
      (sde_encoder_phys_cmd_trigger_start idle_encoder 0).autorefresh_kickoff_cnt =
        idle_encoder.autorefresh_kickoff_cnt ∧
      (sde_encoder_phys_cmd_trigger_start idle_encoder 0).autorefresh_cfg =
        idle_encoder.autorefresh_cfg) :=
  ⟨by decide, by decide,
    ⟨((trigger_start_effect idle_encoder 30).1 rfl rfl (by decide)).1,
      ((trigger_start_effect idle_encoder 30).1 rfl rfl (by decide)).2.2.1⟩,
    (trigger_start_effect idle_encoder 0).2.1 (Or.inr (Or.inr (by decide)))⟩

/-- C17 (as stated) fails: on an encoder whose cached autorefresh config is
already enabled for 30 frames, a trigger that requests 60 frames programs
nothing (no hardware write, the cached count stays 30) although it counts an
autorefresh kickoff; without a pingpong block nothing is programmed either;
and a requested count of `2^32`, nonzero, is narrowed to 0 and sent as an
ordinary trigger. -/
theorem trigger_start_programs_nothing :
    (sde_encoder_phys_cmd_trigger_start autorefresh_30 60).autorefresh_cfg = ⟨true, 30⟩ ∧
    autorefresh_writes (sde_encoder_phys_cmd_trigger_start autorefresh_30 60).trace = [] ∧
    (sde_encoder_phys_cmd_trigger_start autorefresh_30 60).autorefresh_kickoff_cnt = 1 ∧
    (sde_encoder_phys_cmd_trigger_start one_frame_pending_no_pp 60).autorefresh_cfg =
      ⟨false, 0⟩ ∧
    autorefresh_writes (sde_encoder_phys_cmd_trigger_start one_frame_pending_no_pp 60).trace =
      [] ∧
    (sde_encoder_phys_cmd_trigger_start one_frame_pending_no_pp 60).autorefresh_kickoff_cnt =
      1 ∧
    (sde_encoder_phys_cmd_trigger_start idle_encoder 4294967296).trace =
      [hw_effect.trigger_start] := by
  decide

/-- C11 (as stated) fails: for minimum 60 fps, nominal 90 fps, 2400 lines and
the jitter bounds unset the value returned is not the baseline 4. -/
theorem tearcheck_scenario_not_baseline :
    (_get_tearcheck_threshold panel_2400 qsync_60_of_90).map tearcheck_result.threshold ≠
      some 4 := by
  decide

/-- C11 (as amended): for minimum 60 fps, nominal 90 fps, 2400 lines and the
jitter bounds unset (either bound zero), `_get_tearcheck_threshold` returns
1198: with no jitter data the window is computed from the minimum-rate period
itself, 1200 lines, less the 2-line latency margin. -/
theorem tearcheck_scenario_60_of_90 (env : tearcheck_env)
    (hq : env.qsync_mode = .SDE_RM_QSYNC_CONTINUOUS_MODE)
    (hmin : env.qsync_min_fps = 60) (hnom : env.default_fps = 90)
    (hunset : env.l_bound = 0 ∨ env.u_bound = 0) :
    _get_tearcheck_threshold panel_2400 env = some ⟨1198, 12⟩ := by
  rw [tearcheck_threshold_unset panel_2400 env rfl rfl hq rfl (by omega) (by omega)
    (by decide) hunset, hmin, hnom]
  decide

/-- C11 as amended, on the run with both bounds 0. -/
theorem tearcheck_scenario_60_of_90_witness :
    (qsync_60_of_90.qsync_mode = .SDE_RM_QSYNC_CONTINUOUS_MODE ∧
      qsync_60_of_90.qsync_min_fps = 60 ∧ qsync_60_of_90.default_fps = 90 ∧
      (qsync_60_of_90.l_bound = 0 ∨ qsync_60_of_90.u_bound = 0)) ∧
    _get_tearcheck_threshold panel_2400 qsync_60_of_90 = some ⟨1198, 12⟩ :=
  ⟨by decide, tearcheck_scenario_60_of_90 qsync_60_of_90 rfl rfl rfl (Or.inl rfl)⟩

theorem run_irqs_cnt_zero (irqs : List irq_event) (s : sde_encoder_phys)
    (h : s.pending_kickoff_cnt = 0) : (run_irqs s irqs).pending_kickoff_cnt = 0 := by
  have hrel := run_irqs_rel irqs s (by omega) (by rw [h]; decide)
  have := hrel.1
  have := hrel.2.1
  omega

theorem run_irqs_nil (s : sde_encoder_phys) : run_irqs s [] = s := rfl

set_option maxHeartbeats 1000000 in
/-- The steps of prepare-for-kickoff after the wait for idle leave the counter
to the interrupts that arrive during the vblank wait. -/
theorem prepare_for_kickoff_tail_cnt (s : sde_encoder_phys)
    (params : sde_encoder_kickoff_params) (env : prepare_for_kickoff_env)
    (r : Int × sde_encoder_phys)
    (h : sde_encoder_phys_cmd_prepare_for_kickoff s params env = some r)
    (hpp : s.hw_pp.isSome = true) :
    ∃ ret s1,
      (if params.frame_trigger_mode = .FRAME_DONE_WAIT_DEFAULT then
        (_sde_encoder_phys_cmd_wait_for_idle
            { s with frame_trigger_mode := params.frame_trigger_mode } env.idle).map
          (fun q => if q.1 ≠ 0 then (q.1, { q.2 with pending_kickoff_cnt := 0 }) else q)
       else some (0, { s with frame_trigger_mode := params.frame_trigger_mode })) =
        some (ret, s1) ∧
      r.1 = ret ∧
      r.2.pending_kickoff_cnt =
        (if s1.cont_splash_enabled then
          _sde_encoder_phys_wait_for_vsync_on_autorefresh_busy s1 env.autorefresh_status
            env.vblank_wait
         else s1).pending_kickoff_cnt := by
  unfold sde_encoder_phys_cmd_prepare_for_kickoff at h
  split at h
  · rename_i hnone; rw [hnone] at hpp; cases hpp
  · rename_i hw_pp hsome
    dsimp only at h
    split at h
    · cases h
    · rename_i ret s1 hfirst
      refine ⟨ret, s1, ?_, ?_⟩
      · split_ifs at hfirst with hm
        · rw [if_pos hm]
          split at hfirst
          · cases hfirst
          · rename_i rq sq hw
            rw [hw]
            split_ifs at hfirst with hz
            · cases hfirst; simp [hz]
            · cases hfirst; simp [hz]
        · rw [if_neg hm]; exact hfirst
      · generalize (if s1.cont_splash_enabled then
          _sde_encoder_phys_wait_for_vsync_on_autorefresh_busy s1 env.autorefresh_status
            env.vblank_wait else s1) = s2 at h ⊢
        repeat' split at h
        all_goals cases h
        all_goals simp

theorem is_scheduler_idle_not_posted (s : sde_encoder_phys) (st : Nat)
    (h : s.frame_trigger_mode ≠ .FRAME_DONE_WAIT_POSTED_START) :
    _sde_encoder_phys_cmd_is_scheduler_idle s st = some (false, s) := by
  unfold _sde_encoder_phys_cmd_is_scheduler_idle
  simp [h]

theorem irq_event_run_trigger_mode (s : sde_encoder_phys) (e : irq_event) :
    (e.handled s).frame_trigger_mode = s.frame_trigger_mode := by
  cases e <;>
    simp only [irq_event.handled, irq_event.run, sde_encoder_phys_cmd_ctl_done_irq,
      sde_encoder_phys_cmd_pp_tx_done_irq, sde_encoder_phys_cmd_autorefresh_done_irq,
      sde_encoder_phys_cmd_te_rd_ptr_irq, sde_encoder_phys_cmd_wr_ptr_irq,
      _sde_encoder_phys_signal_frame_done, sde_encoder_override_tearcheck_rd_ptr] <;>
    (repeat' split) <;> rfl

theorem run_irqs_trigger_mode (irqs : List irq_event) (s : sde_encoder_phys) :
    (run_irqs s irqs).frame_trigger_mode = s.frame_trigger_mode := by
  induction irqs generalizing s with
  | nil => rfl
  | cons e es ih =>
    show (run_irqs (e.handled s) es).frame_trigger_mode = _
    rw [ih, irq_event_run_trigger_mode]

theorem wait_for_idle_default_some (s : sde_encoder_phys) (env : wait_for_idle_env)
    (h : s.frame_trigger_mode = .FRAME_DONE_WAIT_DEFAULT) :
    (_sde_encoder_phys_cmd_wait_for_idle s env).isSome = true := by
  unfold _sde_encoder_phys_cmd_wait_for_idle
  have h1 : s.frame_trigger_mode ≠ .FRAME_DONE_WAIT_POSTED_START := by rw [h]; decide
  have h2 : (run_irqs s env.wait.irqs).frame_trigger_mode ≠ .FRAME_DONE_WAIT_POSTED_START := by
    rw [run_irqs_trigger_mode, h]; decide
  rw [is_scheduler_idle_not_posted s _ h1]
  dsimp only
  rw [is_scheduler_idle_not_posted _ _ h2]
  repeat' split
  all_goals first | rfl | simp_all

theorem prepare_for_kickoff_returns (s : sde_encoder_phys)
    (params : sde_encoder_kickoff_params) (env : prepare_for_kickoff_env)
    (hq : env.qsync_updated = false)
    (hidle : params.frame_trigger_mode = .FRAME_DONE_WAIT_DEFAULT →
      (_sde_encoder_phys_cmd_wait_for_idle
        { s with frame_trigger_mode := params.frame_trigger_mode } env.idle).isSome = true) :
    (sde_encoder_phys_cmd_prepare_for_kickoff s params env).isSome = true := by
  unfold sde_encoder_phys_cmd_prepare_for_kickoff
  split
  · rfl
  · dsimp only
    by_cases hm : params.frame_trigger_mode = .FRAME_DONE_WAIT_DEFAULT
    · obtain ⟨⟨rq, sq⟩, hw⟩ := Option.isSome_iff_exists.mp (hidle hm)
      rw [if_pos hm, hw]
      dsimp only
      by_cases hz : rq ≠ 0
      · rw [if_pos hz]; simp [hq]
      · rw [if_neg hz]; simp [hq]
    · rw [if_neg hm]; simp [hq]

theorem wait_for_vsync_no_irq (s : sde_encoder_phys) (st : Nat) (w : irq_wait)
    (h : w.irqs = []) :
    _sde_encoder_phys_wait_for_vsync_on_autorefresh_busy s st w = s := by
  unfold _sde_encoder_phys_wait_for_vsync_on_autorefresh_busy
  rw [h]
  repeat' split
  all_goals rfl

/-- C18 (as amended): prepare-for-kickoff does not wedge the pipeline.  With the
pingpong block present: in the default trigger mode, whenever the wait for idle fails
with a nonzero code, the call (which returns whenever the tear-check threshold
need not be recomputed) returns that code and leaves `pending_kickoff_cnt = 0`;
in the other trigger modes the result does not depend on anything the wait for
idle would read (no wait is performed), the call returns 0, and the counter is
what the interrupts arriving during the vblank wait of the continuous-splash
path leave of it: the counter is unchanged if that wait is not made or no
interrupt arrives meanwhile. -/
theorem prepare_for_kickoff_does_not_wedge (s : sde_encoder_phys)
    (params : sde_encoder_kickoff_params) (env : prepare_for_kickoff_env)
    (hpp : s.hw_pp.isSome = true) :
    (params.frame_trigger_mode = .FRAME_DONE_WAIT_DEFAULT →
      (_sde_encoder_phys_cmd_wait_for_idle
        { s with frame_trigger_mode := params.frame_trigger_mode } env.idle).isSome = true ∧
      (env.qsync_updated = false →
        (sde_encoder_phys_cmd_prepare_for_kickoff s params env).isSome = true) ∧
      ∀ ret s1 r,
        _sde_encoder_phys_cmd_wait_for_idle
          { s with frame_trigger_mode := params.frame_trigger_mode } env.idle = some (ret, s1) →
        ret ≠ 0 →
        sde_encoder_phys_cmd_prepare_for_kickoff s params env = some r →
        r.1 = ret ∧ r.2.pending_kickoff_cnt = 0) ∧
    (params.frame_trigger_mode ≠ .FRAME_DONE_WAIT_DEFAULT →
      (∀ idle, sde_encoder_phys_cmd_prepare_for_kickoff s params { env with idle := idle } =
        sde_encoder_phys_cmd_prepare_for_kickoff s params env) ∧
      (env.qsync_updated = false →
        (sde_encoder_phys_cmd_prepare_for_kickoff s params env).isSome = true) ∧
      ∀ r, sde_encoder_phys_cmd_prepare_for_kickoff s params env = some r →
        r.1 = 0 ∧
        (s.cont_splash_enabled = false ∨ env.vblank_wait.irqs = [] →
          r.2.pending_kickoff_cnt = s.pending_kickoff_cnt)) := by
  constructor
  · intro hm
    have hsome := wait_for_idle_default_some
      { s with frame_trigger_mode := params.frame_trigger_mode } env.idle hm
    refine ⟨hsome, fun hq => prepare_for_kickoff_returns s params env hq (fun _ => hsome), ?_⟩
    intro ret s1 r hw hret hr
    obtain ⟨ret', s1', hfirst, hr1, hr2⟩ := prepare_for_kickoff_tail_cnt s params env r hr hpp
    rw [if_pos hm, hw] at hfirst
    simp only [Option.map_some', if_pos hret, Option.some.injEq, Prod.mk.injEq] at hfirst
    obtain ⟨h1, h2⟩ := hfirst
    subst h1 h2
    refine ⟨hr1, ?_⟩
    rw [hr2]
    split_ifs
    · unfold _sde_encoder_phys_wait_for_vsync_on_autorefresh_busy
      repeat' split
      all_goals first | rfl | exact run_irqs_cnt_zero _ _ rfl
    · rfl
  · intro hm
    refine ⟨fun idle => ?_, fun hq => prepare_for_kickoff_returns s params env hq
      (fun h => absurd h hm), ?_⟩
    · unfold sde_encoder_phys_cmd_prepare_for_kickoff
      simp only [if_neg hm]
    · intro r hr
      obtain ⟨ret', s1', hfirst, hr1, hr2⟩ := prepare_for_kickoff_tail_cnt s params env r hr hpp
      rw [if_neg hm] at hfirst
      simp only [Option.some.injEq, Prod.mk.injEq] at hfirst
      obtain ⟨h1, h2⟩ := hfirst
      subst h1 h2
      refine ⟨hr1, fun hno => ?_⟩
      rw [hr2]
      rcases hno with hno | hno
      · simp [hno]
      · rw [wait_for_vsync_no_irq _ _ _ hno]
        simp

/-- C18 on two runs: two frames outstanding; in default mode the wait for idle
times out and the counter is reset, in posted-start mode the counter is left
at 2 and 0 is returned. -/
theorem prepare_for_kickoff_does_not_wedge_witness :
    (two_frames_pending.hw_pp.isSome = true ∧
      _sde_encoder_phys_cmd_wait_for_idle two_frames_pending idle_wait_times_out.idle =
        some (-ETIMEDOUT, { two_frames_timed_out with pending_kickoff_cnt := 1 })) ∧
    sde_encoder_phys_cmd_prepare_for_kickoff two_frames_pending ⟨.FRAME_DONE_WAIT_DEFAULT⟩
      idle_wait_times_out = some (-ETIMEDOUT, two_frames_timed_out) ∧
    sde_encoder_phys_cmd_prepare_for_kickoff two_frames_pending
      ⟨.FRAME_DONE_WAIT_POSTED_START⟩ idle_wait_times_out = some (0, two_frames_posted) ∧
    ((-ETIMEDOUT, two_frames_timed_out).1 = -ETIMEDOUT ∧
      (-ETIMEDOUT, two_frames_timed_out).2.pending_kickoff_cnt = 0) :=
  ⟨by decide, by decide, by decide,
    ((prepare_for_kickoff_does_not_wedge two_frames_pending ⟨.FRAME_DONE_WAIT_DEFAULT⟩
      idle_wait_times_out (by decide)).1 rfl).2.2 (-ETIMEDOUT)
      { two_frames_timed_out with pending_kickoff_cnt := 1 } (-ETIMEDOUT, two_frames_timed_out)
      (by decide) (by decide) (by decide)⟩

/-! ## The jitter scan and the TE timestamp ring -/

theorem ktime_sub_valid (n o : Int) (hn : valid_ktime n) (ho : valid_ktime o) :
    ktime_sub n o = n - o := by
  unfold valid_ktime at hn ho
  unfold ktime_sub wrap_s64
  omega

theorem te_jitter_scan_snoc (p l u : Int) (ys : List Int) (x : Int) (prev : Option Int) :
    te_jitter_scan p l u prev (ys ++ [x]) =
      (te_jitter_scan p l u prev ys ||
        match (ys.getLast?).or prev with
        | some n => ktime_after x p &&
            (decide (ktime_sub n x < l) || decide (ktime_sub n x > u))
        | none => false) := by
  induction ys generalizing prev with
  | nil =>
    cases prev <;> simp [te_jitter_scan]
  | cons y ys ih =>
    have hl : ((y :: ys).getLast?).or prev = (ys.getLast?).or (some y) := by
      cases ys with
      | nil => simp
      | cons z zs =>
        rw [List.getLast?_cons_cons, List.getLast?_eq_getLast _ (List.cons_ne_nil z zs)]
        rfl
    rw [hl]
    cases prev with
    | none =>
      simp only [List.cons_append, te_jitter_scan]
      exact ih (some y)
    | some q =>
      simp only [List.cons_append, te_jitter_scan]
      split
      · simp
      · exact ih (some y)

theorem te_jitter_scan_reverse (p l u : Int) (ring : List Int)
    (hv : ∀ t ∈ ring, valid_ktime t) :
    te_jitter_scan p l u none ring.reverse = true ↔
      ∃ pr ∈ ring.zip ring.tail, pr.1 > p ∧ (pr.2 - pr.1 < l ∨ pr.2 - pr.1 > u) := by
  induction ring with
  | nil => simp [te_jitter_scan]
  | cons x xs ih =>
    have hx : valid_ktime x := hv x (List.mem_cons_self _ _)
    have hxs : ∀ t ∈ xs, valid_ktime t := fun t ht => hv t (List.mem_cons_of_mem _ ht)
    rw [List.reverse_cons, te_jitter_scan_snoc, Bool.or_eq_true, ih hxs]
    cases xs with
    | nil => simp
    | cons n ns =>
      have hn : valid_ktime n := hxs n (List.mem_cons_self _ _)
      have hlast : ((n :: ns).reverse.getLast?).or none = some n := by simp
      rw [hlast]
      simp only [List.tail_cons, List.zip_cons_cons, List.mem_cons,
        ktime_sub_valid n x hn hx, ktime_after, Bool.and_eq_true, Bool.or_eq_true,
        decide_eq_true_eq]
      constructor
      · rintro (h | h)
        · obtain ⟨pr, hpr, h⟩ := h
          exact ⟨pr, Or.inr hpr, h⟩
        · exact ⟨(x, n), Or.inl rfl, h⟩
      · rintro ⟨pr, hpr | hpr, h⟩
        · subst hpr
          exact Or.inr h
        · exact Or.inl ⟨pr, hpr, h⟩

/-- C19: on a ring of clock readings, `_sde_encoder_phys_cmd_needs_vsync_change`
returns true exactly when both jitter bounds are nonzero and two adjacent ring
entries, older `o` and newer `n`, have `o > p` and `n - o < l` or `n - o > u`;
when either bound is zero it returns false whatever the ring holds. -/
theorem needs_vsync_change_eq_reference (s : sde_encoder_phys) (p l u : Int)
    (hv : ∀ t ∈ s.te_timestamp_list, valid_ktime t) :
    (_sde_encoder_phys_cmd_needs_vsync_change s p l u = true ↔
      jitter_out_of_bounds s.te_timestamp_list p l u) ∧
    (l = 0 ∨ u = 0 → ∀ s' : sde_encoder_phys,
      _sde_encoder_phys_cmd_needs_vsync_change s' p l u = false) := by
  constructor
  · unfold _sde_encoder_phys_cmd_needs_vsync_change jitter_out_of_bounds
    by_cases h : l = 0 ∨ u = 0
    · rw [if_pos h]
      constructor
      · intro hf
        cases hf
      · rintro ⟨hl, hu, _⟩
        rcases h with h | h
        · exact absurd h hl
        · exact absurd h hu
    · rw [if_neg h, te_jitter_scan_reverse p l u _ hv]
      push_neg at h
      exact ⟨fun hr => ⟨h.1, h.2, hr⟩, fun hr => hr.2.2⟩
  · intro h s'
    unfold _sde_encoder_phys_cmd_needs_vsync_change
    rw [if_pos h]

/-- C19 on a run: a ring with one late pulse, scanned from a reference point before
and after the late pulse. -/
theorem needs_vsync_change_eq_reference_witness :
    (∀ t ∈ ring_late_pulse.te_timestamp_list, valid_ktime t) ∧
    _sde_encoder_phys_cmd_needs_vsync_change ring_late_pulse 100000000 7000000 9000000 = true ∧
    jitter_out_of_bounds ring_late_pulse.te_timestamp_list 100000000 7000000 9000000 ∧
    _sde_encoder_phys_cmd_needs_vsync_change ring_late_pulse 116000000 7000000 9000000 = false ∧
    ¬ jitter_out_of_bounds ring_late_pulse.te_timestamp_list 116000000 7000000 9000000 :=
  have h := fun p => needs_vsync_change_eq_reference ring_late_pulse p 7000000 9000000
    (by decide)
  ⟨by decide, by decide, (h 100000000).1.mp (by decide), by decide,
    fun hj => absurd ((h 116000000).1.mpr hj) (by decide)⟩

theorem te_rd_ptr_irq_ring (s : sde_encoder_phys) (now : Int) (h : blocks_attached s) :
    (sde_encoder_phys_cmd_te_rd_ptr_irq s now).te_timestamp_list =
      (s.te_timestamp_list ++ [now]).drop 1 ∧
    blocks_attached (sde_encoder_phys_cmd_te_rd_ptr_irq s now) := by
  obtain ⟨h1, h2, h3⟩ := h
  unfold sde_encoder_phys_cmd_te_rd_ptr_irq blocks_attached
  have hg : (s.hw_pp.isNone || s.hw_intf.isNone || s.hw_ctl.isNone) = false := by
    cases hp : s.hw_pp <;> cases hi : s.hw_intf <;> cases hc : s.hw_ctl <;>
      simp_all
  rw [hg]
  simp only [Bool.false_eq_true, if_false]
  cases hr : s.te_timestamp_list <;> dsimp only <;> constructor <;> split <;>
    simp [h1, h2, h3, hr]

theorem te_rd_ptr_irq_ring_detached (s : sde_encoder_phys) (now : Int)
    (h : ¬ blocks_attached s) :
    sde_encoder_phys_cmd_te_rd_ptr_irq s now = s := by
  unfold sde_encoder_phys_cmd_te_rd_ptr_irq
  have hg : (s.hw_pp.isNone || s.hw_intf.isNone || s.hw_ctl.isNone) = true := by
    unfold blocks_attached at h
    cases hp : s.hw_pp <;> cases hi : s.hw_intf <;> cases hc : s.hw_ctl <;>
      simp_all
  rw [hg]
  rfl

theorem te_rd_ptr_irq_ring_length (s : sde_encoder_phys) (now : Int) :
    (sde_encoder_phys_cmd_te_rd_ptr_irq s now).te_timestamp_list.length =
      s.te_timestamp_list.length := by
  by_cases h : blocks_attached s
  · rw [(te_rd_ptr_irq_ring s now h).1]
    simp
  · rw [te_rd_ptr_irq_ring_detached s now h]

theorem run_te_rd_ptr_irqs_length (stamps : List Int) (s : sde_encoder_phys) :
    (run_te_rd_ptr_irqs s stamps).te_timestamp_list.length = s.te_timestamp_list.length := by
  induction stamps generalizing s with
  | nil => rfl
  | cons x xs ih =>
    show (run_te_rd_ptr_irqs (sde_encoder_phys_cmd_te_rd_ptr_irq s x) xs).te_timestamp_list.length
      = _
    rw [ih, te_rd_ptr_irq_ring_length]

theorem run_te_rd_ptr_irqs_ring (stamps : List Int) (s : sde_encoder_phys)
    (h : blocks_attached s) :
    (run_te_rd_ptr_irqs s stamps).te_timestamp_list =
      (s.te_timestamp_list ++ stamps).drop stamps.length := by
  induction stamps generalizing s with
  | nil => simp [run_te_rd_ptr_irqs]
  | cons x xs ih =>
    show (run_te_rd_ptr_irqs (sde_encoder_phys_cmd_te_rd_ptr_irq s x) xs).te_timestamp_list = _
    rw [ih _ (te_rd_ptr_irq_ring s x h).2, (te_rd_ptr_irq_ring s x h).1]
    cases hr : s.te_timestamp_list with
    | nil => simp
    | cons r rest => simp

/-- C20 (as amended): the ring is created with `MAX_TE_PROFILE_COUNT` entries
and every sequence of pointer-read interrupts keeps that length; an interrupt
taken while the pingpong, interface and controller blocks are all attached
removes the head entry, stores the new timestamp at the tail and keeps the
other entries in order, while an interrupt taken with a block missing leaves
the encoder as it was; hence after `k ≥ MAX_TE_PROFILE_COUNT` interrupts on an
encoder with the blocks attached the ring holds exactly the last
`MAX_TE_PROFILE_COUNT` timestamps in arrival order. -/
theorem te_ring_rotation (s : sde_encoder_phys) (stamps : List Int)
    (hlen : s.te_timestamp_list.length = MAX_TE_PROFILE_COUNT) :
    (∀ p, (sde_encoder_phys_cmd_init p).te_timestamp_list.length = MAX_TE_PROFILE_COUNT) ∧
    (run_te_rd_ptr_irqs s stamps).te_timestamp_list.length = MAX_TE_PROFILE_COUNT ∧
    (∀ now, blocks_attached s →
      (sde_encoder_phys_cmd_te_rd_ptr_irq s now).te_timestamp_list =
        s.te_timestamp_list.tail ++ [now]) ∧
    (∀ now, ¬ blocks_attached s → sde_encoder_phys_cmd_te_rd_ptr_irq s now = s) ∧
    (blocks_attached s → MAX_TE_PROFILE_COUNT ≤ stamps.length →
      (run_te_rd_ptr_irqs s stamps).te_timestamp_list =
        stamps.drop (stamps.length - MAX_TE_PROFILE_COUNT)) := by
  refine ⟨fun p => ?_, ?_, fun now h => ?_, fun now h => ?_, fun h hk => ?_⟩
  · simp [sde_encoder_phys_cmd_init]
  · rw [run_te_rd_ptr_irqs_length, hlen]
  · rw [(te_rd_ptr_irq_ring s now h).1]
    cases hr : s.te_timestamp_list with
    | nil => rw [hr] at hlen; cases hlen
    | cons r rest => simp
  · exact te_rd_ptr_irq_ring_detached s now h
  · rw [run_te_rd_ptr_irqs_ring stamps s h, List.drop_append_eq_append_drop,
      List.drop_eq_nil_of_le (by omega), hlen, List.nil_append]

/-- C20 (as amended), on a run: seven interrupts on a ring of five pulses. -/
theorem te_ring_rotation_witness :
    ring_of_five.te_timestamp_list.length = MAX_TE_PROFILE_COUNT ∧
    (run_te_rd_ptr_irqs ring_of_five [60, 70, 80, 90, 100, 110, 120]).te_timestamp_list =
      [80, 90, 100, 110, 120] :=
  ⟨by decide, (te_ring_rotation ring_of_five [60, 70, 80, 90, 100, 110, 120]
    (by decide)).2.2.2.2 (by decide) (by decide)⟩

/-- C20 (as stated) fails: five pointer-read interrupts on an encoder that has
no controller assigned return at the handler's first check, so the ring still
holds its old entries and none of the five new timestamps. -/
theorem te_ring_untouched_without_ctl :
    ring_of_five_no_ctl.te_timestamp_list.length = MAX_TE_PROFILE_COUNT ∧
    (run_te_rd_ptr_irqs ring_of_five_no_ctl [60, 70, 80, 90, 100]).te_timestamp_list =
      [10, 20, 30, 40, 50] ∧
    (run_te_rd_ptr_irqs ring_of_five_no_ctl [60, 70, 80, 90, 100]).te_timestamp_list ≠
      [60, 70, 80, 90, 100] := by
  decide

theorem is_autorefresh_enabled_off (s : sde_encoder_phys) (rd : autorefresh_read)
    (h : rd.cfg.enable = false) :
    sde_encoder_phys_cmd_is_autorefresh_enabled s rd = false := by
  unfold sde_encoder_phys_cmd_is_autorefresh_enabled
  repeat' split
  all_goals first | rfl | exact h

/-- C12: when the hardware reports autorefresh not enabled (the check
`sde_encoder_phys_cmd_is_autorefresh_enabled` is false, as it is whenever the
config read back has `enable` clear), or the encoder is a slave,
`_sde_encoder_phys_disable_autorefresh` returns the encoder it was given: no
call is added to the trace and no field changes. -/
theorem disable_autorefresh_noop (s : sde_encoder_phys) (env : disable_autorefresh_env)
    (h : env.autorefresh.cfg.enable = false ∨
      sde_encoder_phys_cmd_is_autorefresh_enabled s env.autorefresh = false ∨
      s.split_role = .ENC_ROLE_SLAVE) :
    _sde_encoder_phys_disable_autorefresh s env = some s := by
  unfold _sde_encoder_phys_disable_autorefresh
  rcases h with h | h | h
  · rw [is_autorefresh_enabled_off s _ h]
    split <;> rfl
  · rw [h]
    split <;> rfl
  · have : sde_encoder_phys_cmd_is_master s = false := by
      unfold sde_encoder_phys_cmd_is_master
      rw [h]
      rfl
    rw [this]
    rfl

/-- C12 on a run: an encoder programmed for 30 frames whose hardware reports
autorefresh off. -/
theorem disable_autorefresh_noop_witness :
    autorefresh_reported_off.autorefresh.cfg.enable = false ∧
    _sde_encoder_phys_disable_autorefresh autorefresh_30_running autorefresh_reported_off =
      some autorefresh_30_running :=
  ⟨rfl, disable_autorefresh_noop autorefresh_30_running autorefresh_reported_off
    (Or.inl rfl)⟩

theorem config_autorefresh_zero_noop (s : sde_encoder_phys)
    (h : s.autorefresh_cfg.enable = false) :
    _sde_encoder_phys_cmd_config_autorefresh s 0 = s := by
  unfold _sde_encoder_phys_cmd_config_autorefresh
  repeat' split
  all_goals first | rfl | simp_all

theorem seq1_loop_result (s : sde_encoder_phys) (readings : List Nat) (trial : Int)
    (r : sde_encoder_phys × List Nat)
    (h : autorefresh_disable_seq1_loop s trial readings = some r) :
    ∃ e, r.1 = { s with enable_state := e } := by
  induction readings generalizing trial with
  | nil =>
    unfold autorefresh_disable_seq1_loop at h
    split at h
    · cases h; exact ⟨_, rfl⟩
    · cases h
  | cons x xs ih =>
    unfold autorefresh_disable_seq1_loop at h
    split at h
    · cases h; exact ⟨_, rfl⟩
    · dsimp only at h
      split at h
      · exact ih _ h
      · cases h; exact ⟨s.enable_state, rfl⟩

theorem seq2_loop_result (readings : List Nat) (s : sde_encoder_phys) (trial : Int)
    (status : Nat) (r : sde_encoder_phys × List Nat)
    (hcfg : s.autorefresh_cfg.enable = false)
    (h : autorefresh_disable_seq2_loop s trial status readings = some r) :
    ∃ t, r.1 = { s with trace := s.trace ++ t } ∧ autorefresh_writes t = [] ∧
      ∀ e ∈ hw_writes t, e = hw_effect.check_and_reset_tearcheck := by
  have hnoop : (if trial = 0 then _sde_encoder_phys_cmd_config_autorefresh s 0 else s) = s := by
    split
    · exact config_autorefresh_zero_noop s hcfg
    · rfl
  induction readings generalizing s trial status with
  | nil =>
    unfold autorefresh_disable_seq2_loop at h
    rw [hnoop] at h
    split at h
    · cases h; exact ⟨[], by simp, rfl, by simp [hw_writes]⟩
    · split at h
      · cases h
        exact ⟨[hw_effect.dbg_dump_all_panic], rfl, rfl, by simp [hw_writes]⟩
      · cases h
  | cons x xs ih =>
    unfold autorefresh_disable_seq2_loop at h
    rw [hnoop] at h
    split at h
    · cases h; exact ⟨[], by simp, rfl, by simp [hw_writes]⟩
    · split at h
      · cases h
        exact ⟨[hw_effect.dbg_dump_all_panic], rfl, rfl, by simp [hw_writes]⟩
      · dsimp only at h
        have hcfg' : ({ s with trace := s.trace ++ [hw_effect.check_and_reset_tearcheck] } :
            sde_encoder_phys).autorefresh_cfg.enable = false := hcfg
        have hn' : (if wrap_s32 (trial + 1) = 0 then
            _sde_encoder_phys_cmd_config_autorefresh
              { s with trace := s.trace ++ [hw_effect.check_and_reset_tearcheck] } 0
            else { s with trace := s.trace ++ [hw_effect.check_and_reset_tearcheck] }) =
            { s with trace := s.trace ++ [hw_effect.check_and_reset_tearcheck] } := by
          split
          · exact config_autorefresh_zero_noop _ hcfg'
          · rfl
        obtain ⟨t, ht, ha, hw⟩ := ih _ _ _ hcfg' h hn'
        refine ⟨hw_effect.check_and_reset_tearcheck :: t, ?_, ?_, ?_⟩
        · rw [ht]; simp
        · simpa [autorefresh_writes] using ha
        · intro e he
          have hc : hw_writes (hw_effect.check_and_reset_tearcheck :: t) =
              hw_effect.check_and_reset_tearcheck :: hw_writes t := rfl
          rw [hc, List.mem_cons] at he
          rcases he with he | he
          · exact he
          · exact hw e he

theorem seq2_result (readings : List Nat) (s : sde_encoder_phys)
    (r : sde_encoder_phys × List Nat)
    (hcfg : s.autorefresh_cfg.enable = false)
    (h : _sde_encoder_autorefresh_disable_seq2 s readings = some r) :
    ∃ t, r.1 = { s with trace := s.trace ++ t } ∧ autorefresh_writes t = [] ∧
      ∀ e ∈ hw_writes t, e = hw_effect.check_and_reset_tearcheck := by
  unfold _sde_encoder_autorefresh_disable_seq2 at h
  have hnil : ∃ t, s = { s with trace := s.trace ++ t } ∧ autorefresh_writes t = [] ∧
      ∀ e ∈ hw_writes t, e = hw_effect.check_and_reset_tearcheck :=
    ⟨[], by simp, rfl, by simp [hw_writes]⟩
  repeat' split at h
  all_goals first
    | cases h; exact hnil
    | cases h
    | exact seq2_loop_result _ _ _ _ _ hcfg h

theorem connect_te_eq (x : sde_encoder_phys) (pp : sde_hw_pingpong) (intf : sde_hw_intf)
    (b : Bool) (hpp : x.hw_pp = some pp) (hintf : x.hw_intf = some intf)
    (hte : (x.has_intf_te && intf.connect_external_te || pp.connect_external_te) = true) :
    sde_encoder_phys_cmd_connect_te x b =
      { x with trace := x.trace ++
          [hw_effect.connect_external_te (x.has_intf_te && intf.connect_external_te) b] } := by
  unfold sde_encoder_phys_cmd_connect_te
  rw [hpp, hintf]
  dsimp only
  by_cases h1 : (x.has_intf_te && intf.connect_external_te) = true
  · rw [if_pos h1, h1]
  · rw [if_neg h1]
    have h2 : pp.connect_external_te = true := by
      cases hh : (x.has_intf_te && intf.connect_external_te)
      · rw [hh] at hte; simpa using hte
      · exact absurd hh h1
    rw [if_pos h2]
    have h3 : (x.has_intf_te && intf.connect_external_te) = false := by
      simpa using h1
    rw [h3]

theorem config_autorefresh_disable_eq (x : sde_encoder_phys) (pp : sde_hw_pingpong)
    (intf : sde_hw_intf) (hpp : x.hw_pp = some pp) (hintf : x.hw_intf = some intf)
    (hconn : x.connector = true) (hstate : x.conn_state = true)
    (hen : x.autorefresh_cfg.enable = true)
    (har : (x.has_intf_te && intf.setup_autorefresh || pp.setup_autorefresh) = true) :
    _sde_encoder_phys_cmd_config_autorefresh x 0 =
      { x with
        autorefresh_cfg := ⟨false, 0⟩
        trace := x.trace ++
          [hw_effect.setup_autorefresh (x.has_intf_te && intf.setup_autorefresh) ⟨false, 0⟩] } := by
  unfold _sde_encoder_phys_cmd_config_autorefresh
  rw [hpp, hintf]
  dsimp only
  rw [hconn, hstate, hen]
  simp only [Bool.not_true, Bool.or_self, Bool.false_eq_true, if_false, ne_eq, not_true_eq_false,
    decide_False]
  by_cases h1 : (x.has_intf_te && intf.setup_autorefresh) = true
  · rw [if_pos h1, h1]
  · rw [if_neg h1]
    have h3 : (x.has_intf_te && intf.setup_autorefresh) = false := by
      simpa using h1
    have h2 : pp.setup_autorefresh = true := by
      rw [h3] at har; simpa using har
    rw [if_pos h2, h3]

theorem is_autorefresh_enabled_master (s : sde_encoder_phys) (rd : autorefresh_read)
    (h : sde_encoder_phys_cmd_is_autorefresh_enabled s rd = true) :
    sde_encoder_phys_cmd_is_master s = true := by
  unfold sde_encoder_phys_cmd_is_autorefresh_enabled at h
  split at h
  · split at h
    · cases h
    · rename_i hm
      simpa using hm
  · cases h

/-- The encoder that `_sde_encoder_phys_disable_autorefresh` leaves when the
hardware reports autorefresh enabled and the blocks offer the TE connection
and the autorefresh programming. -/
theorem disable_autorefresh_result (s s' : sde_encoder_phys) (env : disable_autorefresh_env)
    (pp : sde_hw_pingpong) (intf : sde_hw_intf)
    (hpp : s.hw_pp = some pp) (hintf : s.hw_intf = some intf)
    (hconn : s.connector = true) (hstate : s.conn_state = true)
    (hon : sde_encoder_phys_cmd_is_autorefresh_enabled s env.autorefresh = true)
    (hen : s.autorefresh_cfg.enable = true)
    (hte : (s.has_intf_te && intf.connect_external_te || pp.connect_external_te) = true)
    (har : (s.has_intf_te && intf.setup_autorefresh || pp.setup_autorefresh) = true)
    (h : _sde_encoder_phys_disable_autorefresh s env = some s') :
    ∃ t e, s' = { s with
        trace := s.trace ++
          ([hw_effect.connect_external_te (s.has_intf_te && intf.connect_external_te) false,
            hw_effect.setup_autorefresh (s.has_intf_te && intf.setup_autorefresh) ⟨false, 0⟩] ++
            t ++
            [hw_effect.connect_external_te (s.has_intf_te && intf.connect_external_te) true])
        autorefresh_cfg := ⟨false, 0⟩
        autorefresh_disable_trans := true
        enable_state := e } ∧
      autorefresh_writes t = [] ∧
      ∀ w ∈ hw_writes t, w = hw_effect.check_and_reset_tearcheck := by
  unfold _sde_encoder_phys_disable_autorefresh at h
  rw [is_autorefresh_enabled_master s _ hon, hon] at h
  simp only [Bool.not_true, Bool.false_eq_true, if_false] at h
  rw [connect_te_eq s pp intf false hpp hintf hte] at h
  rw [config_autorefresh_disable_eq
    { s with trace := s.trace ++
      [hw_effect.connect_external_te (s.has_intf_te && intf.connect_external_te) false] }
    pp intf hpp hintf hconn hstate hen har] at h
  obtain ⟨s5, hs5, hlast⟩ := Option.map_eq_some'.mp h
  by_cases hseq : env.disable_seq1 = true
  · rw [if_pos hseq] at hs5
    split at hs5
    · cases hs5
    · rename_i s4 rest h1
      obtain ⟨r2, h2, hr2⟩ := Option.map_eq_some'.mp hs5
      obtain ⟨e, he⟩ := seq1_loop_result _ _ _ _ h1
      dsimp only at he
      rw [he] at h2
      obtain ⟨t, ht, ha, hw⟩ := seq2_result _ _ _ rfl h2
      refine ⟨t, e, ?_, ha, hw⟩
      rw [← hlast, ← hr2, ht]
      refine (connect_te_eq _ pp intf true (by exact hpp) (by exact hintf) (by exact hte)).trans ?_
      simp
  · rw [if_neg hseq] at hs5
    cases hs5
    refine ⟨[], s.enable_state, ?_, rfl, by simp [hw_writes]⟩
    rw [← hlast]
    refine (connect_te_eq _ pp intf true (by exact hpp) (by exact hintf) (by exact hte)).trans ?_
    simp

/-- Sequence 1 returns once the readings supplied cover its poll budget. -/
theorem seq1_loop_total (s : sde_encoder_phys) (readings : List Nat) (trial : Int)
    (ht : s.kickoff_timeout_ms ≤ 1000000) (h0 : 0 ≤ trial)
    (h1 : trial ≤ ((s.kickoff_timeout_ms / 2 + 1 : Nat) : Int))
    (hlen : ((s.kickoff_timeout_ms / 2 + 1 : Nat) : Int) ≤ trial + readings.length) :
    (autorefresh_disable_seq1_loop s trial readings).isSome = true := by
  induction readings generalizing trial with
  | nil =>
    unfold autorefresh_disable_seq1_loop
    split
    · rfl
    · rename_i hexit
      exfalso
      apply hexit
      simp only [List.length_nil, Nat.cast_zero, add_zero] at hlen
      unfold wrap_s32 AUTOREFRESH_SEQ1_POLL_TIME
      omega
  | cons x xs ih =>
    unfold autorefresh_disable_seq1_loop
    split
    · rfl
    · rename_i hexit
      dsimp only
      split
      · have hlt : trial < ((s.kickoff_timeout_ms / 2 + 1 : Nat) : Int) := by
          by_contra hge
          apply hexit
          unfold wrap_s32 AUTOREFRESH_SEQ1_POLL_TIME
          omega
        have hw : wrap_s32 (trial + 1) = trial + 1 := by
          unfold wrap_s32
          omega
        rw [hw]
        apply ih
        · omega
        · omega
        · simp only [List.length_cons, Nat.cast_add, Nat.cast_one] at hlen ⊢
          omega
      · rfl

/-- The loop of sequence 2 returns once the readings supplied cover its budget. -/
theorem seq2_loop_total (readings : List Nat) (s : sde_encoder_phys) (trial : Int)
    (status : Nat) (h0 : 0 ≤ trial) (h1 : trial ≤ 41)
    (hlen : (41 : Int) ≤ trial + readings.length) :
    (autorefresh_disable_seq2_loop s trial status readings).isSome = true := by
  induction readings generalizing s trial status with
  | nil =>
    unfold autorefresh_disable_seq2_loop
    split
    · rfl
    · dsimp only
      split
      · rfl
      · rename_i hexit
        exfalso
        apply hexit
        simp only [List.length_nil, Nat.cast_zero, add_zero] at hlen
        unfold wrap_s32 AUTOREFRESH_SEQ2_POLL_TIME AUTOREFRESH_SEQ2_POLL_TIMEOUT
        omega
  | cons x xs ih =>
    unfold autorefresh_disable_seq2_loop
    split
    · rfl
    · dsimp only
      split
      · rfl
      · rename_i hexit
        have hlt : trial < 41 := by
          by_contra hge
          apply hexit
          unfold wrap_s32 AUTOREFRESH_SEQ2_POLL_TIME AUTOREFRESH_SEQ2_POLL_TIMEOUT
          omega
        have hw : wrap_s32 (trial + 1) = trial + 1 := by
          unfold wrap_s32
          omega
        rw [hw]
        apply ih
        · omega
        · omega
        · simp only [List.length_cons, Nat.cast_add, Nat.cast_one] at hlen ⊢
          omega

theorem seq2_total (readings : List Nat) (s : sde_encoder_phys)
    (hintf : s.hw_intf.isSome = true) (hlen : 43 ≤ readings.length) :
    (_sde_encoder_autorefresh_disable_seq2 s readings).isSome = true := by
  unfold _sde_encoder_autorefresh_disable_seq2
  split
  · rfl
  · cases hi : s.hw_intf with
    | none => rw [hi] at hintf; cases hintf
    | some intf =>
      dsimp only
      split
      · rfl
      · match readings, hlen with
        | first :: second :: rest, hlen =>
          dsimp only
          simp only [List.length_cons] at hlen
          split
          · exact seq2_loop_total rest s 0 second (le_refl _) (by decide) (by omega)
          · exact seq2_loop_total (second :: rest) s 0 first (le_refl _) (by decide)
              (by simp only [List.length_cons, Nat.cast_add, Nat.cast_one]; omega)

theorem disable_autorefresh_total (s : sde_encoder_phys) (env : disable_autorefresh_env)
    (_ : s.hw_pp.isSome = true) (hintf : s.hw_intf.isSome = true)
    (h : env.disable_seq1 = false ∨
      (s.kickoff_timeout_ms ≤ 1000000 ∧
        s.kickoff_timeout_ms / 2 + 1 ≤ env.wr_ptr_line_counts.length ∧
        43 ≤ env.autorefresh_statuses.length)) :
    (_sde_encoder_phys_disable_autorefresh s env).isSome = true := by
  have hte : ∀ x b, (sde_encoder_phys_cmd_connect_te x b).hw_pp = x.hw_pp ∧
      (sde_encoder_phys_cmd_connect_te x b).hw_intf = x.hw_intf ∧
      (sde_encoder_phys_cmd_connect_te x b).kickoff_timeout_ms = x.kickoff_timeout_ms := by
    intro x b
    unfold sde_encoder_phys_cmd_connect_te
    repeat' split
    all_goals exact ⟨rfl, rfl, rfl⟩
  have hcf : ∀ x n, (_sde_encoder_phys_cmd_config_autorefresh x n).hw_pp = x.hw_pp ∧
      (_sde_encoder_phys_cmd_config_autorefresh x n).hw_intf = x.hw_intf ∧
      (_sde_encoder_phys_cmd_config_autorefresh x n).kickoff_timeout_ms =
        x.kickoff_timeout_ms := by
    intro x n
    rcases config_autorefresh_cases x n with h | ⟨_, t, _, h⟩ <;> rw [h] <;>
      exact ⟨rfl, rfl, rfl⟩
  unfold _sde_encoder_phys_disable_autorefresh
  split
  · rfl
  · split
    · rfl
    · dsimp only
      rw [Option.isSome_map']
      rcases h with h | ⟨ht, hl1, hl2⟩
      · rw [h]
        rfl
      · generalize hs2 : _sde_encoder_phys_cmd_config_autorefresh
          (sde_encoder_phys_cmd_connect_te s false) 0 = s2
        have hs2pp : s2.hw_pp = s.hw_pp := by
          rw [← hs2, (hcf _ _).1, (hte _ _).1]
        have hs2intf : s2.hw_intf = s.hw_intf := by
          rw [← hs2, (hcf _ _).2.1, (hte _ _).2.1]
        have hs2t : s2.kickoff_timeout_ms = s.kickoff_timeout_ms := by
          rw [← hs2, (hcf _ _).2.2, (hte _ _).2.2]
        split
        · have h1 := seq1_loop_total { s2 with autorefresh_disable_trans := true }
            env.wr_ptr_line_counts 0
            (by rw [← hs2t] at ht; exact ht) (le_refl _)
            (by simp only [Nat.cast_add, Nat.cast_one]; omega)
            (by
              show ((s2.kickoff_timeout_ms / 2 + 1 : Nat) : Int) ≤ _
              rw [hs2t]
              omega)
          unfold _sde_encoder_autorefresh_disable_seq1
          split
          · rename_i hnone
            rw [hnone] at h1
            cases h1
          · rename_i s4 rest hsome
            rw [Option.isSome_map']
            obtain ⟨e, he⟩ := seq1_loop_result _ _ _ _ hsome
            dsimp only at he
            rw [he]
            exact seq2_total _ _ (by rw [← hs2intf] at hintf; exact hintf) hl2
        · rfl

/-- C13 (as amended): the autorefresh-disable scenario on an encoder whose
block in charge offers `connect_external_te` and `setup_autorefresh`.  With all
handles present, the hardware reporting autorefresh enabled (which includes
that the encoder is a master) and the cached config {enabled, 30},
`_sde_encoder_phys_disable_autorefresh` returns when sequence 1 is not selected
or the readings supplied cover the poll budgets; the calls it adds have
`connect_external_te(false)` as first and `connect_external_te(true)` as last
hardware write and exactly one autorefresh write, of the config {disabled, 0};
the cached config is {disabled, 0} and `autorefresh_disable_trans` is set
afterwards; and a ctl-done or pp-done interrupt run next clears the flag. -/
theorem disable_autorefresh_scenario (s : sde_encoder_phys) (env : disable_autorefresh_env)
    (pp : sde_hw_pingpong) (intf : sde_hw_intf)
    (hpp : s.hw_pp = some pp) (hintf : s.hw_intf = some intf)
    (hctl : s.hw_ctl.isSome = true)
    (hconn : s.connector = true) (hstate : s.conn_state = true)
    (hon : sde_encoder_phys_cmd_is_autorefresh_enabled s env.autorefresh = true)
    (hcfg : s.autorefresh_cfg = ⟨true, 30⟩)
    (hte : (s.has_intf_te && intf.connect_external_te || pp.connect_external_te) = true)
    (har : (s.has_intf_te && intf.setup_autorefresh || pp.setup_autorefresh) = true) :
    ((env.disable_seq1 = false ∨
        (s.kickoff_timeout_ms ≤ 1000000 ∧
          s.kickoff_timeout_ms / 2 + 1 ≤ env.wr_ptr_line_counts.length ∧
          43 ≤ env.autorefresh_statuses.length)) →
      (_sde_encoder_phys_disable_autorefresh s env).isSome = true) ∧
    ∀ s', _sde_encoder_phys_disable_autorefresh s env = some s' →
      ∃ t on_intf, s'.trace = s.trace ++ t ∧
        (hw_writes t).head? = some (hw_effect.connect_external_te on_intf false) ∧
        (hw_writes t).getLast? = some (hw_effect.connect_external_te on_intf true) ∧
        autorefresh_writes t = [⟨false, 0⟩] ∧
        s'.autorefresh_cfg = ⟨false, 0⟩ ∧
        s'.autorefresh_disable_trans = true ∧
        (sde_encoder_phys_cmd_ctl_done_irq s').map (fun x => x.autorefresh_disable_trans) =
          some false ∧
        (sde_encoder_phys_cmd_pp_tx_done_irq s').map (fun x => x.autorefresh_disable_trans) =
          some false := by
  refine ⟨disable_autorefresh_total s env (by rw [hpp]; rfl) (by rw [hintf]; rfl), ?_⟩
  intro s' h
  obtain ⟨t, e, hs', ha, hw⟩ := disable_autorefresh_result s s' env pp intf hpp hintf hconn
    hstate hon (by rw [hcfg]) hte har h
  have hdone : ∀ x : sde_encoder_phys, x.hw_ctl.isSome = true → x.hw_pp.isNone = false →
      (_sde_encoder_phys_signal_frame_done x).map (fun y => y.autorefresh_disable_trans) =
        some false := by
    intro x hx hxp
    unfold _sde_encoder_phys_signal_frame_done
    cases hc : x.hw_ctl with
    | none => rw [hc] at hx; cases hx
    | some ctl =>
      dsimp only
      repeat' split
      all_goals simp_all
  have hctl' : s'.hw_ctl.isSome = true := by rw [hs']; exact hctl
  have hpp' : s'.hw_pp.isNone = false := by rw [hs']; show s.hw_pp.isNone = false; rw [hpp]; rfl
  refine ⟨[hw_effect.connect_external_te (s.has_intf_te && intf.connect_external_te) false,
      hw_effect.setup_autorefresh (s.has_intf_te && intf.setup_autorefresh) ⟨false, 0⟩] ++ t ++
      [hw_effect.connect_external_te (s.has_intf_te && intf.connect_external_te) true],
    s.has_intf_te && intf.connect_external_te,
    by rw [hs'], ?_, ?_, ?_, by rw [hs'], by rw [hs'], ?_, ?_⟩
  · rfl
  · have happ : ∀ a b : List hw_effect, hw_writes (a ++ b) = hw_writes a ++ hw_writes b :=
      fun a b => List.filter_append a b
    rw [happ]
    exact List.getLast?_concat _
  · simp [autorefresh_writes, List.filterMap_append, List.filterMap_cons] at ha ⊢
    exact ha
  · exact hdone s' hctl' hpp'
  · unfold sde_encoder_phys_cmd_pp_tx_done_irq
    rw [hpp']
    exact hdone s' hctl' hpp'

/-- C13 (as amended), on a run with both polling sequences. -/
theorem disable_autorefresh_scenario_witness :
    _sde_encoder_phys_disable_autorefresh autorefresh_30_running autorefresh_reported_on =
      some autorefresh_30_disabled ∧
    ∃ t on_intf, autorefresh_30_disabled.trace = autorefresh_30_running.trace ++ t ∧
      (hw_writes t).head? = some (hw_effect.connect_external_te on_intf false) ∧
      (hw_writes t).getLast? = some (hw_effect.connect_external_te on_intf true) ∧
      autorefresh_writes t = [⟨false, 0⟩] ∧
      autorefresh_30_disabled.autorefresh_cfg = ⟨false, 0⟩ ∧
      autorefresh_30_disabled.autorefresh_disable_trans = true ∧
      (sde_encoder_phys_cmd_ctl_done_irq autorefresh_30_disabled).map
        (fun x => x.autorefresh_disable_trans) = some false ∧
      (sde_encoder_phys_cmd_pp_tx_done_irq autorefresh_30_disabled).map
        (fun x => x.autorefresh_disable_trans) = some false :=
  ⟨by decide, (disable_autorefresh_scenario autorefresh_30_running autorefresh_reported_on
    {} {} rfl rfl (by decide) rfl rfl (by decide) rfl (by decide) (by decide)).2
    autorefresh_30_disabled (by decide)⟩

/-- C13 (as stated) fails: on a master encoder with all handles present, the
hardware reporting autorefresh enabled and the cached config {enabled, 30},
but neither block offering `connect_external_te`, the only hardware write of
`_sde_encoder_phys_disable_autorefresh` is the autorefresh programming; no
`connect_external_te` is issued. -/
theorem disable_autorefresh_without_te_connect :
    sde_encoder_phys_cmd_is_master autorefresh_30_no_te_connect = true ∧
    sde_encoder_phys_cmd_is_autorefresh_enabled autorefresh_30_no_te_connect
      autorefresh_reported_on.autorefresh = true ∧
    autorefresh_30_no_te_connect.autorefresh_cfg = ⟨true, 30⟩ ∧
    (_sde_encoder_phys_disable_autorefresh autorefresh_30_no_te_connect
        autorefresh_reported_on).map (fun s => hw_writes s.trace) =
      some [hw_effect.setup_autorefresh true ⟨false, 0⟩,
        hw_effect.check_and_reset_tearcheck] := by
  decide

/-! ## The enable state -/

theorem update_flush_mask_enable_state (s : sde_encoder_phys) :
    (_sde_encoder_phys_cmd_update_flush_mask s).enable_state = s.enable_state := by
  unfold _sde_encoder_phys_cmd_update_flush_mask
  repeat' split
  all_goals rfl

theorem update_intf_cfg_enable_state (s : sde_encoder_phys) :
    (_sde_encoder_phys_cmd_update_intf_cfg s).enable_state = s.enable_state := by
  unfold _sde_encoder_phys_cmd_update_intf_cfg
  repeat' split
  all_goals rfl

theorem tearcheck_config_returns (s : sde_encoder_phys) (env : enable_env)
    (hq : env.tearcheck.qsync_mode ≠ .SDE_RM_QSYNC_CONTINUOUS_MODE)
    (hprod : s.vtotal * env.tearcheck.default_fps < 2 ^ 31) :
    (sde_encoder_phys_cmd_tearcheck_config s env).isSome = true := by
  have hthr : (_get_tearcheck_threshold s env.tearcheck).isSome = true := by
    unfold _get_tearcheck_threshold
    rw [if_pos hq]
    split <;> rfl
  have hdiv : ¬ (wrap_u32 (env.vsync_clk_rate : Int) = 0 ∨ s.vtotal = 0 ∨
        wrap_s32 (env.tearcheck.default_fps : Int) = 0) →
      wrap_u32 (wrap_s32 ((s.vtotal : Int) * wrap_s32 (env.tearcheck.default_fps : Int))) ≠
        0 := by
    intro hz hd
    have hv : s.vtotal ≠ 0 := fun h => hz (Or.inr (Or.inl h))
    have hfl : env.tearcheck.default_fps < 2 ^ 31 :=
      calc env.tearcheck.default_fps ≤ s.vtotal * env.tearcheck.default_fps :=
            Nat.le_mul_of_pos_left _ (Nat.pos_of_ne_zero hv)
        _ < 2 ^ 31 := hprod
    have hf : wrap_s32 (env.tearcheck.default_fps : Int) = env.tearcheck.default_fps := by
      unfold wrap_s32; omega
    rw [hf] at hd
    have hf0 : env.tearcheck.default_fps ≠ 0 := by
      intro h
      apply hz
      right; right
      rw [hf]
      exact_mod_cast h
    have hp : ((s.vtotal * env.tearcheck.default_fps : Nat) : Int) < 2 ^ 31 := by
      exact_mod_cast hprod
    have hpos : 0 < s.vtotal * env.tearcheck.default_fps :=
      Nat.mul_pos (Nat.pos_of_ne_zero hv) (Nat.pos_of_ne_zero hf0)
    have hpos2 : (0 : Int) < ((s.vtotal * env.tearcheck.default_fps : Nat) : Int) := by
      exact_mod_cast hpos
    push_cast at hp hpos2
    generalize (s.vtotal : Int) * (env.tearcheck.default_fps : Int) = p at *
    unfold wrap_u32 wrap_s32 at hd
    omega
  unfold sde_encoder_phys_cmd_tearcheck_config
  cases ht : _get_tearcheck_threshold s env.tearcheck with
  | none => rw [ht] at hthr; cases hthr
  | some tc =>
    split
    · dsimp only
      split_ifs
      all_goals first
        | rfl
        | (rename_i h3 h4; exact absurd h4 (hdiv h3))
    · rfl

theorem update_intf_cfg_vtotal (s : sde_encoder_phys) :
    (_sde_encoder_phys_cmd_update_intf_cfg s).vtotal = s.vtotal := by
  unfold _sde_encoder_phys_cmd_update_intf_cfg
  repeat' split
  all_goals rfl

theorem enable_returns (s : sde_encoder_phys) (env : enable_env)
    (hq : env.tearcheck.qsync_mode ≠ .SDE_RM_QSYNC_CONTINUOUS_MODE)
    (hprod : s.vtotal * env.tearcheck.default_fps < 2 ^ 31) :
    (sde_encoder_phys_cmd_enable s env).isSome = true := by
  unfold sde_encoder_phys_cmd_enable
  split
  · rfl
  · split
    · rfl
    · rw [Option.isSome_map']
      unfold sde_encoder_phys_cmd_enable_helper
      split
      · have hpc : (_sde_encoder_phys_cmd_pingpong_config
            { s with trace := s.trace ++ [hw_effect.split_config] } env).isSome = true := by
          unfold _sde_encoder_phys_cmd_pingpong_config
          split
          · rfl
          · apply tearcheck_config_returns _ _ hq
            dsimp only
            split
            · rw [update_intf_cfg_vtotal]; exact hprod
            · exact hprod
        dsimp only
        cases hc : _sde_encoder_phys_cmd_pingpong_config
            { s with trace := s.trace ++ [hw_effect.split_config] } env with
        | none => rw [hc] at hpc; cases hpc
        | some s2 =>
          have hif : ∀ (c : Prop) [Decidable c] (a b : sde_encoder_phys),
              (if c then some a else some b).isSome = true := by
            intro c _ a b
            split <;> rfl
          exact hif _ _ _
      · rfl

theorem enable_guarded (s : sde_encoder_phys) (env : enable_env)
    (h : s.hw_pp.isNone = true ∨ s.enable_state = .SDE_ENC_ENABLED) :
    sde_encoder_phys_cmd_enable s env = some s := by
  unfold sde_encoder_phys_cmd_enable
  split
  · rfl
  · split
    · rfl
    · rename_i h1 h2
      rcases h with h | h
      · exact absurd h h1
      · exact absurd h h2

theorem enable_reaches_enabled (s s' : sde_encoder_phys) (env : enable_env)
    (hpp : s.hw_pp.isSome = true) (hne : s.enable_state ≠ .SDE_ENC_ENABLED)
    (h : sde_encoder_phys_cmd_enable s env = some s') :
    s'.enable_state = .SDE_ENC_ENABLED := by
  unfold sde_encoder_phys_cmd_enable at h
  split at h
  · rename_i h1
    cases hq : s.hw_pp
    · rw [hq] at hpp; cases hpp
    · rw [hq] at h1; cases h1
  · obtain ⟨s1, _, hs1⟩ := Option.map_eq_some'.mp h
    rw [← hs1]

theorem disable_guarded (s : sde_encoder_phys) (in_trusted_vm : Bool)
    (h : s.hw_pp.isNone = true ∨ s.hw_intf.isNone = true ∨
      s.enable_state = .SDE_ENC_DISABLED) :
    sde_encoder_phys_cmd_disable s in_trusted_vm = s := by
  unfold sde_encoder_phys_cmd_disable
  split
  · split
    · rfl
    · rename_i hp hi hne
      rcases h with h | h | h
      · rw [hp] at h; cases h
      · rw [hi] at h; cases h
      · exact absurd h hne
  · rfl

theorem disable_reaches_disabled (s : sde_encoder_phys) (in_trusted_vm : Bool)
    (hpp : s.hw_pp.isSome = true) (hintf : s.hw_intf.isSome = true)
    (hne : s.enable_state ≠ .SDE_ENC_DISABLED) :
    (sde_encoder_phys_cmd_disable s in_trusted_vm).enable_state = .SDE_ENC_DISABLED := by
  unfold sde_encoder_phys_cmd_disable
  split
  · rw [if_neg hne]
  · rename_i hx
    cases hp : s.hw_pp with
    | none => rw [hp] at hpp; cases hpp
    | some pp =>
      cases hi : s.hw_intf with
      | none => rw [hi] at hintf; cases hintf
      | some intf => exact absurd hi (hx pp intf hp)

theorem handle_framedone_timeout_state_eq (s : sde_encoder_phys)
    (env : framedone_timeout_env) :
    (_sde_encoder_phys_cmd_handle_framedone_timeout s env).2.enable_state =
      (if s.hw_pp.isSome = true ∧ s.hw_ctl.isSome = true ∧ s.pending_kickoff_cnt ≠ 0 ∧
          env.esd_status = 0 then .SDE_ENC_ERR_NEEDS_HW_RESET
       else s.enable_state) := by
  unfold _sde_encoder_phys_cmd_handle_framedone_timeout atomic_add_unless
  cases hp : s.hw_pp <;> cases hc : s.hw_ctl <;>
    by_cases h0 : s.pending_kickoff_cnt = 0 <;> by_cases he : env.esd_status = 0 <;>
    simp [h0, he] <;> (repeat' split) <;> rfl

theorem cont_splash_mode_set_state (s : sde_encoder_phys) (mode : drm_display_mode)
    (cfg : sde_hw_autorefresh) :
    (sde_encoder_phys_cmd_cont_splash_mode_set s (some mode) cfg).enable_state =
      .SDE_ENC_ENABLED := by
  unfold sde_encoder_phys_cmd_cont_splash_mode_set
  dsimp only
  repeat' split
  all_goals rfl

theorem seq1_state (s : sde_encoder_phys) (readings : List Nat)
    (r : sde_encoder_phys × List Nat)
    (h : _sde_encoder_autorefresh_disable_seq1 s readings = some r) :
    r.1 = s ∨ r.1 = { s with enable_state := .SDE_ENC_ERR_NEEDS_HW_RESET } := by
  unfold _sde_encoder_autorefresh_disable_seq1 at h
  generalize (0 : Int) = trial at h
  induction readings generalizing trial with
  | nil =>
    unfold autorefresh_disable_seq1_loop at h
    split at h
    · cases h; exact Or.inr rfl
    · cases h
  | cons x xs ih =>
    unfold autorefresh_disable_seq1_loop at h
    split at h
    · cases h; exact Or.inr rfl
    · dsimp only at h
      split at h
      · exact ih _ h
      · cases h; exact Or.inl rfl

/-- C16 (as amended): how the operations of this file move `enable_state`.
Enable returns the encoder unchanged when it has no pingpong block or is
already enabled; otherwise every encoder it returns, from `DISABLED` as well as
from `ERR_NEEDS_HW_RESET`, is in `ENABLED`, and it does return when qsync is
not in continuous mode and `vtotal * fps` is below `2^31` (no zero divisor in
the tear-check configuration).  Disable returns the encoder unchanged when the
pingpong or the interface block is missing or it is already disabled, and
otherwise ends in `DISABLED`.  The continuous-splash mode set ends in
`ENABLED` from every state, and does nothing without a mode.  The
framedone-timeout handler sets `ERR_NEEDS_HW_RESET` exactly when the pingpong
block and the controller are attached, a frame is pending and the ESD status
read is 0, whatever the state was, and leaves `enable_state` as it was
otherwise.  Autorefresh disable sequence 1 returns the encoder as it was or
with `enable_state` set to `ERR_NEEDS_HW_RESET` and nothing else changed,
whatever the state was. -/
theorem enable_state_transitions (s : sde_encoder_phys) :
    (∀ env, s.hw_pp.isNone = true ∨ s.enable_state = .SDE_ENC_ENABLED →
      sde_encoder_phys_cmd_enable s env = some s) ∧
    (∀ env s', s.hw_pp.isSome = true → s.enable_state ≠ .SDE_ENC_ENABLED →
      sde_encoder_phys_cmd_enable s env = some s' →
        s'.enable_state = .SDE_ENC_ENABLED) ∧
    (∀ env, env.tearcheck.qsync_mode ≠ .SDE_RM_QSYNC_CONTINUOUS_MODE →
      s.vtotal * env.tearcheck.default_fps < 2 ^ 31 →
        (sde_encoder_phys_cmd_enable s env).isSome = true) ∧
    (∀ in_trusted_vm, s.hw_pp.isNone = true ∨ s.hw_intf.isNone = true ∨
        s.enable_state = .SDE_ENC_DISABLED →
      sde_encoder_phys_cmd_disable s in_trusted_vm = s) ∧
    (∀ in_trusted_vm, s.hw_pp.isSome = true → s.hw_intf.isSome = true →
      s.enable_state ≠ .SDE_ENC_DISABLED →
        (sde_encoder_phys_cmd_disable s in_trusted_vm).enable_state = .SDE_ENC_DISABLED) ∧
    (∀ mode cfg, (sde_encoder_phys_cmd_cont_splash_mode_set s (some mode) cfg).enable_state =
      .SDE_ENC_ENABLED) ∧
    (∀ cfg, sde_encoder_phys_cmd_cont_splash_mode_set s none cfg = s) ∧
    (∀ env, (_sde_encoder_phys_cmd_handle_framedone_timeout s env).2.enable_state =
      (if s.hw_pp.isSome = true ∧ s.hw_ctl.isSome = true ∧ s.pending_kickoff_cnt ≠ 0 ∧
          env.esd_status = 0 then .SDE_ENC_ERR_NEEDS_HW_RESET
       else s.enable_state)) ∧
    (∀ readings r, _sde_encoder_autorefresh_disable_seq1 s readings = some r →
      r.1 = s ∨ r.1 = { s with enable_state := .SDE_ENC_ERR_NEEDS_HW_RESET }) :=
  ⟨fun env h => enable_guarded s env h,
    fun env s' hpp hne h => enable_reaches_enabled s s' env hpp hne h,
    fun env hq hprod => enable_returns s env hq hprod,
    fun vm h => disable_guarded s vm h,
    fun vm hpp hintf hne => disable_reaches_disabled s vm hpp hintf hne,
    fun mode cfg => cont_splash_mode_set_state s mode cfg,
    fun _ => rfl, fun env => handle_framedone_timeout_state_eq s env,
    fun readings r h => seq1_state s readings r h⟩

/-- C16 (as amended), on a run: enable on an encoder marked for a hardware reset. -/
theorem enable_state_transitions_witness :
    sde_encoder_phys_cmd_enable encoder_needs_hw_reset enable_plain =
      some { encoder_needs_hw_reset with
        enable_state := .SDE_ENC_ENABLED
        trace := [.split_config, .setup_intf_cfg, .enable_compressed_input false,
          .enable_wide_bus false, .update_bitmask_intf] } ∧
    ({ encoder_needs_hw_reset with
        enable_state := .SDE_ENC_ENABLED
        trace := [.split_config, .setup_intf_cfg, .enable_compressed_input false,
          .enable_wide_bus false, .update_bitmask_intf] } : sde_encoder_phys).enable_state =
      .SDE_ENC_ENABLED ∧
    (sde_encoder_phys_cmd_enable encoder_needs_hw_reset enable_plain).isSome = true :=
  ⟨by decide,
    (enable_state_transitions encoder_needs_hw_reset).2.1 enable_plain _ rfl (by decide)
      (by decide),
    (enable_state_transitions encoder_needs_hw_reset).2.2.1 enable_plain (by decide)
      (by decide)⟩

/-- C16 (as stated) fails: enable takes an encoder in `ERR_NEEDS_HW_RESET`
directly to `ENABLED`, and the framedone-timeout handler takes a disabled
encoder that still has a frame pending to `ERR_NEEDS_HW_RESET`. -/
theorem enable_state_leaves_reset_by_enable :
    encoder_needs_hw_reset.enable_state = .SDE_ENC_ERR_NEEDS_HW_RESET ∧
    (sde_encoder_phys_cmd_enable encoder_needs_hw_reset enable_plain).map
      (fun s => s.enable_state) = some .SDE_ENC_ENABLED ∧
    disabled_one_frame_pending.enable_state = .SDE_ENC_DISABLED ∧
    (_sde_encoder_phys_cmd_handle_framedone_timeout disabled_one_frame_pending
      panel_alive).2.enable_state = .SDE_ENC_ERR_NEEDS_HW_RESET := by
  decide

/-! ## Prepare-for-kickoff in a round that waits for idle -/

theorem wait_for_idle_default_waiting (s : sde_encoder_phys) (env : wait_for_idle_env)
    (hm : s.frame_trigger_mode = .FRAME_DONE_WAIT_DEFAULT)
    (h1 : (env.ctl_done_support && !sde_encoder_phys_cmd_is_master s) = false)
    (h2 : _sde_encoder_phys_is_ppsplit_slave s env.is_ppsplit = false) :
    _sde_encoder_phys_cmd_wait_for_idle s env =
      some (env.wait.ret,
        if env.wait.ret = -ETIMEDOUT then
          (_sde_encoder_phys_cmd_handle_framedone_timeout (run_irqs s env.wait.irqs)
            env.timeout).2
        else run_irqs s env.wait.irqs) := by
  unfold _sde_encoder_phys_cmd_wait_for_idle
  have hn1 : s.frame_trigger_mode ≠ .FRAME_DONE_WAIT_POSTED_START := by rw [hm]; decide
  have hn2 : (run_irqs s env.wait.irqs).frame_trigger_mode ≠ .FRAME_DONE_WAIT_POSTED_START := by
    rw [run_irqs_trigger_mode, hm]; decide
  rw [h1, h2, is_scheduler_idle_not_posted s _ hn1]
  simp only [Bool.false_eq_true, if_false]
  by_cases ht : env.wait.ret = -ETIMEDOUT
  · rw [if_pos ht, if_pos ht, is_scheduler_idle_not_posted _ _ hn2]
  · rw [if_neg ht, if_neg ht]

theorem prepare_tail_counter (s1 : sde_encoder_phys) (st : Nat) (w : irq_wait)
    (h0 : 0 ≤ s1.pending_kickoff_cnt) (h1 : s1.pending_kickoff_cnt ≤ 1) :
    0 ≤ (if s1.cont_splash_enabled then
        _sde_encoder_phys_wait_for_vsync_on_autorefresh_busy s1 st w
      else s1).pending_kickoff_cnt ∧
    (if s1.cont_splash_enabled then
        _sde_encoder_phys_wait_for_vsync_on_autorefresh_busy s1 st w
      else s1).pending_kickoff_cnt ≤ s1.pending_kickoff_cnt := by
  split
  · have hrel := wait_for_vsync_on_autorefresh_busy_rel s1 st w h0
      (by unfold INT_MAX; omega)
    exact ⟨hrel.1, hrel.2.1⟩
  · exact ⟨h0, le_refl _⟩

/-- C18 (as stated) fails: in posted-start mode, without a pingpong block
prepare-for-kickoff returns `-EINVAL`, not 0; and in the continuous-splash path
it waits for a vblank while autorefresh is busy, so a completion interrupt that
arrives meanwhile takes the counter from 2 to 1 before the call returns. -/
theorem prepare_for_kickoff_without_pingpong :
    sde_encoder_phys_cmd_prepare_for_kickoff one_frame_pending_no_pp
      ⟨.FRAME_DONE_WAIT_POSTED_START⟩ idle_wait_times_out =
        some (-EINVAL, one_frame_pending_no_pp) ∧
    -EINVAL ≠ 0 ∧
    (sde_encoder_phys_cmd_prepare_for_kickoff two_frames_posted_splash
      ⟨.FRAME_DONE_WAIT_POSTED_START⟩ vblank_wait_sees_completion).map
        (fun r => (r.1, r.2.pending_kickoff_cnt)) = some (0, 1) := by
  decide

/-! ## The recovered flag -/

theorem signal_frame_done_recovered (s s' : sde_encoder_phys)
    (h : _sde_encoder_phys_signal_frame_done s = some s') :
    s'.recovered =
      (s.recovered || (s.hw_ctl.isSome && s.handle_frame_done &&
        decide (s.pending_kickoff_cnt ≠ 0) &&
        decide (s.frame_tx_timeout_report_cnt ≠ 0))) := by
  unfold _sde_encoder_phys_signal_frame_done atomic_add_unless at h
  cases hc : s.hw_ctl with
  | none =>
    rw [hc] at h
    cases h
    simp
  | some ctl =>
    rw [hc] at h
    dsimp only at h
    repeat' split at h
    all_goals simp_all
    all_goals subst h
    all_goals simp_all

/-- C24 (as amended): a frame-done completion interrupt that returns leaves the
recovered flag set exactly when it was set before or the interrupt retired a
frame (the controller is attached, `handle_frame_done` is registered and the
counter was nonzero, so the decrement was made) after a timeout had been
recorded (timeout-report counter nonzero); whether other frames remain
outstanding plays no part.  The pp-done interrupt always returns, and retires
a frame only with the pingpong block attached; the ctl-done interrupt returns
unless the controller is attached and the pingpong block is not, in which case
it faults on `hw_pp->idx`. -/
theorem recovered_marking (s : sde_encoder_phys) :
    (sde_encoder_phys_cmd_ctl_done_irq s = none ↔
      s.hw_ctl.isSome = true ∧ s.hw_pp.isNone = true) ∧
    (∀ s', sde_encoder_phys_cmd_ctl_done_irq s = some s' →
      (s'.recovered = true ↔
        s.recovered = true ∨
          (s.hw_ctl.isSome = true ∧ s.handle_frame_done = true ∧
            s.pending_kickoff_cnt ≠ 0 ∧ s.frame_tx_timeout_report_cnt ≠ 0))) ∧
    (sde_encoder_phys_cmd_pp_tx_done_irq s).isSome = true ∧
    (∀ s', sde_encoder_phys_cmd_pp_tx_done_irq s = some s' →
      (s'.recovered = true ↔
        s.recovered = true ∨
          (s.hw_pp.isSome = true ∧ s.hw_ctl.isSome = true ∧ s.handle_frame_done = true ∧
            s.pending_kickoff_cnt ≠ 0 ∧ s.frame_tx_timeout_report_cnt ≠ 0))) := by
  refine ⟨signal_frame_done_faults s, ?_, pp_tx_done_irq_returns s, ?_⟩
  · intro s' hs
    rw [signal_frame_done_recovered s s' hs]
    simp [and_assoc]
  · intro s' hs
    rcases pp_tx_done_irq_some s s' hs with ⟨hp, hss⟩ | ⟨hp, hsig⟩
    · subst hss
      cases hq : s'.hw_pp
      · simp
      · rw [hq] at hp; cases hp
    · rw [signal_frame_done_recovered s s' hsig]
      simp [and_assoc, hp]

/-- C24 (as stated) fails: with two frames outstanding and a timeout recorded,
a ctl-done interrupt sets the recovered flag although one frame is still
outstanding afterwards. -/
theorem recovered_set_with_frame_outstanding :
    two_frames_after_timeout.recovered = false ∧
    (sde_encoder_phys_cmd_ctl_done_irq two_frames_after_timeout).map
        (fun s => (s.pending_kickoff_cnt, s.recovered)) = some (1, true) := by
  decide

/-! ## A change of the autorefresh frame count -/

theorem config_autorefresh_same_flag (s : sde_encoder_phys) (b : Nat)
    (h : s.autorefresh_cfg.enable = decide (b ≠ 0)) :
    _sde_encoder_phys_cmd_config_autorefresh s b = s := by
  unfold _sde_encoder_phys_cmd_config_autorefresh
  cases hp : s.hw_pp with
  | none => rfl
  | some pp =>
    cases hi : s.hw_intf with
    | none => rfl
    | some intf =>
      dsimp only
      split
      · rfl
      · rw [if_pos h.symm]

theorem config_autorefresh_flag_changes (s : sde_encoder_phys) (b : Nat)
    (hh : autorefresh_handles_present s)
    (h : s.autorefresh_cfg.enable ≠ decide (b ≠ 0)) :
    ∃ t, _sde_encoder_phys_cmd_config_autorefresh s b =
        { s with autorefresh_cfg := ⟨decide (b ≠ 0), b⟩, trace := s.trace ++ t } ∧
      ((offers_setup_autorefresh s = true ∧
          ∃ on_intf, t = [hw_effect.setup_autorefresh on_intf ⟨decide (b ≠ 0), b⟩]) ∨
        (offers_setup_autorefresh s = false ∧ t = [])) := by
  obtain ⟨hpp, hintf, hc, hcs⟩ := hh
  unfold _sde_encoder_phys_cmd_config_autorefresh offers_setup_autorefresh
  cases hp : s.hw_pp with
  | none => rw [hp] at hpp; cases hpp
  | some pp =>
    cases hi : s.hw_intf with
    | none => rw [hi] at hintf; cases hintf
    | some intf =>
      dsimp only
      rw [hc, hcs]
      simp only [Bool.not_true, Bool.or_self, Bool.false_eq_true, if_false]
      rw [if_neg (fun e => h e.symm)]
      by_cases h1 : (s.has_intf_te && intf.setup_autorefresh) = true
      · rw [if_pos h1]
        exact ⟨_, rfl, Or.inl ⟨by rw [h1]; rfl, true, rfl⟩⟩
      · rw [if_neg h1]
        have h1' : (s.has_intf_te && intf.setup_autorefresh) = false := by simpa using h1
        by_cases h2 : pp.setup_autorefresh = true
        · rw [if_pos h2]
          exact ⟨_, rfl, Or.inl ⟨by rw [h1', h2]; rfl, false, rfl⟩⟩
        · rw [if_neg h2]
          have h2' : pp.setup_autorefresh = false := by simpa using h2
          exact ⟨[], by simp, Or.inr ⟨by rw [h1', h2']; rfl, rfl⟩⟩

/-- C29 (as amended): a change of the autorefresh frame count alone is not
programmed.  With the cached config enabled, a request for a nonzero frame
count returns the encoder as it was: no hardware write, cached frame count
kept.  After any call with all handles present the cached enabled flag equals
`requested frame count ≠ 0`; a hardware write occurs only when the enabled flag
changed, and with the handles present it does occur then, once and with the
requested config, exactly when the block in charge offers `setup_autorefresh`. -/
theorem config_autorefresh_frame_count_alone (s : sde_encoder_phys) (b : Nat) :
    (s.autorefresh_cfg.enable = true → b ≠ 0 →
      _sde_encoder_phys_cmd_config_autorefresh s b = s) ∧
    (autorefresh_handles_present s →
      (_sde_encoder_phys_cmd_config_autorefresh s b).autorefresh_cfg.enable =
        decide (b ≠ 0)) ∧
    (autorefresh_writes (_sde_encoder_phys_cmd_config_autorefresh s b).trace ≠
        autorefresh_writes s.trace →
      s.autorefresh_cfg.enable ≠ decide (b ≠ 0)) ∧
    (autorefresh_handles_present s → s.autorefresh_cfg.enable ≠ decide (b ≠ 0) →
      autorefresh_writes (_sde_encoder_phys_cmd_config_autorefresh s b).trace =
        autorefresh_writes s.trace ++
          (if offers_setup_autorefresh s then [⟨decide (b ≠ 0), b⟩] else [])) := by
  refine ⟨fun he hb => ?_, fun hh => ?_, fun hw hsame => ?_, fun hh hne => ?_⟩
  · exact config_autorefresh_same_flag s b (by rw [he]; simp [hb])
  · by_cases h : s.autorefresh_cfg.enable = decide (b ≠ 0)
    · rw [config_autorefresh_same_flag s b h, h]
    · obtain ⟨t, ht, _⟩ := config_autorefresh_flag_changes s b hh h
      rw [ht]
  · exact hw (by rw [config_autorefresh_same_flag s b hsame])
  · obtain ⟨t, ht, hcase⟩ := config_autorefresh_flag_changes s b hh hne
    rw [ht]
    rcases hcase with ⟨ho, on_intf, rfl⟩ | ⟨ho, rfl⟩
    · rw [ho]
      simp [autorefresh_writes, List.filterMap_append]
    · rw [ho]
      simp [autorefresh_writes]

theorem config_autorefresh_frame_count_alone_witness :
    (autorefresh_30.autorefresh_cfg.enable = true ∧ (60 : Nat) ≠ 0) ∧
    _sde_encoder_phys_cmd_config_autorefresh autorefresh_30 60 = autorefresh_30 ∧
    (_sde_encoder_phys_cmd_config_autorefresh autorefresh_30 60).autorefresh_cfg =
      ⟨true, 30⟩ ∧
    autorefresh_writes (_sde_encoder_phys_cmd_config_autorefresh idle_encoder 30).trace =
      autorefresh_writes idle_encoder.trace ++
        (if offers_setup_autorefresh idle_encoder then [⟨decide ((30 : Nat) ≠ 0), 30⟩]
          else []) :=
  ⟨by decide, (config_autorefresh_frame_count_alone autorefresh_30 60).1 rfl (by decide),
    by decide,
    (config_autorefresh_frame_count_alone idle_encoder 30).2.2.2 (by decide) (by decide)⟩

/-- C29 (as stated) fails: with all handles present but neither block offering
`setup_autorefresh`, a request for 30 frames on a disabled config changes the
cached enabled flag and no hardware write occurs. -/
theorem config_autorefresh_flag_change_without_write :
    autorefresh_handles_present idle_no_autorefresh_op ∧
    idle_no_autorefresh_op.autorefresh_cfg.enable = false ∧
    (_sde_encoder_phys_cmd_config_autorefresh idle_no_autorefresh_op 30).autorefresh_cfg =
      ⟨true, 30⟩ ∧
    hw_writes (_sde_encoder_phys_cmd_config_autorefresh idle_no_autorefresh_op 30).trace =
      [] := by
  decide

/-! ## Division safety of the tear-check threshold -/

/-- C28: the threshold computation is division-safe under the line-time
precondition.  For `0 < min_fps < nominal_fps` and
`0 < vtotal ≤ ⌊1,000,000,000 / nominal_fps⌋` the nominal per-line time
`⌊⌊1,000,000,000 / nominal_fps⌋ / vtotal⌋`, which is what the third `mult_frac`
computes, is nonzero, and `_get_tearcheck_threshold` returns a value (no
division has a zero divisor), whatever the mode, the jitter bounds and the
rest of the encoder are. -/
theorem tearcheck_threshold_division_safe (s : sde_encoder_phys) (env : tearcheck_env)
    (hmin : 0 < env.qsync_min_fps) (hlt : env.qsync_min_fps < env.default_fps)
    (hv : 0 < s.vtotal) (hline : s.vtotal ≤ 1000000000 / env.default_fps) :
    (1000000000 : Int) / env.default_fps / s.vtotal ≠ 0 ∧
    mult_frac 1 ((1000000000 : Int) / env.default_fps) s.vtotal =
      some ((1000000000 : Int) / env.default_fps / s.vtotal) ∧
    (_get_tearcheck_threshold s env).isSome = true := by
  have hd : (0 : Int) < env.default_fps := by omega
  have hvi : (0 : Int) < s.vtotal := by omega
  have hq : (0 : Int) ≤ (1000000000 : Int) / env.default_fps :=
    Int.ediv_nonneg (by decide) (le_of_lt hd)
  have hle : (s.vtotal : Int) ≤ (1000000000 : Int) / env.default_fps := by
    have : ((1000000000 / env.default_fps : Nat) : Int) =
        (1000000000 : Int) / env.default_fps := by
      push_cast
      rfl
    rw [← this]
    exact_mod_cast hline
  have hne : (1000000000 : Int) / env.default_fps / s.vtotal ≠ 0 := by
    have h1 : (1 : Int) ≤ (1000000000 : Int) / env.default_fps / s.vtotal :=
      Int.le_ediv_of_mul_le hvi (by omega)
    omega
  refine ⟨hne, mult_frac_one _ _ hq hvi, ?_⟩
  by_cases hc : s.connector = true ∧ s.conn_state = true ∧
      env.qsync_mode = .SDE_RM_QSYNC_CONTINUOUS_MODE ∧ s.get_qsync_fps = true
  · obtain ⟨h1, h2, h3, h4⟩ := hc
    rw [tearcheck_threshold_eq s env h1 h2 h3 h4 hmin hlt hv, Option.isSome_map']
    unfold mult_frac
    rw [if_neg hne]
    rfl
  · unfold _get_tearcheck_threshold
    by_cases h1 : (!s.connector || !s.conn_state) = true
    · rw [if_pos h1]; rfl
    · rw [if_neg h1]
      by_cases h3 : env.qsync_mode ≠ .SDE_RM_QSYNC_CONTINUOUS_MODE
      · rw [if_pos h3]; rfl
      · rw [if_neg h3]
        have h4 : s.get_qsync_fps = false := by
          cases hg : s.get_qsync_fps
          · rfl
          · exfalso
            apply hc
            refine ⟨?_, ?_, not_not.mp h3, hg⟩
            · cases hx : s.connector
              · rw [hx] at h1; simp at h1
              · rfl
            · cases hx : s.conn_state
              · rw [hx] at h1; simp at h1
              · rfl
        simp [h4]

theorem tearcheck_threshold_division_safe_witness :
    ((0 < qsync_60_of_90.qsync_min_fps ∧
        qsync_60_of_90.qsync_min_fps < qsync_60_of_90.default_fps) ∧
      0 < panel_2400.vtotal ∧ panel_2400.vtotal ≤ 1000000000 / qsync_60_of_90.default_fps) ∧
    (1000000000 : Int) / qsync_60_of_90.default_fps / panel_2400.vtotal = 4629 ∧
    ((1000000000 : Int) / qsync_60_of_90.default_fps / panel_2400.vtotal ≠ 0 ∧
      mult_frac 1 ((1000000000 : Int) / qsync_60_of_90.default_fps) panel_2400.vtotal =
        some ((1000000000 : Int) / qsync_60_of_90.default_fps / panel_2400.vtotal) ∧
      (_get_tearcheck_threshold panel_2400 qsync_60_of_90).isSome = true) :=
  ⟨by decide, by decide,
    tearcheck_threshold_division_safe panel_2400 qsync_60_of_90 (by decide) (by decide)
      (by decide) (by decide)⟩

/-! ## Autorefresh disable sequence 1 -/

theorem is_ongoing_pptx_eq (s : sde_encoder_phys) (r : Nat) :
    _sde_encoder_phys_cmd_is_ongoing_pptx s r =
      (reads_vsync_info s && decide (0 < r ∧ r < s.vdisplay)) := by
  unfold _sde_encoder_phys_cmd_is_ongoing_pptx reads_vsync_info
  dsimp only
  repeat' split
  all_goals simp_all

theorem seq1_loop_budget (s : sde_encoder_phys) (ht : s.kickoff_timeout_ms ≤ 1000000)
    (m : Nat) (readings : List Nat) (hm : m ≤ s.kickoff_timeout_ms / 2 + 1)
    (hlen : m ≤ readings.length) :
    ∃ k s', k ≤ m ∧
      autorefresh_disable_seq1_loop s (((s.kickoff_timeout_ms / 2 + 1 : Nat) : Int) - m)
        readings = some (s', readings.drop k) ∧
      ((∀ r ∈ readings.take m, _sde_encoder_phys_cmd_is_ongoing_pptx s r = true) →
        s' = { s with enable_state := .SDE_ENC_ERR_NEEDS_HW_RESET } ∧ k = m) ∧
      (¬ (∀ r ∈ readings.take m, _sde_encoder_phys_cmd_is_ongoing_pptx s r = true) →
        s' = s) := by
  induction m generalizing readings with
  | zero =>
    refine ⟨0, { s with enable_state := .SDE_ENC_ERR_NEEDS_HW_RESET }, le_refl _, ?_,
      fun _ => ⟨rfl, rfl⟩, fun h => absurd (by simp) h⟩
    unfold autorefresh_disable_seq1_loop
    rw [if_pos]
    · rfl
    · simp only [Nat.cast_zero, sub_zero]
      generalize ht' : ((s.kickoff_timeout_ms / 2 + 1 : Nat) : Int) = t
      have ht0 : 0 ≤ t := by omega
      have ht1 : t ≤ 500001 := by omega
      have ht2 : (s.kickoff_timeout_ms : Int) < 2 * t := by omega
      have hwr : wrap_s32 (t * AUTOREFRESH_SEQ1_POLL_TIME) = t * 2000 := by
        unfold wrap_s32 AUTOREFRESH_SEQ1_POLL_TIME
        omega
      rw [hwr]
      omega
  | succ m ih =>
    match readings, hlen with
    | r :: rest, hlen =>
      have hnot : ¬ (wrap_s32 ((((s.kickoff_timeout_ms / 2 + 1 : Nat) : Int) - (m + 1 : Nat)) *
          AUTOREFRESH_SEQ1_POLL_TIME) > (s.kickoff_timeout_ms : Int) * 1000) := by
        generalize ht' : ((s.kickoff_timeout_ms / 2 + 1 : Nat) : Int) - (m + 1 : Nat) = t
        have ht0 : 0 ≤ t := by omega
        have ht1 : t ≤ 500000 := by omega
        have ht2 : 2 * t ≤ s.kickoff_timeout_ms := by omega
        have hwr : wrap_s32 (t * AUTOREFRESH_SEQ1_POLL_TIME) = t * 2000 := by
          unfold wrap_s32 AUTOREFRESH_SEQ1_POLL_TIME
          omega
        rw [hwr]
        omega
      have hw : wrap_s32 ((((s.kickoff_timeout_ms / 2 + 1 : Nat) : Int) - (m + 1 : Nat)) + 1) =
          ((s.kickoff_timeout_ms / 2 + 1 : Nat) : Int) - m := by
        unfold wrap_s32
        omega
      unfold autorefresh_disable_seq1_loop
      rw [if_neg hnot]
      dsimp only
      by_cases ho : _sde_encoder_phys_cmd_is_ongoing_pptx s r = true
      · rw [if_pos ho, hw]
        obtain ⟨k, s', hk, hrun, hall, hsome⟩ := ih rest (by omega)
          (by simp only [List.length_cons] at hlen; omega)
        refine ⟨k + 1, s', by omega, by rw [hrun]; rfl, fun h => ?_, fun h => ?_⟩
        · have := hall (fun x hx => h x (by simp [List.take_succ_cons, hx]))
          exact ⟨this.1, by omega⟩
        · apply hsome
          intro hx
          apply h
          intro x hmem
          simp only [List.take_succ_cons, List.mem_cons] at hmem
          rcases hmem with rfl | hmem
          · exact ho
          · exact hx x hmem
      · rw [if_neg ho]
        refine ⟨1, s, by omega, rfl, fun h => ?_, fun _ => rfl⟩
        exact absurd (h r (by simp [List.take_succ_cons])) ho

/-- C25: autorefresh disable sequence 1 is a bounded poll.  For
`kickoff_timeout_ms ≤ 1,000,000` and readings that cover the budget of
`⌊kickoff_timeout_ms / 2⌋ + 1` polls, `_sde_encoder_autorefresh_disable_seq1`
returns after `k ≤ ⌊kickoff_timeout_ms / 2⌋ + 1` evaluations of the
transmission-ongoing check (it has taken `k` readings); if every one of the
first `⌊kickoff_timeout_ms / 2⌋ + 1` checks is true it has made all of them and
the only change is `enable_state = ERR_NEEDS_HW_RESET`, otherwise the encoder
is as it was.  The check on a reading is true iff
`0 < line count < vdisplay`, on a block that offers the reading. -/
theorem seq1_bounded_poll (s : sde_encoder_phys) (readings : List Nat)
    (ht : s.kickoff_timeout_ms ≤ 1000000)
    (hlen : s.kickoff_timeout_ms / 2 + 1 ≤ readings.length) :
    (∃ k s', k ≤ s.kickoff_timeout_ms / 2 + 1 ∧
      _sde_encoder_autorefresh_disable_seq1 s readings = some (s', readings.drop k) ∧
      ((∀ r ∈ readings.take (s.kickoff_timeout_ms / 2 + 1),
          _sde_encoder_phys_cmd_is_ongoing_pptx s r = true) →
        s' = { s with enable_state := .SDE_ENC_ERR_NEEDS_HW_RESET } ∧
          k = s.kickoff_timeout_ms / 2 + 1) ∧
      (¬ (∀ r ∈ readings.take (s.kickoff_timeout_ms / 2 + 1),
          _sde_encoder_phys_cmd_is_ongoing_pptx s r = true) →
        s' = s)) ∧
    (∀ r, _sde_encoder_phys_cmd_is_ongoing_pptx s r =
      (reads_vsync_info s && decide (0 < r ∧ r < s.vdisplay))) := by
  refine ⟨?_, is_ongoing_pptx_eq s⟩
  have h := seq1_loop_budget s ht (s.kickoff_timeout_ms / 2 + 1) readings (le_refl _) hlen
  rw [sub_self] at h
  exact h

theorem seq1_bounded_poll_witness :
    (short_timeout_2400.kickoff_timeout_ms ≤ 1000000 ∧
      short_timeout_2400.kickoff_timeout_ms / 2 + 1 ≤ [5, 7, 9, 11].length) ∧
    _sde_encoder_autorefresh_disable_seq1 short_timeout_2400 [5, 7, 9, 11] =
      some ({ short_timeout_2400 with enable_state := .SDE_ENC_ERR_NEEDS_HW_RESET }, [11]) ∧
    _sde_encoder_autorefresh_disable_seq1 short_timeout_2400 [5, 0, 9, 11] =
      some (short_timeout_2400, [9, 11]) ∧
    (∀ r, _sde_encoder_phys_cmd_is_ongoing_pptx short_timeout_2400 r =
      (reads_vsync_info short_timeout_2400 &&
        decide (0 < r ∧ r < short_timeout_2400.vdisplay))) :=
  ⟨by decide, by decide, by decide,
    (seq1_bounded_poll short_timeout_2400 [5, 7, 9, 11] (by decide) (by decide)).2⟩

/-! ## Autorefresh disable sequence 2 -/

theorem config_autorefresh_off_cached (s : sde_encoder_phys)
    (h : autorefresh_off_is_cached s) :
    _sde_encoder_phys_cmd_config_autorefresh s 0 = s := by
  unfold _sde_encoder_phys_cmd_config_autorefresh
  cases hp : s.hw_pp with
  | none => rfl
  | some pp =>
    cases hi : s.hw_intf with
    | none => rfl
    | some intf =>
      dsimp only
      split
      · rfl
      · rename_i hconn
        rcases h with h | h | h | h | h
        · rw [h, if_pos (by decide)]
        · rw [hp] at h; cases h
        · rw [hi] at h; cases h
        · rw [h] at hconn; simp at hconn
        · rw [h] at hconn; simp at hconn

theorem config_autorefresh_off_then_cached (s : sde_encoder_phys) :
    autorefresh_off_is_cached (_sde_encoder_phys_cmd_config_autorefresh s 0) := by
  unfold _sde_encoder_phys_cmd_config_autorefresh autorefresh_off_is_cached
  cases hp : s.hw_pp with
  | none => exact Or.inr (Or.inl hp)
  | some pp =>
    cases hi : s.hw_intf with
    | none => exact Or.inr (Or.inr (Or.inl hi))
    | some intf =>
      dsimp only
      by_cases hconn : (!s.connector || !s.conn_state) = true
      · rw [if_pos hconn]
        cases hc : s.connector
        · exact Or.inr (Or.inr (Or.inr (Or.inl rfl)))
        · cases hcs : s.conn_state
          · exact Or.inr (Or.inr (Or.inr (Or.inr rfl)))
          · rw [hc, hcs] at hconn; simp at hconn
      · rw [if_neg hconn]
        by_cases he : (decide ((0 : Nat) ≠ 0)) = s.autorefresh_cfg.enable
        · rw [if_pos he]
          exact Or.inl (by rw [← he]; rfl)
        · rw [if_neg he]
          left
          repeat' split
          all_goals rfl

/-- The loop of sequence 2 takes at most 41 status readings, and on an encoder
for which the cleared config is already cached it issues no autorefresh
write: it only adds tear-check resets and, at the timeout, the dump. -/
theorem seq2_loop_budget (m : Nat) (readings : List Nat) (s : sde_encoder_phys)
    (status : Nat) (hm : m ≤ 41) (hlen : m ≤ readings.length)
    (hoff : autorefresh_off_is_cached s) :
    ∃ k t, k ≤ m ∧
      autorefresh_disable_seq2_loop s ((41 : Int) - m) status readings =
        some ({ s with trace := s.trace ++ t }, readings.drop k) ∧
      autorefresh_writes t = [] := by
  have hnoop : ∀ trial : Int,
      (if trial = 0 then _sde_encoder_phys_cmd_config_autorefresh s 0 else s) = s := by
    intro trial
    split
    · exact config_autorefresh_off_cached s hoff
    · rfl
  induction m generalizing readings s status with
  | zero =>
    unfold autorefresh_disable_seq2_loop
    rw [hnoop]
    by_cases hb : status &&& 128 = 0
    · rw [if_pos hb]
      exact ⟨0, [], le_refl _, by simp, rfl⟩
    · rw [if_neg hb]
      dsimp only
      rw [if_pos (by decide)]
      exact ⟨0, [hw_effect.dbg_dump_all_panic], le_refl _, rfl, rfl⟩
  | succ m ih =>
    unfold autorefresh_disable_seq2_loop
    rw [hnoop]
    by_cases hb : status &&& 128 = 0
    · rw [if_pos hb]
      exact ⟨0, [], Nat.zero_le _, by simp, rfl⟩
    · rw [if_neg hb]
      dsimp only
      have hnot : ¬ (wrap_s32 (((41 : Int) - (m + 1 : Nat)) * AUTOREFRESH_SEQ2_POLL_TIME) >
          AUTOREFRESH_SEQ2_POLL_TIMEOUT) := by
        generalize ht' : (41 : Int) - (m + 1 : Nat) = trial
        have ht0 : 0 ≤ trial := by omega
        have ht1 : trial ≤ 40 := by omega
        have hwr : wrap_s32 (trial * AUTOREFRESH_SEQ2_POLL_TIME) = trial * 25000 := by
          unfold wrap_s32 AUTOREFRESH_SEQ2_POLL_TIME
          omega
        rw [hwr]
        unfold AUTOREFRESH_SEQ2_POLL_TIMEOUT
        omega
      have hw : wrap_s32 (((41 : Int) - (m + 1 : Nat)) + 1) = (41 : Int) - m := by
        unfold wrap_s32
        omega
      rw [if_neg hnot, hw]
      match readings, hlen with
      | r :: rest, hlen =>
        dsimp only
        have hoff' : autorefresh_off_is_cached
            { s with trace := s.trace ++ [hw_effect.check_and_reset_tearcheck] } := hoff
        obtain ⟨k, t, hk, hrun, hnone⟩ := ih rest _ r (by omega)
          (by simp only [List.length_cons] at hlen; omega) hoff'
          (fun trial => by
            split
            · exact config_autorefresh_off_cached _ hoff'
            · rfl)
        refine ⟨k + 1, hw_effect.check_and_reset_tearcheck :: t, by omega, ?_, ?_⟩
        · rw [hrun]
          simp
        · simpa [autorefresh_writes] using hnone

/-- Sequence 2 inside `_sde_encoder_phys_disable_autorefresh`: it runs on the
encoder left by the caller's own `config_autorefresh(0)`, whatever sequence 1
did to `enable_state`; with status readings that cover its budget it returns,
having taken at most 2 + 41 of them, and it has issued no autorefresh write. -/
theorem seq2_in_disable_writes_nothing (x : sde_encoder_phys) (e : sde_enc_enable_state)
    (readings : List Nat) (hintf : x.hw_intf.isSome = true) (hlen : 43 ≤ readings.length) :
    ∃ k t, k ≤ 43 ∧
      _sde_encoder_autorefresh_disable_seq2
        { _sde_encoder_phys_cmd_config_autorefresh x 0 with
          autorefresh_disable_trans := true, enable_state := e } readings =
        some ({ _sde_encoder_phys_cmd_config_autorefresh x 0 with
            autorefresh_disable_trans := true
            enable_state := e
            trace := (_sde_encoder_phys_cmd_config_autorefresh x 0).trace ++ t },
          readings.drop k) ∧
      autorefresh_writes t = [] := by
  have hoff : autorefresh_off_is_cached
      { _sde_encoder_phys_cmd_config_autorefresh x 0 with
        autorefresh_disable_trans := true, enable_state := e } :=
    config_autorefresh_off_then_cached x
  generalize hy : ({ _sde_encoder_phys_cmd_config_autorefresh x 0 with
      autorefresh_disable_trans := true, enable_state := e } : sde_encoder_phys) = y at hoff
  have hyi : y.hw_intf.isSome = true := by
    rw [← hy]
    show (_sde_encoder_phys_cmd_config_autorefresh x 0).hw_intf.isSome = true
    rcases config_autorefresh_cases x 0 with h | ⟨_, t, _, h⟩ <;> rw [h] <;> exact hintf
  have hyt : ({ _sde_encoder_phys_cmd_config_autorefresh x 0 with
      autorefresh_disable_trans := true, enable_state := e } : sde_encoder_phys).trace =
      (_sde_encoder_phys_cmd_config_autorefresh x 0).trace := rfl
  have key : ∃ k t, k ≤ 43 ∧
      _sde_encoder_autorefresh_disable_seq2 y readings =
        some ({ y with trace := y.trace ++ t }, readings.drop k) ∧
      autorefresh_writes t = [] := by
    have h41 : (41 : Int) - ((41 : Nat) : Int) = 0 := by norm_num
    unfold _sde_encoder_autorefresh_disable_seq2
    split
    · exact ⟨0, [], by omega, by simp, rfl⟩
    · cases hi : y.hw_intf with
      | none => rw [hi] at hyi; cases hyi
      | some intf =>
        dsimp only
        split
        · exact ⟨0, [], by omega, by rw [← hi]; simp, rfl⟩
        · match readings, hlen with
          | first :: second :: rest, hlen =>
            dsimp only
            simp only [List.length_cons] at hlen
            split
            · obtain ⟨k, t, hk, hrun, hnone⟩ := seq2_loop_budget 41 rest y second (le_refl _)
                (by omega) hoff
              rw [h41] at hrun
              exact ⟨k + 2, t, by omega, by rw [hrun, ← hi]; rfl, hnone⟩
            · obtain ⟨k, t, hk, hrun, hnone⟩ := seq2_loop_budget 41 (second :: rest) y first
                (le_refl _) (by simp only [List.length_cons]; omega) hoff
              rw [h41] at hrun
              exact ⟨k + 1, t, by omega, by rw [hrun, ← hi]; rfl, hnone⟩
  obtain ⟨k, t, hk, hrun, hnone⟩ := key
  refine ⟨k, t, hk, ?_, hnone⟩
  rw [hrun, ← hy]

/-- C26 at the failing input: an encoder in autorefresh with 30 frames, all
handles present, the hardware reporting autorefresh enabled and the status
register still showing autorefresh active after sequence 1.  The whole call
`_sde_encoder_phys_disable_autorefresh` issues one autorefresh write, the one
made before sequence 1; sequence 2 adds tear-check resets only.
With the status register showing autorefresh active at every read, sequence 2
still returns after at most 2 + 41 status reads without an autorefresh write. -/
theorem seq2_reprogramming_is_swallowed :
    (_sde_encoder_phys_disable_autorefresh autorefresh_30_running
        autorefresh_reported_on).map (fun s => s.trace) =
      some [hw_effect.connect_external_te true false,
        hw_effect.setup_autorefresh true ⟨false, 0⟩,
        hw_effect.check_and_reset_tearcheck,
        hw_effect.connect_external_te true true] ∧
    ∃ k t, k ≤ 43 ∧
      _sde_encoder_autorefresh_disable_seq2
        { _sde_encoder_phys_cmd_config_autorefresh
            (sde_encoder_phys_cmd_connect_te autorefresh_30_running false) 0 with
          autorefresh_disable_trans := true
          enable_state := .SDE_ENC_ENABLED } (List.replicate 50 128) =
        some ({ _sde_encoder_phys_cmd_config_autorefresh
              (sde_encoder_phys_cmd_connect_te autorefresh_30_running false) 0 with
            autorefresh_disable_trans := true
            enable_state := .SDE_ENC_ENABLED
            trace := (_sde_encoder_phys_cmd_config_autorefresh
              (sde_encoder_phys_cmd_connect_te autorefresh_30_running false) 0).trace ++ t },
          (List.replicate 50 128).drop k) ∧
      autorefresh_writes t = [] :=
  ⟨by decide,
    seq2_in_disable_writes_nothing (sde_encoder_phys_cmd_connect_te autorefresh_30_running false)
      .SDE_ENC_ENABLED (List.replicate 50 128) (by decide) (by decide)⟩

/-! ## The vblank interrupt refcount -/

theorem rd_ptr_irq_registrations_append (a b : List hw_effect) :
    rd_ptr_irq_registrations (a ++ b) =
      rd_ptr_irq_registrations a ++ rd_ptr_irq_registrations b := by
  unfold rd_ptr_irq_registrations
  exact List.filterMap_append _ _ _

/-- C30: the vblank interrupt refcount.  For a refcount in the `int` range:
whenever `sde_encoder_phys_cmd_control_vblank_irq` returns nonzero the refcount
is what it was on entry; on a master encoder a disable request at refcount 0
returns `-EINVAL`; a non-negative refcount stays non-negative (for an enable
request, below `INT_MAX`); and on a master encoder with the pingpong block
attached the pointer-read interrupt is registered exactly on an enable request
at refcount 0 and unregistered exactly on a disable request at refcount 1,
while in every other case no registration call is made.  On such an encoder
the return value is that of the registration call when one is made, `-EINVAL`
for a disable request at refcount 0 and 0 otherwise, and a call that returns 0
has raised the refcount by exactly one (enable, below `INT_MAX`) or lowered it
by exactly one (disable).  Without a pingpong block the call returns `-EINVAL`
and on a slave encoder 0, the encoder being what it was. -/
theorem control_vblank_irq_refcount (s : sde_encoder_phys) (enable : Bool)
    (env : control_vblank_irq_env)
    (hr : INT_MIN ≤ s.vblank_refcount ∧ s.vblank_refcount ≤ INT_MAX) :
    ((sde_encoder_phys_cmd_control_vblank_irq s enable env).1 ≠ 0 →
      (sde_encoder_phys_cmd_control_vblank_irq s enable env).2.vblank_refcount =
        s.vblank_refcount) ∧
    (sde_encoder_phys_cmd_is_master s = true → s.vblank_refcount = 0 →
      (sde_encoder_phys_cmd_control_vblank_irq s false env).1 = -EINVAL) ∧
    (0 ≤ s.vblank_refcount → (enable = true → s.vblank_refcount < INT_MAX) →
      0 ≤ (sde_encoder_phys_cmd_control_vblank_irq s enable env).2.vblank_refcount) ∧
    rd_ptr_irq_registrations (sde_encoder_phys_cmd_control_vblank_irq s enable env).2.trace =
      rd_ptr_irq_registrations s.trace ++
        (if s.hw_pp.isSome = true ∧ sde_encoder_phys_cmd_is_master s = true then
          (if enable = true ∧ s.vblank_refcount = 0 then [true]
           else if enable = false ∧ s.vblank_refcount = 1 then [false]
           else [])
         else []) ∧
    (s.hw_pp.isSome = true → sde_encoder_phys_cmd_is_master s = true →
      (sde_encoder_phys_cmd_control_vblank_irq s enable env).1 =
        (if enable = true then (if s.vblank_refcount = 0 then env.register_ret else 0)
         else if s.vblank_refcount = 0 then -EINVAL
         else if s.vblank_refcount = 1 then env.unregister_ret
         else 0) ∧
      ((sde_encoder_phys_cmd_control_vblank_irq s enable env).1 = 0 →
        (enable = true → s.vblank_refcount < INT_MAX →
          (sde_encoder_phys_cmd_control_vblank_irq s enable env).2.vblank_refcount =
            s.vblank_refcount + 1) ∧
        (enable = false → INT_MIN < s.vblank_refcount →
          (sde_encoder_phys_cmd_control_vblank_irq s enable env).2.vblank_refcount =
            s.vblank_refcount - 1))) ∧
    (s.hw_pp.isNone = true →
      sde_encoder_phys_cmd_control_vblank_irq s enable env = (-EINVAL, s)) ∧
    (s.hw_pp.isSome = true → sde_encoder_phys_cmd_is_master s = false →
      sde_encoder_phys_cmd_control_vblank_irq s enable env = (0, s)) := by
  obtain ⟨hr0, hr1⟩ := hr
  unfold INT_MIN at hr0
  unfold INT_MAX at hr1
  have hinc : wrap_s32 (wrap_s32 (s.vblank_refcount + 1) - 1) = s.vblank_refcount := by
    unfold wrap_s32; omega
  have hdec : wrap_s32 (wrap_s32 (s.vblank_refcount - 1) + 1) = s.vblank_refcount := by
    unfold wrap_s32; omega
  have hone : wrap_s32 (s.vblank_refcount + 1) = 1 ↔ s.vblank_refcount = 0 := by
    unfold wrap_s32; omega
  have hzero : wrap_s32 (s.vblank_refcount - 1) = 0 ↔ s.vblank_refcount = 1 := by
    unfold wrap_s32; omega
  have hu : wrap_u32 s.vblank_refcount = 0 ↔ s.vblank_refcount = 0 := by
    unfold wrap_u32; omega
  have hincnn : 0 ≤ s.vblank_refcount → s.vblank_refcount < INT_MAX →
      0 ≤ wrap_s32 (s.vblank_refcount + 1) := by
    unfold wrap_s32 INT_MAX; omega
  have hdecnn : 0 ≤ s.vblank_refcount → s.vblank_refcount ≠ 0 →
      0 ≤ wrap_s32 (s.vblank_refcount - 1) := by
    unfold wrap_s32; omega
  have hincv : s.vblank_refcount < INT_MAX →
      wrap_s32 (s.vblank_refcount + 1) = s.vblank_refcount + 1 := by
    unfold wrap_s32 INT_MAX; omega
  have hdecv : INT_MIN < s.vblank_refcount →
      wrap_s32 (s.vblank_refcount - 1) = s.vblank_refcount - 1 := by
    unfold wrap_s32 INT_MIN; omega
  have w0 : wrap_s32 0 = 0 := by decide
  have w1 : wrap_s32 1 = 1 := by decide
  have wm : wrap_s32 (-1) = -1 := by decide
  have u0 : wrap_u32 0 = 0 := by decide
  have u1 : wrap_u32 1 = 1 := by decide
  unfold sde_encoder_phys_cmd_control_vblank_irq
  cases hp : s.hw_pp with
  | none =>
    simp [EINVAL]
    exact fun h _ => h
  | some pp =>
    cases hm : sde_encoder_phys_cmd_is_master s
    · simp
      exact fun h _ => h
    · simp only [Option.isNone_some, Bool.false_eq_true, if_false, Bool.not_true,
        Option.isSome_some, and_self, if_true, true_implies]
      cases enable
      · by_cases h0 : s.vblank_refcount = 0
        · simp [h0, u0, EINVAL]
        · by_cases h1 : s.vblank_refcount = 1
          · have hz := hzero.mpr h1
            by_cases hret : env.unregister_ret = 0
            · simp [h1, u1, w0, w1, hret, rd_ptr_irq_registrations_append,
                rd_ptr_irq_registrations]
            · simp [h1, u1, w0, w1, hret, rd_ptr_irq_registrations_append,
                rd_ptr_irq_registrations]
          · have hz : ¬ wrap_s32 (s.vblank_refcount - 1) = 0 := fun h => h1 (hzero.mp h)
            simp [h0, hu, h1, hz]
            exact ⟨fun hnn => hdecnn hnn h0, hdecv⟩
      · by_cases h0 : s.vblank_refcount = 0
        · have ho := hone.mpr h0
          by_cases hret : env.register_ret = 0
          · simp [h0, w0, w1, u0, EINVAL, hret, rd_ptr_irq_registrations_append,
              rd_ptr_irq_registrations]
          · simp [h0, w0, w1, u0, EINVAL, hret, rd_ptr_irq_registrations_append,
              rd_ptr_irq_registrations]
        · have ho : ¬ wrap_s32 (s.vblank_refcount + 1) = 1 := fun h => h0 (hone.mp h)
          simp [h0, ho]
          exact ⟨fun hnn hlt => hincnn hnn hlt, hincv⟩

theorem control_vblank_irq_refcount_witness :
    (INT_MIN ≤ vblank_one_user.vblank_refcount ∧ vblank_one_user.vblank_refcount ≤ INT_MAX) ∧
    sde_encoder_phys_cmd_control_vblank_irq vblank_one_user false unregister_fails =
      (-EINVAL, { vblank_one_user with
        trace := [hw_effect.unregister_irq .INTR_IDX_RDPTR] }) ∧
    ((sde_encoder_phys_cmd_control_vblank_irq vblank_one_user false unregister_fails).1 ≠ 0 →
      (sde_encoder_phys_cmd_control_vblank_irq vblank_one_user false
        unregister_fails).2.vblank_refcount = vblank_one_user.vblank_refcount) ∧
    sde_encoder_phys_cmd_control_vblank_irq vblank_one_user false vblank_irq_calls_succeed =
      (0, { vblank_one_user with
        vblank_refcount := 0
        trace := [hw_effect.unregister_irq .INTR_IDX_RDPTR] }) ∧
    sde_encoder_phys_cmd_control_vblank_irq vblank_one_user true vblank_irq_calls_succeed =
      (0, { vblank_one_user with vblank_refcount := 2 }) ∧
    ((sde_encoder_phys_cmd_control_vblank_irq vblank_one_user true
        vblank_irq_calls_succeed).1 = 0 →
      (true = true → vblank_one_user.vblank_refcount < INT_MAX →
        (sde_encoder_phys_cmd_control_vblank_irq vblank_one_user true
          vblank_irq_calls_succeed).2.vblank_refcount =
            vblank_one_user.vblank_refcount + 1) ∧
      (true = false → INT_MIN < vblank_one_user.vblank_refcount →
        (sde_encoder_phys_cmd_control_vblank_irq vblank_one_user true
          vblank_irq_calls_succeed).2.vblank_refcount =
            vblank_one_user.vblank_refcount - 1)) :=
  ⟨by decide, by decide,
    (control_vblank_irq_refcount vblank_one_user false unregister_fails (by decide)).1,
    by decide, by decide,
    ((control_vblank_irq_refcount vblank_one_user true vblank_irq_calls_succeed
      (by decide)).2.2.2.2.1 rfl rfl).2⟩

/-! ## Handling a timed-out wait for the write pointer -/

theorem vsync_switches_append (a b : List hw_effect) :
    vsync_switches (a ++ b) = vsync_switches a ++ vsync_switches b := by
  unfold vsync_switches
  exact List.filterMap_append _ _ _

theorem irq_event_run_static (s : sde_encoder_phys) (e : irq_event) :
    (e.handled s).split_role = s.split_role ∧
    (e.handled s).handle_frame_done = s.handle_frame_done ∧
    vsync_switches (e.handled s).trace = vsync_switches s.trace := by
  cases e <;>
    simp only [irq_event.handled, irq_event.run, sde_encoder_phys_cmd_ctl_done_irq,
      sde_encoder_phys_cmd_pp_tx_done_irq, sde_encoder_phys_cmd_autorefresh_done_irq,
      sde_encoder_phys_cmd_te_rd_ptr_irq, sde_encoder_phys_cmd_wr_ptr_irq,
      _sde_encoder_phys_signal_frame_done, sde_encoder_override_tearcheck_rd_ptr] <;>
    (repeat' split) <;>
    simp [vsync_switches_append, vsync_switches]

theorem run_irqs_static (irqs : List irq_event) (s : sde_encoder_phys) :
    (run_irqs s irqs).split_role = s.split_role ∧
    (run_irqs s irqs).handle_frame_done = s.handle_frame_done ∧
    vsync_switches (run_irqs s irqs).trace = vsync_switches s.trace := by
  induction irqs generalizing s with
  | nil => exact ⟨rfl, rfl, rfl⟩
  | cons e es ih =>
    have h := ih (e.handled s)
    have h2 := irq_event_run_static s e
    refine ⟨?_, ?_, ?_⟩
    · show (run_irqs (e.handled s) es).split_role = _
      rw [h.1, h2.1]
    · show (run_irqs (e.handled s) es).handle_frame_done = _
      rw [h.2.1, h2.2.1]
    · show vsync_switches (run_irqs (e.handled s) es).trace = _
      rw [h.2.2, h2.2.2]

theorem force_signal_retire_fence_eq (s : sde_encoder_phys)
    (h : s.handle_frame_done = true) :
    force_signal_retire_fence s =
      some (if sde_encoder_phys_cmd_is_master s = true ∧ s.pending_retire_fence_cnt ≠ 0 then
        { s with
            pending_retire_fence_cnt := wrap_s32 (s.pending_retire_fence_cnt + -1)
            trace := s.trace ++
              [hw_effect.handle_frame_done SDE_ENCODER_FRAME_EVENT_SIGNAL_RETIRE_FENCE] }
       else s) := by
  unfold force_signal_retire_fence atomic_add_unless
  by_cases hm : sde_encoder_phys_cmd_is_master s = true
  · by_cases hz : s.pending_retire_fence_cnt = 0
    · simp [hm, hz]
    · simp [hm, hz, h]
  · simp [hm]

theorem force_signal_retire_fence_static (s : sde_encoder_phys)
    (h : s.handle_frame_done = true) :
    ∃ s1, force_signal_retire_fence s = some s1 ∧
      s1.split_role = s.split_role ∧ s1.handle_frame_done = true ∧
      vsync_switches s1.trace = vsync_switches s.trace ∧
      s1.wr_ptr_wait_success = s.wr_ptr_wait_success := by
  rw [force_signal_retire_fence_eq s h]
  refine ⟨_, rfl, ?_⟩
  split_ifs
  · simp [vsync_switches_append, vsync_switches, h]
  · simp [h]

theorem wait_for_wr_ptr_static (s : sde_encoder_phys) (env : wait_for_wr_ptr_env)
    (h : s.handle_frame_done = true) :
    ∃ ret s1, _sde_encoder_phys_cmd_wait_for_wr_ptr s env = some (ret, s1) ∧
      s1.split_role = s.split_role ∧ s1.handle_frame_done = true ∧
      vsync_switches s1.trace = vsync_switches s.trace := by
  unfold _sde_encoder_phys_cmd_wait_for_wr_ptr
  by_cases hg : (s.hw_ctl.isNone || !s.connector) = true
  · rw [if_pos hg]; exact ⟨_, _, rfl, rfl, h, rfl⟩
  rw [if_neg hg]
  by_cases hs : _sde_encoder_phys_is_ppsplit_slave s env.is_ppsplit = true
  · rw [if_pos hs]; exact ⟨_, _, rfl, rfl, h, rfl⟩
  rw [if_neg hs]
  dsimp only
  have h1 := run_irqs_static env.wait.irqs s
  have h2 := run_irqs_static env.extended_wait.irqs (run_irqs s env.wait.irqs)
  generalize hs2 : (if (decide (env.wait.ret = -ETIMEDOUT) && env.hw_fence_rev) = true then
      run_irqs (run_irqs s env.wait.irqs) env.extended_wait.irqs
    else run_irqs s env.wait.irqs) = s2
  have hs2r : s2.split_role = s.split_role ∧ s2.handle_frame_done = true ∧
      vsync_switches s2.trace = vsync_switches s.trace := by
    rw [← hs2]
    split_ifs
    · exact ⟨h2.1.trans h1.1, (h2.2.1.trans h1.2.1).trans h, h2.2.2.trans h1.2.2⟩
    · exact ⟨h1.1, h1.2.1.trans h, h1.2.2⟩
  generalize (if (decide (env.wait.ret = -ETIMEDOUT) && env.hw_fence_rev) = true then
      env.extended_wait.ret else env.wait.ret) = ret2
  by_cases ht : ret2 = -ETIMEDOUT
  · rw [if_pos ht]
    obtain ⟨f, hf, hf1, hf2, hf3, _⟩ := force_signal_retire_fence_static s2 hs2r.2.1
    have e1 : vsync_switches [hw_effect.hw_fence_sw_override] = [] := rfl
    split_ifs with hA hB hC
    all_goals first
      | (rw [hf]
         refine ⟨_, _, rfl, ?_⟩
         dsimp only
         simp [hf1, hf2, hf3, hs2r, vsync_switches_append, e1])
      | (refine ⟨_, _, rfl, ?_⟩
         dsimp only
         simp [hs2r, vsync_switches_append, e1])
  · rw [if_neg ht]
    exact ⟨_, _, rfl, hs2r.1, hs2r.2.1, hs2r.2.2⟩

theorem wr_ptr_timeout_retry_static (s : sde_encoder_phys) (env : wr_ptr_timeout_env)
    (h : s.handle_frame_done = true) :
    ∃ ret s1, wr_ptr_timeout_retry s env = some (ret, s1) ∧
      s1.split_role = s.split_role ∧ s1.handle_frame_done = true := by
  unfold wr_ptr_timeout_retry
  dsimp only
  by_cases hd : env.panel_dead = true
  · rw [if_pos hd]
    obtain ⟨ret, s1, hw, h1, h2, _⟩ := wait_for_wr_ptr_static s env.retry h
    exact ⟨ret, s1, hw, h1, h2⟩
  · rw [if_neg hd]
    by_cases hj : _sde_encoder_phys_cmd_needs_vsync_change s env.profile_timestamp
        env.l_bound env.u_bound = true
    · rw [if_pos hj]
      obtain ⟨ret, s1, hw, h1, h2, _⟩ := wait_for_wr_ptr_static
        { s with trace := s.trace ++ [hw_effect.switch_vsync true] } env.retry (by exact h)
      rw [hw]
      exact ⟨_, _, rfl, h1, h2⟩
    · rw [if_neg hj]
      exact ⟨_, _, rfl, rfl, h⟩

theorem handle_wr_ptr_timeout_of_retry (s s1 : sde_encoder_phys) (env : wr_ptr_timeout_env)
    (ret : Int) (hr : wr_ptr_timeout_retry s env = some (ret, s1))
    (h1 : s1.handle_frame_done = true) :
    _sde_encoder_phys_cmd_handle_wr_ptr_timeout s env =
      some (ret,
        { (if ret = -ETIMEDOUT ∧ sde_encoder_phys_cmd_is_master s1 = true ∧
              s1.pending_retire_fence_cnt ≠ 0 then
            { s1 with
                pending_retire_fence_cnt := wrap_s32 (s1.pending_retire_fence_cnt + -1)
                trace := s1.trace ++
                  [hw_effect.handle_frame_done SDE_ENCODER_FRAME_EVENT_SIGNAL_RETIRE_FENCE] }
           else s1) with wr_ptr_wait_success := decide (ret = 0) }) := by
  unfold _sde_encoder_phys_cmd_handle_wr_ptr_timeout
  rw [hr]
  dsimp only
  by_cases ht : ret = -ETIMEDOUT
  · rw [if_pos ht, force_signal_retire_fence_eq s1 h1]
    dsimp only
    by_cases hc : sde_encoder_phys_cmd_is_master s1 = true ∧ s1.pending_retire_fence_cnt ≠ 0
    · rw [if_pos hc, if_pos ⟨ht, hc⟩]
    · rw [if_neg hc, if_neg (fun hx => hc hx.2)]
  · rw [if_neg ht, if_neg (fun hx => ht hx.1)]

/-- C22, as the code has it: after a timed-out wait for the write pointer,
`_sde_encoder_phys_cmd_handle_wr_ptr_timeout` (on an encoder whose parent
registered `handle_frame_done`) (1) on a dead panel waits once more, from the
state on entry and without any vsync-source switch, and returns what that wait
returns; (2) on a live panel with the TE jitter out of bounds switches to the
watchdog TE, waits once more, switches back, and returns what that wait
returns, so that exactly the switches `true, false` are added, the wait lying
between them; (3) on a live panel with the jitter within bounds does neither:
its result is `-ETIMEDOUT`, with no vsync-source switch, whatever a further
wait would have returned. -/
theorem wr_ptr_timeout_retry_policy (s : sde_encoder_phys) (env : wr_ptr_timeout_env)
    (h : s.handle_frame_done = true) :
    (env.panel_dead = true →
      ∃ ret s1 s', _sde_encoder_phys_cmd_wait_for_wr_ptr s env.retry = some (ret, s1) ∧
        _sde_encoder_phys_cmd_handle_wr_ptr_timeout s env = some (ret, s') ∧
        vsync_switches s'.trace = vsync_switches s.trace) ∧
    (env.panel_dead = false →
      _sde_encoder_phys_cmd_needs_vsync_change s env.profile_timestamp
        env.l_bound env.u_bound = true →
      ∃ ret s1 s' tail,
        _sde_encoder_phys_cmd_wait_for_wr_ptr
          { s with trace := s.trace ++ [hw_effect.switch_vsync true] } env.retry =
            some (ret, s1) ∧
        _sde_encoder_phys_cmd_handle_wr_ptr_timeout s env = some (ret, s') ∧
        s'.trace = s1.trace ++ hw_effect.switch_vsync false :: tail ∧
        vsync_switches tail = [] ∧
        vsync_switches s'.trace = vsync_switches s.trace ++ [true, false]) ∧
    (env.panel_dead = false →
      _sde_encoder_phys_cmd_needs_vsync_change s env.profile_timestamp
        env.l_bound env.u_bound = false →
      (∃ s', _sde_encoder_phys_cmd_handle_wr_ptr_timeout s env = some (-ETIMEDOUT, s') ∧
        vsync_switches s'.trace = vsync_switches s.trace) ∧
      ∀ retry, _sde_encoder_phys_cmd_handle_wr_ptr_timeout s { env with retry := retry } =
        _sde_encoder_phys_cmd_handle_wr_ptr_timeout s env) := by
  have e1 : vsync_switches
      [hw_effect.handle_frame_done SDE_ENCODER_FRAME_EVENT_SIGNAL_RETIRE_FENCE] = [] := rfl
  have e2 : ∀ b, vsync_switches [hw_effect.switch_vsync b] = [b] := fun _ => rfl
  refine ⟨?_, ?_, ?_⟩
  · intro hd
    obtain ⟨ret, s1, hw, _, h2, h3⟩ := wait_for_wr_ptr_static s env.retry h
    have hr : wr_ptr_timeout_retry s env = some (ret, s1) := by
      unfold wr_ptr_timeout_retry
      dsimp only
      rw [if_pos hd, hw]
    refine ⟨ret, s1, _, hw, handle_wr_ptr_timeout_of_retry s s1 env ret hr h2, ?_⟩
    dsimp only
    split_ifs
    · simp [vsync_switches_append, e1, h3]
    · exact h3
  · intro hd hj
    obtain ⟨ret, s1, hw, _, h2, h3⟩ := wait_for_wr_ptr_static
      { s with trace := s.trace ++ [hw_effect.switch_vsync true] } env.retry (by exact h)
    have hr : wr_ptr_timeout_retry s env =
        some (ret, { s1 with trace := s1.trace ++ [hw_effect.switch_vsync false] }) := by
      unfold wr_ptr_timeout_retry
      dsimp only
      rw [if_neg (by simp [hd]), if_pos hj, hw]
    have hh := handle_wr_ptr_timeout_of_retry s _ env ret hr (by exact h2)
    by_cases hc : ret = -ETIMEDOUT ∧ sde_encoder_phys_cmd_is_master
        { s1 with trace := s1.trace ++ [hw_effect.switch_vsync false] } = true ∧
        s1.pending_retire_fence_cnt ≠ 0
    · rw [if_pos hc] at hh
      refine ⟨ret, s1, _,
        [hw_effect.handle_frame_done SDE_ENCODER_FRAME_EVENT_SIGNAL_RETIRE_FENCE],
        hw, hh, ?_, e1, ?_⟩
      · simp
      · simp [vsync_switches_append, e1, e2, h3]
        rfl
    · rw [if_neg hc] at hh
      refine ⟨ret, s1, _, [], hw, hh, ?_, rfl, ?_⟩
      · simp
      · simp [vsync_switches_append, e2, h3]
  · intro hd hj
    have hr : ∀ retry, wr_ptr_timeout_retry s { env with retry := retry } =
        some (-ETIMEDOUT, s) := by
      intro retry
      unfold wr_ptr_timeout_retry
      dsimp only
      rw [if_neg (by simp [hd]), if_neg (by simp [hj])]
    have hh := fun retry =>
      handle_wr_ptr_timeout_of_retry s s { env with retry := retry } (-ETIMEDOUT) (hr retry) h
    refine ⟨⟨_, hh env.retry, ?_⟩, fun retry => (hh retry).trans (hh env.retry).symm⟩
    dsimp only
    split_ifs
    · simp [vsync_switches_append, e1]
    · rfl

theorem wr_ptr_timeout_retry_policy_witness :
    ring_late_pulse.handle_frame_done = true ∧
    jitter_timeout.panel_dead = false ∧
    _sde_encoder_phys_cmd_needs_vsync_change ring_late_pulse jitter_timeout.profile_timestamp
      jitter_timeout.l_bound jitter_timeout.u_bound = true ∧
    (_sde_encoder_phys_cmd_handle_wr_ptr_timeout ring_late_pulse jitter_timeout).map
        (fun r => (r.1, r.2.trace)) =
      some (0, [hw_effect.switch_vsync true, hw_effect.switch_vsync false]) ∧
    ∃ ret s1 s' tail,
      _sde_encoder_phys_cmd_wait_for_wr_ptr
        { ring_late_pulse with
            trace := ring_late_pulse.trace ++ [hw_effect.switch_vsync true] }
        jitter_timeout.retry = some (ret, s1) ∧
      _sde_encoder_phys_cmd_handle_wr_ptr_timeout ring_late_pulse jitter_timeout =
        some (ret, s') ∧
      s'.trace = s1.trace ++ hw_effect.switch_vsync false :: tail ∧
      vsync_switches tail = [] ∧
      vsync_switches s'.trace = vsync_switches ring_late_pulse.trace ++ [true, false] :=
  ⟨rfl, rfl, by decide, by decide,
    (wr_ptr_timeout_retry_policy ring_late_pulse jitter_timeout rfl).2.1 rfl (by decide)⟩

/-- C22 as stated fails: on a dead panel the handler does wait for the write
pointer again, and when that wait succeeds it returns 0, not `-ETIMEDOUT`;
the outcome of the call follows the outcome of the further wait. -/
theorem dead_panel_is_waited_for_again :
    dead_panel_timeout.panel_dead = true ∧
    (_sde_encoder_phys_cmd_handle_wr_ptr_timeout one_retire_fence_pending
        dead_panel_timeout).map (fun r => (r.1, r.2.wr_ptr_wait_success, r.2.trace)) =
      some (0, true,
        [hw_effect.handle_frame_done SDE_ENCODER_FRAME_EVENT_SIGNAL_RETIRE_FENCE]) ∧
    (_sde_encoder_phys_cmd_handle_wr_ptr_timeout one_retire_fence_pending
        { dead_panel_timeout with retry := wr_ptr_stays_away }).map Prod.fst =
      some (-ETIMEDOUT) := by
  decide

/-- C23 (as amended): force-signal on persistent timeout.  On an encoder whose
parent registered `handle_frame_done`, `_sde_encoder_phys_cmd_handle_wr_ptr_timeout`
returns; with `ret`, `s1` the return code and state after its retry phase and
`s'` the final state, it returns `ret`, and `wr_ptr_wait_success` is true
afterwards exactly when `ret = 0`.  When `ret = -ETIMEDOUT` on a master
encoder, `wr_ptr_wait_success` is false and a positive
`pending_retire_fence_cnt` is decremented by exactly one with exactly one
retire-fence notification appended, while a counter at 0 stays at 0 with
nothing appended.  In every other case (another return code, or a slave) the
counter and the trace are those of `s1`.  When no retry is made (live panel,
jitter within bounds) `ret = -ETIMEDOUT` and `s1` is the state on entry. -/
theorem handle_wr_ptr_timeout_force_signal (s : sde_encoder_phys) (env : wr_ptr_timeout_env)
    (h : s.handle_frame_done = true) :
    ∃ ret s1 s', wr_ptr_timeout_retry s env = some (ret, s1) ∧
      _sde_encoder_phys_cmd_handle_wr_ptr_timeout s env = some (ret, s') ∧
      (s'.wr_ptr_wait_success = true ↔ ret = 0) ∧
      (ret = -ETIMEDOUT → sde_encoder_phys_cmd_is_master s = true →
        s'.wr_ptr_wait_success = false ∧
        (0 < s1.pending_retire_fence_cnt → s1.pending_retire_fence_cnt ≤ INT_MAX →
          s'.pending_retire_fence_cnt = s1.pending_retire_fence_cnt - 1 ∧
          s'.trace = s1.trace ++
            [hw_effect.handle_frame_done SDE_ENCODER_FRAME_EVENT_SIGNAL_RETIRE_FENCE]) ∧
        (s1.pending_retire_fence_cnt = 0 →
          s'.pending_retire_fence_cnt = 0 ∧ s'.trace = s1.trace)) ∧
      (ret ≠ -ETIMEDOUT ∨ sde_encoder_phys_cmd_is_master s = false →
        s'.pending_retire_fence_cnt = s1.pending_retire_fence_cnt ∧ s'.trace = s1.trace) ∧
      (env.panel_dead = false →
        _sde_encoder_phys_cmd_needs_vsync_change s env.profile_timestamp
          env.l_bound env.u_bound = false → ret = -ETIMEDOUT ∧ s1 = s) := by
  obtain ⟨ret, s1, hr, hrole, hfd⟩ := wr_ptr_timeout_retry_static s env h
  have hm : sde_encoder_phys_cmd_is_master s1 = sde_encoder_phys_cmd_is_master s := by
    unfold sde_encoder_phys_cmd_is_master; rw [hrole]
  refine ⟨ret, s1, _, hr, handle_wr_ptr_timeout_of_retry s s1 env ret hr hfd, ?_, ?_, ?_, ?_⟩
  · simp
  · intro ht hmas
    refine ⟨?_, ?_, ?_⟩
    · simp [ht, ETIMEDOUT]
    · intro hpos hmax
      have hne : s1.pending_retire_fence_cnt ≠ 0 := by omega
      have hw : wrap_s32 (s1.pending_retire_fence_cnt + -1) =
          s1.pending_retire_fence_cnt - 1 := by
        unfold INT_MAX at hmax
        unfold wrap_s32; omega
      rw [if_pos ⟨ht, hm.trans hmas, hne⟩]
      exact ⟨hw, rfl⟩
    · intro hz
      rw [if_neg (fun hx => hx.2.2 hz)]
      exact ⟨hz, rfl⟩
  · intro hor
    rw [if_neg]
    · exact ⟨rfl, rfl⟩
    · intro hx
      rcases hor with hor | hor
      · exact hor hx.1
      · rw [hm, hor] at hx
        exact Bool.false_ne_true hx.2.1
  · intro hd hj
    unfold wr_ptr_timeout_retry at hr
    dsimp only at hr
    rw [if_neg (by simp [hd]), if_neg (by simp [hj])] at hr
    cases hr
    exact ⟨rfl, rfl⟩

theorem handle_wr_ptr_timeout_force_signal_witness :
    one_retire_fence_pending.handle_frame_done = true ∧
    _sde_encoder_phys_cmd_handle_wr_ptr_timeout one_retire_fence_pending plain_timeout =
      some (-ETIMEDOUT, { one_retire_fence_pending with
        pending_retire_fence_cnt := 0
        trace := [hw_effect.handle_frame_done SDE_ENCODER_FRAME_EVENT_SIGNAL_RETIRE_FENCE] }) ∧
    (∃ ret s1 s', wr_ptr_timeout_retry one_retire_fence_pending plain_timeout =
        some (ret, s1) ∧
      _sde_encoder_phys_cmd_handle_wr_ptr_timeout one_retire_fence_pending plain_timeout =
        some (ret, s') ∧
      (s'.wr_ptr_wait_success = true ↔ ret = 0)) :=
  ⟨rfl, by decide,
    (handle_wr_ptr_timeout_force_signal one_retire_fence_pending plain_timeout rfl).imp
      fun _ hx => hx.imp fun _ hy => hy.imp fun _ hz => ⟨hz.1, hz.2.1, hz.2.2.1⟩⟩

/-- C23 (as stated) fails: on a master encoder whose parent registered no
`handle_frame_done`, a call that ends still timed out with one retire fence
pending calls the NULL callback pointer; it neither returns `-ETIMEDOUT` nor
delivers a notification. -/
theorem force_signal_calls_null_callback :
    sde_encoder_phys_cmd_is_master one_retire_fence_no_callback = true ∧
    one_retire_fence_no_callback.pending_retire_fence_cnt = 1 ∧
    wr_ptr_timeout_retry one_retire_fence_no_callback plain_timeout =
      some (-ETIMEDOUT, one_retire_fence_no_callback) ∧
    _sde_encoder_phys_cmd_handle_wr_ptr_timeout one_retire_fence_no_callback plain_timeout =
      none := by
  decide

/-! ## The return code of wait-for-commit-done -/

theorem nat_or_eq_zero (m n : Nat) : m ||| n = 0 ↔ m = 0 ∧ n = 0 := by
  constructor
  · intro h
    have hb : ∀ i, (m.testBit i || n.testBit i) = false := by
      intro i
      rw [← Nat.testBit_or, h, Nat.zero_testBit]
    constructor
    · apply Nat.eq_of_testBit_eq
      intro i
      have := hb i
      rw [Nat.zero_testBit]
      cases hm : m.testBit i
      · rfl
      · rw [hm] at this; simp at this
    · apply Nat.eq_of_testBit_eq
      intro i
      have := hb i
      rw [Nat.zero_testBit]
      cases hn : n.testBit i
      · rfl
      · rw [hn] at this; simp at this
  · rintro ⟨rfl, rfl⟩
    rfl

theorem nat_ldiff_zero (m : Nat) : m.ldiff 0 = m := by
  apply Nat.eq_of_testBit_eq
  intro i
  rw [Nat.testBit_ldiff, Nat.zero_testBit]
  simp

theorem int_or_eq_zero (a b : Int) : int_or a b = 0 ↔ a = 0 ∧ b = 0 := by
  unfold int_or
  cases a <;> cases b <;> simp [Int.lor]
  exact nat_or_eq_zero _ _

theorem int_or_zero_left (b : Int) : int_or 0 b = b := by
  unfold int_or
  cases b <;> simp [Int.lor]
  exact nat_ldiff_zero _

theorem int_or_zero_right (b : Int) : int_or b 0 = b := by
  unfold int_or
  cases b <;> simp [Int.lor]
  exact nat_ldiff_zero _

theorem int_or_self (a : Int) : int_or a a = a := by
  unfold int_or
  cases a <;> simp [Int.lor]

theorem or_codes_eq_zero (codes : List Int) (rc : Int) :
    or_codes rc codes = 0 ↔ rc = 0 ∧ ∀ c ∈ codes, c = 0 := by
  induction codes generalizing rc with
  | nil => simp [or_codes]
  | cons c cs ih =>
    have h : or_codes rc (c :: cs) = or_codes (int_or rc c) cs := rfl
    rw [h, ih, int_or_eq_zero]
    simp only [List.mem_cons, forall_eq_or_imp]
    tauto

theorem or_codes_same (codes : List Int) (rc e : Int) (hrc : rc = 0 ∨ rc = e)
    (hc : ∀ c ∈ codes, c = 0 ∨ c = e) : or_codes rc codes = 0 ∨ or_codes rc codes = e := by
  induction codes generalizing rc with
  | nil => exact hrc
  | cons c cs ih =>
    have h : or_codes rc (c :: cs) = or_codes (int_or rc c) cs := rfl
    rw [h]
    apply ih
    · have hc0 := hc c (List.mem_cons_self _ _)
      rcases hrc with rfl | rfl <;> rcases hc0 with rfl | rfl
      · left; exact int_or_zero_left 0
      · right; exact int_or_zero_left _
      · right; exact int_or_zero_right _
      · right; exact int_or_self _
    · intro x hx
      exact hc x (List.mem_cons_of_mem _ hx)

theorem irq_event_handled_hw_pp (s : sde_encoder_phys) (e : irq_event) :
    (e.handled s).hw_pp = s.hw_pp := by
  cases e <;>
    simp only [irq_event.handled, irq_event.run, sde_encoder_phys_cmd_ctl_done_irq,
      sde_encoder_phys_cmd_pp_tx_done_irq, sde_encoder_phys_cmd_autorefresh_done_irq,
      sde_encoder_phys_cmd_te_rd_ptr_irq, sde_encoder_phys_cmd_wr_ptr_irq,
      _sde_encoder_phys_signal_frame_done, sde_encoder_override_tearcheck_rd_ptr] <;>
    (repeat' split) <;> rfl

theorem run_irqs_hw_pp (irqs : List irq_event) (s : sde_encoder_phys) :
    (run_irqs s irqs).hw_pp = s.hw_pp := by
  induction irqs generalizing s with
  | nil => rfl
  | cons e es ih =>
    show (run_irqs (e.handled s) es).hw_pp = _
    rw [ih, irq_event_handled_hw_pp]

theorem wait_for_tx_complete_loop_rc (n : Nat) (rc : Int) (s : sde_encoder_phys)
    (waits : List irq_wait) (h : n ≤ waits.length) :
    ∃ s', wait_for_tx_complete_loop n rc s waits =
        some (or_codes rc ((waits.take n).map irq_wait.ret), s') ∧
      s'.hw_pp = s.hw_pp := by
  induction n generalizing rc s waits with
  | zero => exact ⟨s, rfl, rfl⟩
  | succ n ih =>
    cases waits with
    | nil => simp at h
    | cons w ws =>
      obtain ⟨s', hs', hp⟩ := ih (int_or rc w.ret) (run_irqs s w.irqs) ws
        (by simpa using h)
      refine ⟨s', ?_, by rw [hp, run_irqs_hw_pp]⟩
      unfold wait_for_tx_complete_loop
      rw [hs']
      rfl

theorem force_signal_retire_fence_cnt (s f : sde_encoder_phys)
    (h : force_signal_retire_fence s = some f) :
    f.pending_kickoff_cnt = s.pending_kickoff_cnt ∧ f.hw_pp = s.hw_pp := by
  unfold force_signal_retire_fence at h
  dsimp only at h
  split_ifs at h
  all_goals (cases h; exact ⟨rfl, rfl⟩)

theorem run_irqs_cnt_le (irqs : List irq_event) (s : sde_encoder_phys)
    (h0 : 0 ≤ s.pending_kickoff_cnt) (h1 : s.pending_kickoff_cnt ≤ INT_MAX) :
    0 ≤ (run_irqs s irqs).pending_kickoff_cnt ∧
    (run_irqs s irqs).pending_kickoff_cnt ≤ s.pending_kickoff_cnt :=
  ⟨(run_irqs_rel irqs s h0 h1).1, (run_irqs_rel irqs s h0 h1).2.1⟩

theorem wait_for_wr_ptr_cnt (s s1 : sde_encoder_phys) (env : wait_for_wr_ptr_env) (ret : Int)
    (h0 : 0 ≤ s.pending_kickoff_cnt) (h1 : s.pending_kickoff_cnt ≤ INT_MAX)
    (hw : _sde_encoder_phys_cmd_wait_for_wr_ptr s env = some (ret, s1)) :
    (0 ≤ s1.pending_kickoff_cnt ∧ s1.pending_kickoff_cnt ≤ s.pending_kickoff_cnt) ∧
    s1.hw_pp = s.hw_pp := by
  unfold _sde_encoder_phys_cmd_wait_for_wr_ptr at hw
  by_cases hg : (s.hw_ctl.isNone || !s.connector) = true
  · rw [if_pos hg] at hw; cases hw; exact ⟨⟨h0, le_refl _⟩, rfl⟩
  rw [if_neg hg] at hw
  by_cases hs : _sde_encoder_phys_is_ppsplit_slave s env.is_ppsplit = true
  · rw [if_pos hs] at hw; cases hw; exact ⟨⟨h0, le_refl _⟩, rfl⟩
  rw [if_neg hs] at hw
  dsimp only at hw
  have c1 := run_irqs_cnt_le env.wait.irqs s h0 h1
  have c2 := run_irqs_cnt_le env.extended_wait.irqs (run_irqs s env.wait.irqs) c1.1
    (le_trans c1.2 h1)
  generalize hs2 : (if (decide (env.wait.ret = -ETIMEDOUT) && env.hw_fence_rev) = true then
      run_irqs (run_irqs s env.wait.irqs) env.extended_wait.irqs
    else run_irqs s env.wait.irqs) = s2 at hw
  have hs2r : (0 ≤ s2.pending_kickoff_cnt ∧ s2.pending_kickoff_cnt ≤ s.pending_kickoff_cnt) ∧
      s2.hw_pp = s.hw_pp := by
    rw [← hs2]
    split_ifs
    · exact ⟨⟨c2.1, le_trans c2.2 c1.2⟩, by rw [run_irqs_hw_pp, run_irqs_hw_pp]⟩
    · exact ⟨c1, run_irqs_hw_pp _ _⟩
  split_ifs at hw with hA hB hC
  all_goals first
    | (cases hw; exact hs2r)
    | (cases hf : force_signal_retire_fence s2 with
       | none => rw [hf] at hw; dsimp only at hw; cases hw
       | some f =>
         rw [hf] at hw
         dsimp only at hw
         have hc := force_signal_retire_fence_cnt s2 f hf
         cases hw
         dsimp only
         rw [hc.1, hc.2]
         exact hs2r)

theorem handle_wr_ptr_timeout_cnt (s s' : sde_encoder_phys) (env : wr_ptr_timeout_env)
    (ret : Int) (h : s.handle_frame_done = true)
    (h0 : 0 ≤ s.pending_kickoff_cnt) (h1 : s.pending_kickoff_cnt ≤ INT_MAX)
    (hh : _sde_encoder_phys_cmd_handle_wr_ptr_timeout s env = some (ret, s')) :
    s'.handle_frame_done = true ∧
    (0 ≤ s'.pending_kickoff_cnt ∧ s'.pending_kickoff_cnt ≤ s.pending_kickoff_cnt) ∧
    s'.hw_pp = s.hw_pp := by
  obtain ⟨r1, s1, hr, _, hfd⟩ := wr_ptr_timeout_retry_static s env h
  have hc : (0 ≤ s1.pending_kickoff_cnt ∧ s1.pending_kickoff_cnt ≤ s.pending_kickoff_cnt) ∧
      s1.hw_pp = s.hw_pp := by
    unfold wr_ptr_timeout_retry at hr
    dsimp only at hr
    split_ifs at hr
    · exact wait_for_wr_ptr_cnt s s1 env.retry r1 h0 h1 hr
    · split at hr
      · cases hr
      · rename_i r2 s2 hw
        cases hr
        exact wait_for_wr_ptr_cnt
          { s with trace := s.trace ++ [hw_effect.switch_vsync true] } s2 env.retry r1
          (by exact h0) (by exact h1) hw
    · cases hr; exact ⟨⟨h0, le_refl _⟩, rfl⟩
  rw [handle_wr_ptr_timeout_of_retry s s1 env r1 hr hfd] at hh
  cases hh
  dsimp only
  split_ifs
  · exact ⟨hfd, hc.1, hc.2⟩
  · exact ⟨hfd, hc.1, hc.2⟩

theorem poll_write_pointer_started_cnt (s : sde_encoder_phys) (env : poll_write_pointer_env) :
    (_sde_encoder_phys_cmd_poll_write_pointer_started s env).2.pending_kickoff_cnt =
      s.pending_kickoff_cnt ∧
    (_sde_encoder_phys_cmd_poll_write_pointer_started s env).2.hw_pp = s.hw_pp := by
  unfold _sde_encoder_phys_cmd_poll_write_pointer_started
  dsimp only
  repeat' split
  all_goals exact ⟨rfl, rfl⟩

theorem wait_for_autorefresh_done_cnt (s : sde_encoder_phys)
    (env : wait_for_autorefresh_done_env)
    (h0 : 0 ≤ s.pending_kickoff_cnt) (h1 : s.pending_kickoff_cnt ≤ INT_MAX) :
    (0 ≤ (_sde_encoder_phys_cmd_wait_for_autorefresh_done s env).2.pending_kickoff_cnt ∧
      (_sde_encoder_phys_cmd_wait_for_autorefresh_done s env).2.pending_kickoff_cnt ≤
        s.pending_kickoff_cnt) ∧
    (_sde_encoder_phys_cmd_wait_for_autorefresh_done s env).2.hw_pp = s.hw_pp := by
  unfold _sde_encoder_phys_cmd_wait_for_autorefresh_done
  have c1 := run_irqs_cnt_le env.wait.irqs s h0 h1
  split_ifs
  · exact ⟨⟨h0, le_refl _⟩, rfl⟩
  · dsimp only
    rw [(poll_write_pointer_started_cnt _ _).1, (poll_write_pointer_started_cnt _ _).2]
    exact ⟨c1, run_irqs_hw_pp _ _⟩
  · exact ⟨c1, run_irqs_hw_pp _ _⟩

/-- The value of `rc` with which `sde_encoder_phys_cmd_wait_for_commit_done`
leaves its master part, written out: the autorefresh-done wait, when it is
made, replaces the code of the wait for the write pointer. -/
theorem wait_for_commit_done_master_total (s : sde_encoder_phys)
    (env : wait_for_commit_done_env) (h : s.handle_frame_done = true)
    (h0 : 0 ≤ s.pending_kickoff_cnt) (h1 : s.pending_kickoff_cnt ≤ INT_MAX) :
    ∃ rc0 s1 rc2 s2 rc s3 status to_idle,
      _sde_encoder_phys_cmd_wait_for_wr_ptr s env.wr_ptr = some (rc0, s1) ∧
      (if rc0 = -ETIMEDOUT then _sde_encoder_phys_cmd_handle_wr_ptr_timeout s1 env.timeout
        else some (rc0, s1)) = some (rc2, s2) ∧
      wait_for_commit_done_master s env = some (rc, s3, status, to_idle) ∧
      rc = (if rc0 = -ETIMEDOUT ∧ rc2 = -ETIMEDOUT then -ETIMEDOUT
        else if s2.autorefresh_cfg.enable = true then
          (_sde_encoder_phys_cmd_wait_for_autorefresh_done s2 env.autorefresh).1
        else rc2) ∧
      0 ≤ s3.pending_kickoff_cnt ∧ s3.pending_kickoff_cnt ≤ s.pending_kickoff_cnt ∧
      s3.hw_pp = s.hw_pp := by
  obtain ⟨rc0, s1, hw, _, hfd1, _⟩ := wait_for_wr_ptr_static s env.wr_ptr h
  obtain ⟨c1, p1⟩ := wait_for_wr_ptr_cnt s s1 env.wr_ptr rc0 h0 h1 hw
  have hh : ∃ rc2 s2, (if rc0 = -ETIMEDOUT then
        _sde_encoder_phys_cmd_handle_wr_ptr_timeout s1 env.timeout
      else some (rc0, s1)) = some (rc2, s2) ∧
      (0 ≤ s2.pending_kickoff_cnt ∧ s2.pending_kickoff_cnt ≤ s.pending_kickoff_cnt) ∧
      s2.hw_pp = s.hw_pp := by
    by_cases ht : rc0 = -ETIMEDOUT
    · rw [if_pos ht]
      obtain ⟨r, t, hr, _, hfdt⟩ := wr_ptr_timeout_retry_static s1 env.timeout hfd1
      have he := handle_wr_ptr_timeout_of_retry s1 t env.timeout r hr hfdt
      have hc := handle_wr_ptr_timeout_cnt s1 _ env.timeout r hfd1 c1.1 (le_trans c1.2 h1) he
      exact ⟨_, _, he, ⟨hc.2.1.1, le_trans hc.2.1.2 c1.2⟩, hc.2.2.trans p1⟩
    · rw [if_neg ht]
      exact ⟨_, _, rfl, c1, p1⟩
  obtain ⟨rc2, s2, hh2, c2, p2⟩ := hh
  obtain ⟨ca, pa⟩ := wait_for_autorefresh_done_cnt s2 env.autorefresh c2.1 (le_trans c2.2 h1)
  unfold wait_for_commit_done_master
  rw [hw]
  dsimp only
  rw [hh2]
  dsimp only
  by_cases hto : rc0 = -ETIMEDOUT ∧ rc2 = -ETIMEDOUT
  · rw [if_pos hto]
    refine ⟨rc0, s1, rc2, s2, _, _, _, _, rfl, hh2, rfl, ?_, c2.1, c2.2, p2⟩
    rw [if_pos hto]; exact hto.2
  · rw [if_neg hto]
    refine ⟨rc0, s1, rc2, s2, _, _, _, _, rfl, hh2, rfl, ?_, ?_⟩
    · rw [if_neg hto]
      split_ifs <;> rfl
    · split_ifs
      · exact ⟨ca.1, le_trans ca.2 c2.2, pa.trans p2⟩
      · exact ⟨c2.1, c2.2, p2⟩

theorem wait_for_commit_done_idle_rc (s : sde_encoder_phys) (rc : Int)
    (env : wait_for_commit_done_env) (hpp : s.hw_pp.isSome = true)
    (hlen : s.pending_kickoff_cnt.toNat ≤ env.tx_complete.length) :
    ∃ s', wait_for_commit_done_idle s rc env =
      some (or_codes rc ((env.tx_complete.take s.pending_kickoff_cnt.toNat).map irq_wait.ret),
        s') := by
  obtain ⟨t, ht, hp⟩ := wait_for_tx_complete_loop_rc s.pending_kickoff_cnt.toNat rc s
    env.tx_complete hlen
  have hn : t.hw_pp.isNone = false := by
    rw [hp]
    cases hq : s.hw_pp
    · rw [hq] at hpp; cases hpp
    · rfl
  unfold wait_for_commit_done_idle
  dsimp only
  rw [ht]
  dsimp only
  rw [hn]
  simp only [Bool.false_eq_true, if_false]
  split_ifs
  all_goals exact ⟨_, rfl⟩

theorem wait_for_commit_done_idle_faults (s : sde_encoder_phys) (rc : Int)
    (env : wait_for_commit_done_env) (hpp : s.hw_pp = none)
    (hlen : s.pending_kickoff_cnt.toNat ≤ env.tx_complete.length)
    (hrc : or_codes rc
      ((env.tx_complete.take s.pending_kickoff_cnt.toNat).map irq_wait.ret) ≠ 0) :
    wait_for_commit_done_idle s rc env = none := by
  obtain ⟨t, ht, hp⟩ := wait_for_tx_complete_loop_rc s.pending_kickoff_cnt.toNat rc s
    env.tx_complete hlen
  unfold wait_for_commit_done_idle
  dsimp only
  rw [ht]
  dsimp only
  rw [if_pos hrc, hp, hpp]
  rfl

theorem signal_frame_done_steps_discipline (s : sde_encoder_phys) :
    unlocked_stores false (_sde_encoder_phys_signal_frame_done_steps s) =
      (if s.hw_ctl.isSome = true ∧ s.hw_pp.isSome = true ∧
          s.autorefresh_disable_trans = true then [shared_field.autorefresh_disable_trans]
       else []) ∧
    lock_held_after false (_sde_encoder_phys_signal_frame_done_steps s) = false ∧
    (∀ field, sync_step.store field ∈ _sde_encoder_phys_signal_frame_done_steps s →
      field = .recovered ∨ field = .autorefresh_disable_trans) := by
  unfold _sde_encoder_phys_signal_frame_done_steps atomic_add_unless
  cases s.hw_ctl <;> cases s.hw_pp <;> cases s.handle_frame_done <;>
    cases s.autorefresh_disable_trans <;>
    by_cases h0 : s.pending_kickoff_cnt = 0 <;>
    by_cases h1 : s.frame_tx_timeout_report_cnt = 0 <;>
    simp [h0, h1, unlocked_stores, lock_held_after]

theorem signal_frame_done_steps_recorded (s s' : sde_encoder_phys)
    (h : _sde_encoder_phys_signal_frame_done s = some s') :
    mutations_recorded s s' (_sde_encoder_phys_signal_frame_done_steps s) := by
  unfold _sde_encoder_phys_signal_frame_done at h
  unfold _sde_encoder_phys_signal_frame_done_steps mutations_recorded
  revert h
  unfold atomic_add_unless
  cases hc : s.hw_ctl with
  | none =>
    intro h
    simp only [Option.some.injEq] at h
    subst h
    simp
  | some ctl =>
    cases hto : ctl.trigger_output_fence_override <;> cases hp : s.hw_pp <;>
      cases hf : s.handle_frame_done <;>
      cases ht : s.autorefresh_disable_trans <;>
      by_cases h0 : s.pending_kickoff_cnt = 0 <;>
      by_cases h1 : s.frame_tx_timeout_report_cnt = 0 <;>
      simp [h0, h1, hp, hf, ht, hto] <;> intro h <;> subst h <;> simp [hf, ht] <;>
      exact h0

theorem mutations_recorded_refl (s : sde_encoder_phys) (steps : List sync_step) :
    mutations_recorded s s steps := by
  unfold mutations_recorded
  simp

theorem autorefresh_done_irq_steps_discipline (s : sde_encoder_phys) :
    (∀ field ∈ unlocked_stores false (sde_encoder_phys_cmd_autorefresh_done_irq_steps s),
      field = .autorefresh_disable_trans) ∧
    (s.autorefresh_disable_trans = false →
      unlocked_stores false (sde_encoder_phys_cmd_autorefresh_done_irq_steps s) = []) ∧
    lock_held_after false (sde_encoder_phys_cmd_autorefresh_done_irq_steps s) = false ∧
    (∀ field, sync_step.store field ∈ sde_encoder_phys_cmd_autorefresh_done_irq_steps s →
      field = .recovered ∨ field = .autorefresh_disable_trans ∨
        field = .te_timestamp_list) := by
  unfold sde_encoder_phys_cmd_autorefresh_done_irq_steps
  dsimp only
  generalize hs1 : ({ s with autorefresh_kickoff_cnt :=
    (atomic_add_unless s.autorefresh_kickoff_cnt (-1) 0).1 } : sde_encoder_phys) = s1
  have ht : s1.autorefresh_disable_trans = s.autorefresh_disable_trans := by
    rw [← hs1]
  have hd := signal_frame_done_steps_discipline s1
  have key : ∀ rest : List sync_step,
      rest = [] ∨ rest = _sde_encoder_phys_signal_frame_done_steps s1 →
      (∀ field ∈ unlocked_stores false rest, field = .autorefresh_disable_trans) ∧
      (s.autorefresh_disable_trans = false → unlocked_stores false rest = []) ∧
      lock_held_after false rest = false ∧
      (∀ field, sync_step.store field ∈ rest →
        field = .recovered ∨ field = .autorefresh_disable_trans ∨
          field = .te_timestamp_list) := by
    intro rest hrest
    rcases hrest with rfl | rfl
    · simp [unlocked_stores, lock_held_after]
    · refine ⟨fun f hf => ?_, fun h => ?_, hd.2.1, fun f hf => ?_⟩
      · rw [hd.1] at hf
        split_ifs at hf
        · simpa using hf
        · simp at hf
      · rw [hd.1, ht, h]
        simp
      · rcases hd.2.2 f hf with h | h
        · exact Or.inl h
        · exact Or.inr (Or.inl h)
  have hpre : ∀ rest : List sync_step,
      unlocked_stores false ([sync_step.spin_lock,
        sync_step.atomic_op .autorefresh_kickoff_cnt, sync_step.spin_unlock] ++ rest) =
        unlocked_stores false rest ∧
      lock_held_after false ([sync_step.spin_lock,
        sync_step.atomic_op .autorefresh_kickoff_cnt, sync_step.spin_unlock] ++ rest) =
        lock_held_after false rest ∧
      (∀ field, sync_step.store field ∈ [sync_step.spin_lock,
        sync_step.atomic_op .autorefresh_kickoff_cnt, sync_step.spin_unlock] ++ rest →
        sync_step.store field ∈ rest) := by
    intro rest
    refine ⟨rfl, rfl, fun f hf => ?_⟩
    simpa using hf
  have fin : ∀ rest : List sync_step,
      rest = [] ∨ rest = _sde_encoder_phys_signal_frame_done_steps s1 →
      (∀ field ∈ unlocked_stores false ([sync_step.spin_lock,
          sync_step.atomic_op .autorefresh_kickoff_cnt, sync_step.spin_unlock] ++ rest),
        field = .autorefresh_disable_trans) ∧
      (s.autorefresh_disable_trans = false →
        unlocked_stores false ([sync_step.spin_lock,
          sync_step.atomic_op .autorefresh_kickoff_cnt, sync_step.spin_unlock] ++ rest) =
          []) ∧
      lock_held_after false ([sync_step.spin_lock,
        sync_step.atomic_op .autorefresh_kickoff_cnt, sync_step.spin_unlock] ++ rest) =
        false ∧
      (∀ field, sync_step.store field ∈ [sync_step.spin_lock,
          sync_step.atomic_op .autorefresh_kickoff_cnt, sync_step.spin_unlock] ++ rest →
        field = .recovered ∨ field = .autorefresh_disable_trans ∨
          field = .te_timestamp_list) := by
    intro rest hcase
    obtain ⟨k1, k2, k3, k4⟩ := key rest hcase
    obtain ⟨p1, p2, p3⟩ := hpre rest
    rw [p1, p2]
    exact ⟨k1, k2, k3, fun f hf => k4 f (p3 f hf)⟩
  split_ifs
  · exact fin [] (Or.inl rfl)
  · exact fin _ (Or.inr rfl)
  · exact fin [] (Or.inl rfl)

theorem autorefresh_done_irq_steps_recorded (s s' : sde_encoder_phys)
    (h : sde_encoder_phys_cmd_autorefresh_done_irq s = some s') :
    mutations_recorded s s' (sde_encoder_phys_cmd_autorefresh_done_irq_steps s) := by
  unfold sde_encoder_phys_cmd_autorefresh_done_irq at h
  unfold sde_encoder_phys_cmd_autorefresh_done_irq_steps
  dsimp only at h ⊢
  generalize hs1 : ({ s with autorefresh_kickoff_cnt :=
    (atomic_add_unless s.autorefresh_kickoff_cnt (-1) 0).1 } : sde_encoder_phys) = s1 at h ⊢
  have e1 : s1.pending_kickoff_cnt = s.pending_kickoff_cnt := by rw [← hs1]
  have e2 : s1.pending_retire_fence_cnt = s.pending_retire_fence_cnt := by rw [← hs1]
  have e3 : s1.pending_vblank_cnt = s.pending_vblank_cnt := by rw [← hs1]
  have e5 : s1.recovered = s.recovered := by rw [← hs1]
  have e6 : s1.autorefresh_disable_trans = s.autorefresh_disable_trans := by rw [← hs1]
  have e7 : s1.te_timestamp_list = s.te_timestamp_list := by rw [← hs1]
  split_ifs at h ⊢
  · have hr := signal_frame_done_steps_recorded s1 s' h
    unfold mutations_recorded at hr ⊢
    rw [e1, e2, e3, e5, e6, e7] at hr
    obtain ⟨r1, r2, r3, _, r5, r6, r7⟩ := hr
    refine ⟨fun x => ?_, fun x => ?_, fun x => ?_, fun _ => ?_, fun x => ?_, fun x => ?_,
      fun x => ?_⟩
    · exact List.mem_append_right _ (r1 x)
    · exact List.mem_append_right _ (r2 x)
    · exact List.mem_append_right _ (r3 x)
    · simp
    · exact List.mem_append_right _ (r5 x)
    · exact List.mem_append_right _ (r6 x)
    · exact List.mem_append_right _ (r7 x)
  · cases h
    unfold mutations_recorded
    rw [e1, e2, e3, e5, e6, e7]
    simp

theorem te_rd_ptr_irq_steps_discipline (s : sde_encoder_phys) (now : Int) :
    unlocked_stores false (sde_encoder_phys_cmd_te_rd_ptr_irq_steps s) = [] ∧
    lock_held_after false (sde_encoder_phys_cmd_te_rd_ptr_irq_steps s) = false ∧
    (∀ field, sync_step.store field ∈ sde_encoder_phys_cmd_te_rd_ptr_irq_steps s →
      field = .te_timestamp_list) ∧
    mutations_recorded s (sde_encoder_phys_cmd_te_rd_ptr_irq s now)
      (sde_encoder_phys_cmd_te_rd_ptr_irq_steps s) := by
  unfold sde_encoder_phys_cmd_te_rd_ptr_irq_steps sde_encoder_phys_cmd_te_rd_ptr_irq
    mutations_recorded
  cases hp : s.hw_pp <;> cases hi : s.hw_intf <;> cases hc : s.hw_ctl <;>
    cases hl : s.te_timestamp_list <;> cases hv : s.handle_vblank_virt <;>
    simp [unlocked_stores, lock_held_after, hl, hv]

theorem wr_ptr_irq_steps_discipline (s : sde_encoder_phys) (qsync_mode : Nat) :
    unlocked_stores false (sde_encoder_phys_cmd_wr_ptr_irq_steps s) = [] ∧
    lock_held_after false (sde_encoder_phys_cmd_wr_ptr_irq_steps s) = false ∧
    (∀ field, sync_step.store field ∉ sde_encoder_phys_cmd_wr_ptr_irq_steps s) ∧
    mutations_recorded s (sde_encoder_phys_cmd_wr_ptr_irq s qsync_mode)
      (sde_encoder_phys_cmd_wr_ptr_irq_steps s) := by
  unfold sde_encoder_phys_cmd_wr_ptr_irq_steps sde_encoder_phys_cmd_wr_ptr_irq
    mutations_recorded sde_encoder_override_tearcheck_rd_ptr atomic_add_unless
  cases hc : s.hw_ctl <;> cases hi : s.hw_intf <;> cases hf : s.handle_frame_done <;>
    by_cases h0 : s.pending_retire_fence_cnt = 0 <;>
    by_cases hq : qsync_mode = 0 <;>
    simp [unlocked_stores, lock_held_after, h0, hq, hi, hf] <;>
    (repeat' split) <;> simp

/-- C21 (as amended): the exclusion discipline of the interrupt callbacks.  On
every path of every callback (ctl-done, pp-done, autorefresh-done, pointer-read,
pointer-write), in program order: the only plain store made without
`enc_spinlock` held is the clearing of `autorefresh_disable_trans`, and there
is none when that flag is not set on entry; the lock is released when the
callback ends; plain stores go to the recovered flag, the disable-transition
flag and the TE timestamp ring only, so the counters are touched by atomic
operations only; and every shared field in which the encoder returned
differs from the encoder on entry is the target of one of these steps. -/
theorem irq_callback_lock_discipline (s : sde_encoder_phys) (e : irq_event) :
    (∀ field ∈ unlocked_stores false (e.steps s), field = .autorefresh_disable_trans) ∧
    (s.autorefresh_disable_trans = false → unlocked_stores false (e.steps s) = []) ∧
    lock_held_after false (e.steps s) = false ∧
    (∀ field, sync_step.store field ∈ e.steps s →
      field = .recovered ∨ field = .autorefresh_disable_trans ∨
        field = .te_timestamp_list) ∧
    (∀ s', e.run s = some s' → mutations_recorded s s' (e.steps s)) := by
  have hsig : (∀ field ∈ unlocked_stores false (_sde_encoder_phys_signal_frame_done_steps s),
        field = .autorefresh_disable_trans) ∧
      (s.autorefresh_disable_trans = false →
        unlocked_stores false (_sde_encoder_phys_signal_frame_done_steps s) = []) ∧
      lock_held_after false (_sde_encoder_phys_signal_frame_done_steps s) = false ∧
      (∀ field, sync_step.store field ∈ _sde_encoder_phys_signal_frame_done_steps s →
        field = .recovered ∨ field = .autorefresh_disable_trans ∨
          field = .te_timestamp_list) := by
    have hd := signal_frame_done_steps_discipline s
    refine ⟨fun f hf => ?_, fun h => ?_, hd.2.1, fun f hf => ?_⟩
    · rw [hd.1] at hf
      split_ifs at hf
      · simpa using hf
      · simp at hf
    · rw [hd.1, h]
      simp
    · rcases hd.2.2 f hf with h | h
      · exact Or.inl h
      · exact Or.inr (Or.inl h)
  cases e with
  | ctl_done =>
    exact ⟨hsig.1, hsig.2.1, hsig.2.2.1, hsig.2.2.2,
      fun s' h => signal_frame_done_steps_recorded s s' h⟩
  | pp_tx_done =>
    simp only [irq_event.steps, irq_event.run, sde_encoder_phys_cmd_pp_tx_done_irq_steps,
      sde_encoder_phys_cmd_pp_tx_done_irq]
    by_cases hp : s.hw_pp.isNone = true
    · simp only [hp, if_true]
      refine ⟨by simp [unlocked_stores], fun _ => rfl, rfl, by simp, fun s' h => ?_⟩
      cases h
      exact mutations_recorded_refl _ _
    · simp only [hp, if_false]
      exact ⟨hsig.1, hsig.2.1, hsig.2.2.1, hsig.2.2.2,
        fun s' h => signal_frame_done_steps_recorded s s' h⟩
  | autorefresh_done =>
    have hd := autorefresh_done_irq_steps_discipline s
    exact ⟨hd.1, hd.2.1, hd.2.2.1, hd.2.2.2,
      fun s' h => autorefresh_done_irq_steps_recorded s s' h⟩
  | te_rd_ptr now =>
    have hd := te_rd_ptr_irq_steps_discipline s now
    simp only [irq_event.steps, irq_event.run]
    refine ⟨by rw [hd.1]; simp, fun _ => hd.1, hd.2.1,
      fun f hf => Or.inr (Or.inr (hd.2.2.1 f hf)), fun s' h => ?_⟩
    cases h
    exact hd.2.2.2
  | wr_ptr qsync_mode =>
    have hd := wr_ptr_irq_steps_discipline s qsync_mode
    simp only [irq_event.steps, irq_event.run]
    refine ⟨by rw [hd.1]; simp, fun _ => hd.1, hd.2.1,
      fun f hf => absurd hf (hd.2.2.1 f), fun s' h => ?_⟩
    cases h
    exact hd.2.2.2

/-- C21 (as amended), on a run: a ctl-done interrupt that retires the frame of
a recorded timeout stores the recovered flag between lock and unlock. -/
theorem irq_callback_lock_discipline_witness :
    irq_event.ctl_done.steps two_frames_after_timeout =
      [.atomic_op .pending_kickoff_cnt, .spin_lock, .store .recovered, .spin_unlock] ∧
    two_frames_after_timeout.autorefresh_disable_trans = false ∧
    unlocked_stores false (irq_event.ctl_done.steps two_frames_after_timeout) = [] :=
  ⟨by decide, rfl,
    (irq_callback_lock_discipline two_frames_after_timeout .ctl_done).2.1 rfl⟩

/-- C21 (as stated) fails: in the autorefresh disable transition a ctl-done
interrupt clears `autorefresh_disable_trans` by a plain store made with
`enc_spinlock` not held (the lock is not taken at all on this path), and the
flag has changed when the callback returns. -/
theorem disable_trans_cleared_outside_lock :
    irq_event.ctl_done.steps idle_in_disable_transition =
      [.atomic_op .pending_kickoff_cnt, .store .autorefresh_disable_trans] ∧
    unlocked_stores false (irq_event.ctl_done.steps idle_in_disable_transition) =
      [.autorefresh_disable_trans] ∧
    idle_in_disable_transition.autorefresh_disable_trans = true ∧
    (irq_event.ctl_done.run idle_in_disable_transition).map
      (fun s => s.autorefresh_disable_trans) = some false := by
  decide

/-! ## Commit rounds and the bound on the pending-kickoff counter -/

theorem trigger_start_cnt (s : sde_encoder_phys) (property : Nat) :
    (sde_encoder_phys_cmd_trigger_start s property).pending_kickoff_cnt =
      s.pending_kickoff_cnt := by
  unfold sde_encoder_phys_cmd_trigger_start
  dsimp only
  split
  · show (_sde_encoder_phys_cmd_config_autorefresh s _).pending_kickoff_cnt = _
    rcases config_autorefresh_cases s
      (_sde_encoder_phys_cmd_get_autorefresh_property s property % 4294967296) with h | ⟨_, t, _, h⟩
    · rw [h]
    · rw [h]
  · rfl

theorem wr_ptr_timeout_retry_cnt (s s1 : sde_encoder_phys) (env : wr_ptr_timeout_env)
    (ret : Int) (h0 : 0 ≤ s.pending_kickoff_cnt) (h1 : s.pending_kickoff_cnt ≤ INT_MAX)
    (hr : wr_ptr_timeout_retry s env = some (ret, s1)) :
    0 ≤ s1.pending_kickoff_cnt ∧ s1.pending_kickoff_cnt ≤ s.pending_kickoff_cnt := by
  unfold wr_ptr_timeout_retry at hr
  dsimp only at hr
  split_ifs at hr
  · exact (wait_for_wr_ptr_cnt s s1 env.retry ret h0 h1 hr).1
  · split at hr
    · cases hr
    · rename_i r2 s2 hw
      cases hr
      exact (wait_for_wr_ptr_cnt
        { s with trace := s.trace ++ [hw_effect.switch_vsync true] } s2 env.retry ret
        (by exact h0) (by exact h1) hw).1
  · cases hr; exact ⟨h0, le_refl _⟩

theorem handle_wr_ptr_timeout_cnt_le (s s' : sde_encoder_phys) (env : wr_ptr_timeout_env)
    (ret : Int) (h0 : 0 ≤ s.pending_kickoff_cnt) (h1 : s.pending_kickoff_cnt ≤ INT_MAX)
    (hh : _sde_encoder_phys_cmd_handle_wr_ptr_timeout s env = some (ret, s')) :
    0 ≤ s'.pending_kickoff_cnt ∧ s'.pending_kickoff_cnt ≤ s.pending_kickoff_cnt := by
  unfold _sde_encoder_phys_cmd_handle_wr_ptr_timeout at hh
  cases hr : wr_ptr_timeout_retry s env with
  | none => rw [hr] at hh; cases hh
  | some p =>
    obtain ⟨r1, s1⟩ := p
    have hc := wr_ptr_timeout_retry_cnt s s1 env r1 h0 h1 hr
    rw [hr] at hh
    dsimp only at hh
    by_cases ht : r1 = -ETIMEDOUT
    · rw [if_pos ht] at hh
      cases hf : force_signal_retire_fence s1 with
      | none => rw [hf] at hh; cases hh
      | some f =>
        rw [hf] at hh
        dsimp only at hh
        cases hh
        dsimp only
        rw [(force_signal_retire_fence_cnt s1 f hf).1]
        exact hc
    · rw [if_neg ht] at hh
      dsimp only at hh
      cases hh
      exact hc

theorem wait_for_tx_complete_loop_cnt (n : Nat) (rc rc' : Int) (s s' : sde_encoder_phys)
    (waits : List irq_wait)
    (h0 : 0 ≤ s.pending_kickoff_cnt) (h1 : s.pending_kickoff_cnt ≤ INT_MAX)
    (h : wait_for_tx_complete_loop n rc s waits = some (rc', s')) :
    0 ≤ s'.pending_kickoff_cnt ∧ s'.pending_kickoff_cnt ≤ s.pending_kickoff_cnt := by
  induction n generalizing rc s waits with
  | zero =>
    unfold wait_for_tx_complete_loop at h
    cases h
    exact ⟨h0, le_refl _⟩
  | succ n ih =>
    cases waits with
    | nil => unfold wait_for_tx_complete_loop at h; cases h
    | cons w ws =>
      unfold wait_for_tx_complete_loop at h
      have hc := run_irqs_cnt_le w.irqs s h0 h1
      have := ih _ _ ws hc.1 (le_trans hc.2 h1) h
      exact ⟨this.1, le_trans this.2 hc.2⟩

theorem wait_for_commit_done_idle_cnt (s s' : sde_encoder_phys) (rc rc' : Int)
    (env : wait_for_commit_done_env)
    (h0 : 0 ≤ s.pending_kickoff_cnt) (h1 : s.pending_kickoff_cnt ≤ INT_MAX)
    (h : wait_for_commit_done_idle s rc env = some (rc', s')) :
    0 ≤ s'.pending_kickoff_cnt ∧ s'.pending_kickoff_cnt ≤ s.pending_kickoff_cnt := by
  unfold wait_for_commit_done_idle at h
  dsimp only at h
  cases hl : wait_for_tx_complete_loop s.pending_kickoff_cnt.toNat rc s env.tx_complete with
  | none => rw [hl] at h; cases h
  | some p =>
    obtain ⟨r1, t⟩ := p
    have hc := wait_for_tx_complete_loop_cnt _ _ _ _ _ _ h0 h1 hl
    rw [hl] at h
    dsimp only at h
    split_ifs at h
    all_goals (cases h; exact hc)

theorem wait_for_commit_done_master_cnt (s s' : sde_encoder_phys)
    (env : wait_for_commit_done_env) (rc : Int) (status : Nat) (to_idle : Bool)
    (h0 : 0 ≤ s.pending_kickoff_cnt) (h1 : s.pending_kickoff_cnt ≤ INT_MAX)
    (h : wait_for_commit_done_master s env = some (rc, s', status, to_idle)) :
    0 ≤ s'.pending_kickoff_cnt ∧ s'.pending_kickoff_cnt ≤ s.pending_kickoff_cnt := by
  unfold wait_for_commit_done_master at h
  cases hw : _sde_encoder_phys_cmd_wait_for_wr_ptr s env.wr_ptr with
  | none => rw [hw] at h; cases h
  | some p =>
    obtain ⟨rc0, s1⟩ := p
    have c1 := (wait_for_wr_ptr_cnt s s1 env.wr_ptr rc0 h0 h1 hw).1
    rw [hw] at h
    dsimp only at h
    cases hh : (if rc0 = -ETIMEDOUT then
        _sde_encoder_phys_cmd_handle_wr_ptr_timeout s1 env.timeout
      else some (rc0, s1)) with
    | none => rw [hh] at h; cases h
    | some q =>
      obtain ⟨rc2, s2⟩ := q
      have c2 : 0 ≤ s2.pending_kickoff_cnt ∧ s2.pending_kickoff_cnt ≤ s.pending_kickoff_cnt := by
        by_cases ht : rc0 = -ETIMEDOUT
        · rw [if_pos ht] at hh
          have := handle_wr_ptr_timeout_cnt_le s1 s2 env.timeout rc2 c1.1 (le_trans c1.2 h1) hh
          exact ⟨this.1, le_trans this.2 c1.2⟩
        · rw [if_neg ht] at hh
          cases hh
          exact c1
      rw [hh] at h
      dsimp only at h
      have ca := (wait_for_autorefresh_done_cnt s2 env.autorefresh c2.1
        (le_trans c2.2 h1)).1
      split_ifs at h
      · cases h; exact c2
      · cases h; exact ⟨ca.1, le_trans ca.2 c2.2⟩
      · cases h; exact c2

theorem wait_for_commit_done_cnt (s s' : sde_encoder_phys) (env : wait_for_commit_done_env)
    (rc : Int) (h0 : 0 ≤ s.pending_kickoff_cnt) (h1 : s.pending_kickoff_cnt ≤ INT_MAX)
    (h : sde_encoder_phys_cmd_wait_for_commit_done s env = some (rc, s')) :
    0 ≤ s'.pending_kickoff_cnt ∧ s'.pending_kickoff_cnt ≤ s.pending_kickoff_cnt := by
  unfold sde_encoder_phys_cmd_wait_for_commit_done at h
  by_cases hg : (env.ctl_done_support && !sde_encoder_phys_cmd_is_master s) = true
  · rw [if_pos hg] at h; cases h; exact ⟨h0, le_refl _⟩
  · rw [if_neg hg] at h
    dsimp only at h
    cases hf : (if sde_encoder_phys_cmd_is_master s = true then
        wait_for_commit_done_master s env
      else some (0, s, env.invalid_ctl_status, false)) with
    | none => rw [hf] at h; cases h
    | some q =>
      obtain ⟨rc1, s1, status, to_idle⟩ := q
      have c1 : 0 ≤ s1.pending_kickoff_cnt ∧ s1.pending_kickoff_cnt ≤ s.pending_kickoff_cnt := by
        by_cases hm : sde_encoder_phys_cmd_is_master s = true
        · rw [if_pos hm] at hf
          exact wait_for_commit_done_master_cnt s s1 env rc1 status to_idle h0 h1 hf
        · rw [if_neg hm] at hf
          cases hf
          exact ⟨h0, le_refl _⟩
      rw [hf] at h
      dsimp only at h
      split_ifs at h
      · have := wait_for_commit_done_idle_cnt s1 s' rc1 rc env c1.1 (le_trans c1.2 h1) h
        exact ⟨this.1, le_trans this.2 c1.2⟩
      · cases h; exact c1

/-- In a round that waits for idle, prepare-for-kickoff leaves at most one
frame pending, and none when it reports a failure. -/
theorem prepare_waits_counter_down (s : sde_encoder_phys) (r : kickoff_round)
    (ret : Int) (s1 : sde_encoder_phys)
    (h0 : 0 ≤ s.pending_kickoff_cnt) (h2 : s.pending_kickoff_cnt ≤ 2)
    (hw : waits_for_idle s r)
    (h : sde_encoder_phys_cmd_prepare_for_kickoff s r.params r.env = some (ret, s1)) :
    0 ≤ s1.pending_kickoff_cnt ∧ s1.pending_kickoff_cnt ≤ 1 ∧
      (ret ≠ 0 → s1.pending_kickoff_cnt = 0) := by
  obtain ⟨hpp, hmode, he1, he2, hwait⟩ := hw
  obtain ⟨ret', sw, hidle, hret, hcnt⟩ := prepare_for_kickoff_tail_cnt s r.params r.env _ h hpp
  rw [if_pos hmode, wait_for_idle_default_waiting
    { s with frame_trigger_mode := r.params.frame_trigger_mode } r.env.idle hmode he1 he2]
    at hidle
  simp only [Option.map_some', Option.some.injEq] at hidle
  dsimp only at hret hcnt
  rw [hcnt]
  have hs0 : 0 ≤ ({ s with frame_trigger_mode := r.params.frame_trigger_mode } :
      sde_encoder_phys).pending_kickoff_cnt := h0
  have hs1 : ({ s with frame_trigger_mode := r.params.frame_trigger_mode } :
      sde_encoder_phys).pending_kickoff_cnt ≤ INT_MAX := by
    show s.pending_kickoff_cnt ≤ INT_MAX
    unfold INT_MAX; omega
  by_cases hz : r.env.idle.wait.ret = 0
  · have hne : ¬ (r.env.idle.wait.ret = -ETIMEDOUT) := by rw [hz]; decide
    rw [if_neg (by simpa using hz), if_neg hne] at hidle
    have hsw : sw = run_irqs { s with frame_trigger_mode := r.params.frame_trigger_mode }
        r.env.idle.wait.irqs := (Prod.mk.inj hidle).2.symm
    have hr0 : ret = 0 := by rw [hret, ← (Prod.mk.inj hidle).1, hz]
    have hrel := run_irqs_rel r.env.idle.wait.irqs _ hs0 hs1
    have hc := hwait hz
    have hsw1 : sw.pending_kickoff_cnt ≤ 1 := by
      rw [hsw]
      refine le_trans hc ?_
      split <;> decide
    have hsw0 : 0 ≤ sw.pending_kickoff_cnt := by rw [hsw]; exact hrel.1
    have ht := prepare_tail_counter sw r.env.autorefresh_status r.env.vblank_wait hsw0 hsw1
    exact ⟨ht.1, le_trans ht.2 hsw1, fun hne0 => absurd hr0 hne0⟩
  · rw [if_pos (by simpa using hz)] at hidle
    have hsw : sw.pending_kickoff_cnt = 0 := by rw [← (Prod.mk.inj hidle).2]
    have ht := prepare_tail_counter sw r.env.autorefresh_status r.env.vblank_wait
      (by rw [hsw]) (by rw [hsw]; decide)
    rw [hsw] at ht
    exact ⟨ht.1, le_trans ht.2 (by decide), fun _ => le_antisymm ht.2 ht.1⟩

theorem kickoff_round_counter (s s' : sde_encoder_phys) (r : kickoff_round)
    (h0 : 0 ≤ s.pending_kickoff_cnt) (h2 : s.pending_kickoff_cnt ≤ 2)
    (hw : waits_for_idle s r) (h : r.run s = some s') :
    0 ≤ s'.pending_kickoff_cnt ∧ s'.pending_kickoff_cnt ≤ 2 := by
  unfold kickoff_round.run at h
  split at h
  · cases h
  · rename_i ret s1 hprep
    obtain ⟨p0, p1, _⟩ := prepare_waits_counter_down s r ret s1 h0 h2 hw hprep
    split at h
    · cases h
    · rename_i sb hbefore
      have hb := run_completion_events_rel _ _ _ hbefore p0 (by unfold INT_MAX; omega)
      have hi : (sde_encoder_phys_cmd_trigger_start (issue_frame sb)
          r.autorefresh_property).pending_kickoff_cnt = sb.pending_kickoff_cnt + 1 := by
        rw [trigger_start_cnt]
        show wrap_s32 (sb.pending_kickoff_cnt + 1) = _
        have := hb.1; have := hb.2.1
        unfold wrap_s32; omega
      dsimp only at h
      split at h
      · cases h
      · rename_i st hafter
        have ha := run_completion_events_rel _ _ _ hafter
          (by rw [hi]; have := hb.1; omega)
          (by rw [hi]; have := hb.2.1; unfold INT_MAX; omega)
        split at h
        · cases h
        · rename_i rc sc hcommit
          have ht0 := ha.1
          have ht2 : st.pending_kickoff_cnt ≤ 2 := by
            have := ha.2.1; have := hb.2.1; omega
          have hc := wait_for_commit_done_cnt st sc r.commit_done rc ht0
            (by unfold INT_MAX; omega) hcommit
          have he := run_completion_events_rel _ _ _ h hc.1
            (by have := hc.2; unfold INT_MAX; omega)
          exact ⟨he.1, by have := he.2.1; have := hc.2; omega⟩

theorem run_kickoff_rounds_counter (rounds : List kickoff_round) (s s' : sde_encoder_phys)
    (h0 : 0 ≤ s.pending_kickoff_cnt) (h2 : s.pending_kickoff_cnt ≤ 2)
    (hw : rounds_wait_for_idle s rounds = true)
    (h : run_kickoff_rounds s rounds = some s') :
    0 ≤ s'.pending_kickoff_cnt ∧ s'.pending_kickoff_cnt ≤ 2 := by
  induction rounds generalizing s with
  | nil =>
    cases h
    exact ⟨h0, h2⟩
  | cons r rs ih =>
    unfold run_kickoff_rounds at h
    unfold rounds_wait_for_idle at hw
    rw [Bool.and_eq_true, decide_eq_true_eq] at hw
    obtain ⟨hw1, hw2⟩ := hw
    split at h
    · cases h
    · rename_i sn hrun
      rw [hrun] at hw2
      have hn := kickoff_round_counter s sn r h0 h2 hw1 hrun
      exact ih sn hn.1 hn.2 hw2 h

end SdeCmd
